import Mathlib

/-!
# Exerciser PAL layer (`platform/pal_uefi_dt/src/pal_exerciser.c`)

A shallow embedding of the exerciser platform-abstraction layer of the BSA
architecture compliance suite, and theorems about it.

* C unsigned integers are natural numbers; every conversion to `UINT32` or
  `UINT64` that the C code performs is an explicit `% 2 ^ 32` / `% 2 ^ 64`.
* The hardware is a word store keyed by address together with the list of
  MMIO accesses performed so far (`Hw`).  Functions that touch the hardware
  take the state and return the new one.
* The `while` loop of the capability walker is a recursion on a fuel
  argument; running out of fuel is `none`.
* Constants and enumerators that live in headers outside this source file
  are fields of `Platform`.
-/

namespace PalExerciser

/-! ## Machine integers -/

/-- Conversion to `UINT32`. -/
def u32 (x : Nat) : Nat := x % 2 ^ 32

/-- Conversion to `UINT64`. -/
def u64 (x : Nat) : Nat := x % 2 ^ 64

/-- Bitwise complement of a 64-bit (`unsigned long`) operand. -/
def not64 (x : Nat) : Nat := (2 ^ 64 - 1) ^^^ (x % 2 ^ 64)

/-! ## Hardware state and the MMIO primitives -/

/-- One access to the memory-mapped address space. -/
inductive MmioAccess where
  | rd (addr : Nat)
  | wr (addr : Nat) (data : Nat)
  deriving DecidableEq, Repr

/-- The hardware seen by the layer: the 32-bit word stored at every address, and
the accesses performed so far, oldest first. -/
structure Hw where
  mem : Nat → Nat
  log : List MmioAccess

/-- Modelled from the spec: `pal_mmio_read` is only declared in this file
(`UINT32 pal_mmio_read(UINT64 addr)`); spec 4.2 describes it as a direct 32-bit
memory-mapped read, and spec 8/9 let registers be plain storage.  The address is
a `UINT64`, the result a `UINT32`; the access is recorded. -/
def pal_mmio_read (addr : Nat) (s : Hw) : Nat × Hw :=
  (u32 (s.mem (u64 addr)), { s with log := s.log ++ [MmioAccess.rd (u64 addr)] })

/-- Modelled from the spec: `pal_mmio_write` is only declared in this file
(`VOID pal_mmio_write(UINT64 addr, UINT32 data)`); spec 4.2 describes it as a
direct 32-bit memory-mapped write.  The data argument is converted to `UINT32`
by the call, whatever the width of the expression passed. -/
def pal_mmio_write (addr data : Nat) (s : Hw) : Hw :=
  { mem := Function.update s.mem (u64 addr) (u32 data),
    log := s.log ++ [MmioAccess.wr (u64 addr) (u32 data)] }

/-- The write accesses of a log, as (address, data) pairs in order. -/
def writesOf : List MmioAccess → List (Nat × Nat)
  | [] => []
  | MmioAccess.rd _ :: l => writesOf l
  | MmioAccess.wr a d :: l => (a, d) :: writesOf l

/-- The addresses read in a log, in order. -/
def readsOf : List MmioAccess → List Nat
  | [] => []
  | MmioAccess.rd a :: l => a :: readsOf l
  | MmioAccess.wr _ _ :: l => readsOf l

/-! ## Bus/device/function identifiers -/

/-- Modelled from the spec: the macro `PCIE_EXTRACT_BDF_SEG` is defined in a
header outside this file; spec 3 says a BDF is a 32-bit value packing segment,
bus, device and function in fields of fixed width, four 8-bit fields with the
segment on top. -/
def PCIE_EXTRACT_BDF_SEG (bdf : Nat) : Nat := (bdf >>> 24) &&& 0xFF

/-- Modelled from the spec: the macro `PCIE_EXTRACT_BDF_BUS`, bits 16..23 of a BDF. -/
def PCIE_EXTRACT_BDF_BUS (bdf : Nat) : Nat := (bdf >>> 16) &&& 0xFF

/-- Modelled from the spec: the macro `PCIE_EXTRACT_BDF_DEV`, bits 8..15 of a BDF. -/
def PCIE_EXTRACT_BDF_DEV (bdf : Nat) : Nat := (bdf >>> 8) &&& 0xFF

/-- Modelled from the spec: the macro `PCIE_EXTRACT_BDF_FUNC`, bits 0..7 of a BDF. -/
def PCIE_EXTRACT_BDF_FUNC (bdf : Nat) : Nat := bdf &&& 0xFF

/-- Modelled from the spec: the macro `PCIE_CREATE_BDF` packs the four fields
into one 32-bit identifier, `(Seg << 24) | (Bus << 16) | (Dev << 8) | Func`,
evaluated on `UINT32` operands. -/
def PCIE_CREATE_BDF (Seg Bus Dev Func : Nat) : Nat :=
  u32 (u32 (Seg <<< 24) ||| u32 (Bus <<< 16) ||| u32 (Dev <<< 8) ||| Func)

/-- Modelled from the spec: `PCI_MAX_DEVICE`, the largest device number on a
bus (32 devices per bus, spec 4.1 and the comment in
`pal_exerciser_get_pcie_config_offset`). -/
def PCI_MAX_DEVICE : Nat := 31

/-- Modelled from the spec: `PCIE_MAX_DEV`, 32 devices per bus (spec 4.1). -/
def PCIE_MAX_DEV : Nat := 32

/-- Modelled from the spec: `PCIE_MAX_FUNC`, 8 functions per device (spec 4.1). -/
def PCIE_MAX_FUNC : Nat := 8

/-- The function `pal_increment_bus_dev`: the next device in enumeration order.  `Bus` and
`Dev` are `UINT32` locals, so `Dev++` and `Bus++` are 32-bit increments. -/
def pal_increment_bus_dev (Bdf : Nat) : Nat :=
  let Seg := PCIE_EXTRACT_BDF_SEG Bdf
  let Bus := PCIE_EXTRACT_BDF_BUS Bdf
  let Dev := PCIE_EXTRACT_BDF_DEV Bdf
  if Dev ≠ PCI_MAX_DEVICE then
    PCIE_CREATE_BDF Seg Bus (u32 (Dev + 1)) 0
  else
    PCIE_CREATE_BDF Seg (u32 (Bus + 1)) 0 0

/-- The function `pal_exerciser_get_pcie_config_offset`: the offset of the configuration
space of `Bdf` from the ECAM base.  The three products and the two sums are
computed on `UINT32` operands and then widened to `UINT64`. -/
def pal_exerciser_get_pcie_config_offset (Bdf : Nat) : Nat :=
  let bus := PCIE_EXTRACT_BDF_BUS Bdf
  let dev := PCIE_EXTRACT_BDF_DEV Bdf
  let func := PCIE_EXTRACT_BDF_FUNC Bdf
  let cfg_addr :=
    u32 (u32 (u32 (u32 (u32 (bus * PCIE_MAX_DEV) * PCIE_MAX_FUNC) * 4096)
        + u32 (u32 (dev * PCIE_MAX_FUNC) * 4096))
      + u32 (func * 4096))
  u64 cfg_addr

/-! ## Platform constants and external collaborators -/

/-- Modelled from the spec: everything this file uses but does not define.  The
register offsets, masks, shifts and enumerator values come from
`pal_exerciser.h`, `pal_uefi.h` and `bsa_pcie_enum.h`, which are outside this
source file and whose values the spec does not give (spec 6 only requires that
they be reproduced exactly), so they are parameters.  `pal_pcie_get_mcfg_ecam`
and `palPcieGetBase` are the two external base-address resolvers (spec 4.2).
`exerciser_ats_response` is the exerciser hardware itself: how the registers of
device `Bdf` stand once the device has reacted to an ATS trigger (spec 4.5: the
request "reads back the ATS status bit"; spec 5: the hardware may or may not have
updated the status by the time of the single poll). -/
structure Platform where
  pal_pcie_get_mcfg_ecam : Nat
  palPcieGetBase : Nat → Nat → Nat
  exerciser_ats_response : Nat → (Nat → Nat) → (Nat → Nat)
  EXERCISER_ID : Nat
  MASK_BIT : Nat
  SHIFT_4BIT : Nat
  INTXCTL : Nat
  MSICTL : Nat
  DMACTL1 : Nat
  DMA_BUS_ADDR : Nat
  DMA_LEN : Nat
  DMASTATUS : Nat
  PASID_VAL : Nat
  ATSCTL : Nat
  ATS_ADDR : Nat
  RID_CTL_REG : Nat
  DMA_TO_DEVICE_MASK : Nat
  CAP_PTR_OFFSET : Nat
  CAP_PTR_MASK : Nat
  PCIE_CAP_OFFSET : Nat
  PCIE_CAP_ID_MASK : Nat
  PCIE_NXT_CAP_PTR_MASK : Nat
  PCIE_CAP_PTR_OFFSET : Nat
  PCI_CAP_ID_MASK : Nat
  PCI_NXT_CAP_PTR_MASK : Nat
  PCI_CAP_PTR_OFFSET : Nat
  PCIE_CAP_CTRL_OFFSET : Nat
  PCIE_CAP_EN_MASK : Nat
  PCIE_CAP_DIS_MASK : Nat
  PASID : Nat
  PCIE : Nat
  PASID_LEN_MASK : Nat
  PASID_LEN_SHIFT : Nat
  PASID_EN_SHIFT : Nat
  PASID_VAL_MASK : Nat
  PASID_TLP_STOP_MASK : Nat
  RID_VALUE_MASK : Nat
  RID_VALID_MASK : Nat
  RID_VALID : Nat
  RID_NOT_VALID : Nat
  TXN_REQ_ID : Nat
  TXN_REQ_ID_VALID : Nat
  TXN_ADDR_TYPE : Nat
  AT_UNTRANSLATED : Nat
  AT_TRANSLATED : Nat
  AT_RESERVED : Nat
  EDMA_NO_SUPPORT : Nat
  EDMA_COHERENT : Nat
  EDMA_NOT_COHERENT : Nat
  EDMA_FROM_DEVICE : Nat
  EDMA_TO_DEVICE : Nat
  MSI_GENERATION_MASK : Nat
  CLR_INTR_MASK : Nat
  NO_SNOOP_START_MASK : Nat
  NO_SNOOP_STOP_MASK : Nat
  ATS_TRIGGER : Nat
  ATS_STATUS : Nat
  ACCESS_TYPE_RD : Nat
  PREFETCHABLE_BIT_SHIFT : Nat
  MMIO_PREFETCHABLE : Nat
  MMIO_NON_PREFETCHABLE : Nat

/-- Modelled from the spec: the enumeration `EXERCISER_PARAM_TYPE` is declared in
a header outside this file.  Its constructors are the case labels of the
switches on `Type`; `other` stands for every value that no case label names. -/
inductive EXERCISER_PARAM_TYPE where
  | SNOOP_ATTRIBUTES
  | LEGACY_IRQ
  | DMA_ATTRIBUTES
  | P2P_ATTRIBUTES
  | PASID_ATTRIBUTES
  | MSIX_ATTRIBUTES
  | CFG_TXN_ATTRIBUTES
  | ATS_RES_ATTRIBUTES
  | other (code : Nat)
  deriving DecidableEq, Repr

/-- Modelled from the spec: the enumeration `EXERCISER_OPS` is declared in a
header outside this file.  Its constructors are the case labels of the switch in
`pal_exerciser_ops`; `other` stands for every value that no case label names. -/
inductive EXERCISER_OPS where
  | START_DMA
  | GENERATE_MSI
  | GENERATE_L_INTR
  | MEM_READ
  | MEM_WRITE
  | CLEAR_INTR
  | PASID_TLP_START
  | PASID_TLP_STOP
  | TXN_NO_SNOOP_ENABLE
  | TXN_NO_SNOOP_DISABLE
  | ATS_TXN_REQ
  | other (code : Nat)
  deriving DecidableEq, Repr

/-- Modelled from the spec: the enumeration `EXERCISER_DATA_TYPE` is declared in
a header outside this file.  Its constructors are the case labels of the switch
in `pal_exerciser_get_data`; `other` stands for every value that no case label
names. -/
inductive EXERCISER_DATA_TYPE where
  | EXERCISER_DATA_CFG_SPACE
  | EXERCISER_DATA_BAR0_SPACE
  | other (code : Nat)
  deriving DecidableEq, Repr

/-- Modelled from the spec: one register descriptor of the configuration-space
snapshot (spec 3, Data Snapshot): offset, access attribute (the field
`attribute` of the C structure, a reserved word here) and value.  The type is
declared in a header outside this file. -/
structure ECAM_REG_ATTRIBUTE where
  offset : Nat
  attr : Nat
  value : Nat
  deriving DecidableEq, Repr

/-- Modelled from the spec: the caller-supplied snapshot `exerciser_data_t`
(spec 3, Data Snapshot), declared in a header outside this file.  It holds the
parts that `pal_exerciser_get_data` assigns: the descriptor array
`cfg_space.reg`, indexed from 0, and the BAR0 base address and type of
`bar_space`. -/
structure exerciser_data_t where
  cfg_space_reg : Nat → ECAM_REG_ATTRIBUTE
  bar_space_base_addr : Nat
  bar_space_type : Nat

/-- Modelled from the spec: `TEST_REG_COUNT`, the length of the two tables of
`pal_exerciser_get_data`, each of which is initialised with ten entries. -/
def TEST_REG_COUNT : Nat := 10

/-- The function `pal_exerciser_get_ecsr_base`: the base of BAR `BarIndex` of the device,
delegated to `palPcieGetBase`; the result is a `UINT64`. -/
def pal_exerciser_get_ecsr_base (K : Platform) (Bdf BarIndex : Nat) : Nat :=
  u64 (K.palPcieGetBase Bdf BarIndex)

/-- The value of `Ecam` in the functions below: `pal_pcie_get_mcfg_ecam()`, a
`UINT64`. -/
def ecamBase (K : Platform) : Nat := u64 K.pal_pcie_get_mcfg_ecam

/-! ## Identity check -/

/-- The function `pal_is_bdf_exerciser`: 1 when the word at the start of the configuration
space of `bdf` is the exerciser signature, else 0. -/
def pal_is_bdf_exerciser (K : Platform) (bdf : Nat) (s : Hw) : Nat × Hw :=
  let Ecam := ecamBase K
  let r := pal_mmio_read (Ecam + pal_exerciser_get_pcie_config_offset bdf) s
  let vendor_dev_id := r.1
  if vendor_dev_id = K.EXERCISER_ID then (1, r.2) else (0, r.2)

/-! ## DMA trigger -/

/-- The function `pal_exerciser_start_dma_direction`: program the direction bit of DMA
control register 1 when `Direction` is one of the two direction tags, then set
the trigger bit.  `Mask` is a `UINT32` local. -/
def pal_exerciser_start_dma_direction (K : Platform) (Base Direction : Nat) (s : Hw) :
    Nat × Hw :=
  let s1 :=
    if Direction = K.EDMA_TO_DEVICE then
      let Mask := u32 K.DMA_TO_DEVICE_MASK
      let r := pal_mmio_read (Base + K.DMACTL1) s
      pal_mmio_write (Base + K.DMACTL1) (r.1 &&& Mask) r.2
    else s
  let s2 :=
    if Direction = K.EDMA_FROM_DEVICE then
      let Mask := u32 (K.MASK_BIT <<< K.SHIFT_4BIT)
      let r := pal_mmio_read (Base + K.DMACTL1) s1
      pal_mmio_write (Base + K.DMACTL1) (r.1 ||| Mask) r.2
    else s1
  let r := pal_mmio_read (Base + K.DMACTL1) s2
  (0, pal_mmio_write (Base + K.DMACTL1) (r.1 ||| K.MASK_BIT) r.2)

/-! ## Capability walker -/

/-- The `while (NxtPtr != 0)` loop of `pal_exerciser_find_pcie_capability`.  One
unit of fuel pays for one evaluation of the loop condition.  The result is
`none` when the fuel runs out, `some (some off, s)` when the loop returns 0
after storing `off` through `Offset` (a `UINT32`), and `some (none, s)` when
the loop ends with `NxtPtr = 0`.  `IdMask`, `PtrMask`, `PtrOffset` are the
`UINT32` locals of the function and `NxtPtr` is its `UINT64` local. -/
def capabilityLoop (K : Platform) (ID Bdf IdMask PtrMask PtrOffset : Nat) :
    Nat → Nat → Hw → Option (Option Nat × Hw)
  | 0, _, _ => none
  | fuel + 1, NxtPtr, s =>
    if NxtPtr = 0 then some (none, s)
    else
      let r := pal_mmio_read
        (ecamBase K + pal_exerciser_get_pcie_config_offset Bdf + NxtPtr) s
      let Data := r.1
      let TempId := Data &&& IdMask
      if TempId = ID then some (some (u32 NxtPtr), r.2)
      else capabilityLoop K ID Bdf IdMask PtrMask PtrOffset fuel
        ((Data >>> PtrOffset) &&& PtrMask) r.2

/-- The function `pal_exerciser_find_pcie_capability`.  `Offset` is the value held by
`*Offset` at the call; the result is `(status, *Offset after the call, hardware)`,
or `none` when the fuel does not suffice.  The diagnostic print on the
not-found path has no effect on the hardware and is left out. -/
def pal_exerciser_find_pcie_capability (K : Platform) (fuel : Nat)
    (ID Bdf Value Offset : Nat) (s : Hw) : Option (Nat × Nat × Hw) :=
  let Ecam := ecamBase K
  let go (IdMask PtrMask PtrOffset NxtPtr : Nat) (s0 : Hw) : Option (Nat × Nat × Hw) :=
    match capabilityLoop K ID Bdf IdMask PtrMask PtrOffset fuel NxtPtr s0 with
    | none => none
    | some (some off, s1) => some (0, off, s1)
    | some (none, s1) => some (1, Offset, s1)
  if Value = 1 then
    go (u32 K.PCIE_CAP_ID_MASK) (u32 K.PCIE_NXT_CAP_PTR_MASK) (u32 K.PCIE_CAP_PTR_OFFSET)
      (u64 K.PCIE_CAP_OFFSET) s
  else
    let r := pal_mmio_read
      (Ecam + K.CAP_PTR_OFFSET + pal_exerciser_get_pcie_config_offset Bdf) s
    go (u32 K.PCI_CAP_ID_MASK) (u32 K.PCI_NXT_CAP_PTR_MASK) (u32 K.PCI_CAP_PTR_OFFSET)
      (u64 (r.1 &&& K.CAP_PTR_MASK)) r.2

/-! ## Parameter engine -/

/-- The `TXN_ADDR_TYPE` case of `pal_exerciser_set_param`, also reached by falling
through from `TXN_REQ_ID_VALID`: OR one of the codes 1, 2, 3 into bits 10..11 of
DMA control register 1, then return 0.  `Data` is a `UINT32` local. -/
def setTxnAddrType (K : Platform) (Base Value2 : Nat) (s : Hw) : Nat × Hw :=
  if Value2 = K.AT_UNTRANSLATED then
    let r := pal_mmio_read (Base + K.DMACTL1) s
    (0, pal_mmio_write (Base + K.DMACTL1) (r.1 ||| u32 (0x1 <<< 10)) r.2)
  else if Value2 = K.AT_TRANSLATED then
    let r := pal_mmio_read (Base + K.DMACTL1) s
    (0, pal_mmio_write (Base + K.DMACTL1) (r.1 ||| u32 (0x2 <<< 10)) r.2)
  else if Value2 = K.AT_RESERVED then
    let r := pal_mmio_read (Base + K.DMACTL1) s
    (0, pal_mmio_write (Base + K.DMACTL1) (r.1 ||| u32 (0x3 <<< 10)) r.2)
  else (0, s)

/-- The function `pal_exerciser_set_param`.  `Value1` and `Value2` are `UINT64`, `Data` is a
`UINT32` local.  In the `PASID_ATTRIBUTES` case the complement and the shifted
field are computed at the width of `PASID_LEN_MASK` (64 bits here; only the low
32 bits reach `Data`), and `Value1 - 16` is a 64-bit subtraction.  The inner
switches compare `Value1` and `Value2` with their case labels in turn; the case
`TXN_REQ_ID_VALID` has no `break` after its inner switch and falls through. -/
def pal_exerciser_set_param (K : Platform) (Type_ : EXERCISER_PARAM_TYPE)
    (Value1 Value2 Bdf : Nat) (s : Hw) : Nat × Hw :=
  let Base := pal_exerciser_get_ecsr_base K Bdf 0
  match Type_ with
  | EXERCISER_PARAM_TYPE.SNOOP_ATTRIBUTES => (0, s)
  | EXERCISER_PARAM_TYPE.LEGACY_IRQ => (0, s)
  | EXERCISER_PARAM_TYPE.DMA_ATTRIBUTES =>
    let s1 := pal_mmio_write (Base + K.DMA_BUS_ADDR) Value1 s
    let s2 := pal_mmio_write (Base + K.DMA_LEN) Value2 s1
    (0, s2)
  | EXERCISER_PARAM_TYPE.P2P_ATTRIBUTES => (0, s)
  | EXERCISER_PARAM_TYPE.PASID_ATTRIBUTES =>
    let r := pal_mmio_read (Base + K.DMACTL1) s
    let Data := r.1
    let Data := u32 (Data &&& not64 (K.PASID_LEN_MASK <<< K.PASID_LEN_SHIFT))
    let Data := u32 (Data |||
      u64 ((u64 (u64 Value1 + 2 ^ 64 - 16) &&& K.PASID_LEN_MASK) <<< K.PASID_LEN_SHIFT))
    (0, pal_mmio_write (Base + K.DMACTL1) Data r.2)
  | EXERCISER_PARAM_TYPE.MSIX_ATTRIBUTES => (0, s)
  | EXERCISER_PARAM_TYPE.CFG_TXN_ATTRIBUTES =>
    if Value1 = K.TXN_REQ_ID then
      let Data := u32 ((Value2 &&& K.RID_VALUE_MASK) ||| K.RID_VALID_MASK)
      (0, pal_mmio_write (Base + K.RID_CTL_REG) Data s)
    else if Value1 = K.TXN_REQ_ID_VALID then
      if Value2 = K.RID_VALID then
        let r := pal_mmio_read (Base + K.RID_CTL_REG) s
        let Data := u32 (r.1 ||| K.RID_VALID_MASK)
        (0, pal_mmio_write (Base + K.RID_CTL_REG) Data r.2)
      else if Value2 = K.RID_NOT_VALID then
        (0, pal_mmio_write (Base + K.RID_CTL_REG) 0 s)
      else setTxnAddrType K Base Value2 s
    else if Value1 = K.TXN_ADDR_TYPE then setTxnAddrType K Base Value2 s
    else (1, s)
  | _ => (1, s)

/-- What `pal_exerciser_get_param` hands back: the returned status, the values
held by `*Value1` and `*Value2` after the call, and the hardware. -/
structure GetParamResult where
  status : Nat
  Value1 : Nat
  Value2 : Nat
  hw : Hw

/-- The function `pal_exerciser_get_param`.  `Value1` and `Value2` are the values held by
`*Value1` and `*Value2` at the call (both `UINT64`); `Status` and `Temp` are
`UINT32` locals and the returned status is a `UINT32`. -/
def pal_exerciser_get_param (K : Platform) (Type_ : EXERCISER_PARAM_TYPE)
    (Value1 Value2 Bdf : Nat) (s : Hw) : GetParamResult :=
  let Base := pal_exerciser_get_ecsr_base K Bdf 0
  match Type_ with
  | EXERCISER_PARAM_TYPE.SNOOP_ATTRIBUTES => ⟨0, Value1, Value2, s⟩
  | EXERCISER_PARAM_TYPE.LEGACY_IRQ =>
    let r1 := pal_mmio_read (Base + K.INTXCTL) s
    let r2 := pal_mmio_read (Base + K.INTXCTL) r1.2
    ⟨u32 (r2.1 ||| K.MASK_BIT), r1.1, Value2, r2.2⟩
  | EXERCISER_PARAM_TYPE.DMA_ATTRIBUTES =>
    let r1 := pal_mmio_read (Base + K.DMA_BUS_ADDR) s
    let r2 := pal_mmio_read (Base + K.DMA_LEN) r1.2
    let r3 := pal_mmio_read (Base + K.DMASTATUS) r2.2
    let Temp := r3.1
    let Status := u32 (Temp &&& K.MASK_BIT)
    ⟨Status, r1.1, r2.1, r3.2⟩
  | EXERCISER_PARAM_TYPE.P2P_ATTRIBUTES => ⟨0, Value1, Value2, s⟩
  | EXERCISER_PARAM_TYPE.PASID_ATTRIBUTES =>
    let r := pal_mmio_read (Base + K.DMACTL1) s
    ⟨0, u64 (((r.1 >>> K.PASID_LEN_SHIFT) &&& K.PASID_LEN_MASK) + 16), Value2, r.2⟩
  | EXERCISER_PARAM_TYPE.MSIX_ATTRIBUTES =>
    let r1 := pal_mmio_read (Base + K.MSICTL) s
    let r2 := pal_mmio_read (Base + K.MSICTL) r1.2
    ⟨u32 (r2.1 ||| K.MASK_BIT), r1.1, Value2, r2.2⟩
  | EXERCISER_PARAM_TYPE.ATS_RES_ATTRIBUTES =>
    let r := pal_mmio_read (Base + K.ATS_ADDR) s
    ⟨0, r.1, Value2, r.2⟩
  | _ => ⟨1, Value1, Value2, s⟩

/-! ## Operation dispatcher -/

/-- The tail shared by `PASID_TLP_START` and `PASID_TLP_STOP` in
`pal_exerciser_ops`: look the PASID capability up in the PCIe list and, when it
is found, rewrite its control word with `f`; return 0 when found, else 1.
`CapabilityOffset` is an uninitialised local, read only after the walker has
stored into it; its initial value is taken to be 0. -/
def pasidCapabilityCtrl (K : Platform) (fuel Bdf : Nat) (f : Nat → Nat) (s : Hw) :
    Option (Nat × Hw) :=
  let Ecam := ecamBase K
  match pal_exerciser_find_pcie_capability K fuel K.PASID Bdf K.PCIE 0 s with
  | none => none
  | some (status, CapabilityOffset, s1) =>
    if status = 0 then
      let a := Ecam + pal_exerciser_get_pcie_config_offset Bdf + CapabilityOffset
        + K.PCIE_CAP_CTRL_OFFSET
      let r := pal_mmio_read a s1
      some (0, pal_mmio_write a (f r.1) r.2)
    else some (1, s1)

/-- Modelled from the spec: what the exerciser hardware does between the write of
the trigger to ATSCTL and the read of ATSCTL in the `ATS_TXN_REQ` case.  ATSCTL
is a control-and-status register: the trigger makes the device carry out the
translation request and report in the status bit (spec 4.5), and the single
poll sees whatever the device has reported by then (spec 5).  The registers
become what the platform's `exerciser_ats_response` says; this is no access of
the program, so the log is as it was.  A device that has not reacted is the
identity. -/
def exerciser_ats_hardware (K : Platform) (Bdf : Nat) (s : Hw) : Hw :=
  { s with mem := K.exerciser_ats_response Bdf s.mem }

/-- The function `pal_exerciser_ops`.  `Param` is a `UINT64`, `data` a `UINT32` local.  The
result is `(status, hardware)`, or `none` when the fuel handed to the
capability walker does not suffice.  In the `ATS_TXN_REQ` case the hardware
reacts to the trigger before ATSCTL is read back (`exerciser_ats_hardware`). -/
def pal_exerciser_ops (K : Platform) (fuel : Nat) (Ops : EXERCISER_OPS)
    (Param Bdf : Nat) (s : Hw) : Option (Nat × Hw) :=
  let Base := pal_exerciser_get_ecsr_base K Bdf 0
  match Ops with
  | EXERCISER_OPS.START_DMA =>
    if Param = K.EDMA_NO_SUPPORT then some (0, s)
    else if Param = K.EDMA_COHERENT then some (0, s)
    else if Param = K.EDMA_NOT_COHERENT then some (0, s)
    else if Param = K.EDMA_FROM_DEVICE then
      some (pal_exerciser_start_dma_direction K Base K.EDMA_FROM_DEVICE s)
    else if Param = K.EDMA_TO_DEVICE then
      some (pal_exerciser_start_dma_direction K Base K.EDMA_TO_DEVICE s)
    else some (1, s)
  | EXERCISER_OPS.GENERATE_MSI =>
    let r := pal_mmio_read (Base + K.MSICTL) s
    some (0, pal_mmio_write (Base + K.MSICTL) (r.1 ||| K.MSI_GENERATION_MASK ||| Param) r.2)
  | EXERCISER_OPS.GENERATE_L_INTR =>
    let r := pal_mmio_read (Base + K.INTXCTL) s
    some (0, pal_mmio_write (Base + K.INTXCTL) (r.1 ||| K.MASK_BIT) r.2)
  | EXERCISER_OPS.MEM_READ => some (0, s)
  | EXERCISER_OPS.MEM_WRITE => some (0, s)
  | EXERCISER_OPS.CLEAR_INTR =>
    let r := pal_mmio_read (Base + K.INTXCTL) s
    some (0, pal_mmio_write (Base + K.INTXCTL) (r.1 &&& K.CLR_INTR_MASK) r.2)
  | EXERCISER_OPS.PASID_TLP_START =>
    let r := pal_mmio_read (Base + K.DMACTL1) s
    let data := r.1
    let data := u32 (data ||| (K.MASK_BIT <<< K.PASID_EN_SHIFT))
    let s1 := pal_mmio_write (Base + K.DMACTL1) data r.2
    let data := u32 (Param &&& K.PASID_VAL_MASK)
    let s2 := pal_mmio_write (Base + K.PASID_VAL) data s1
    pasidCapabilityCtrl K fuel Bdf (fun w => w ||| K.PCIE_CAP_EN_MASK) s2
  | EXERCISER_OPS.PASID_TLP_STOP =>
    let r := pal_mmio_read (Base + K.DMACTL1) s
    let s1 := pal_mmio_write (Base + K.DMACTL1) (r.1 &&& K.PASID_TLP_STOP_MASK) r.2
    pasidCapabilityCtrl K fuel Bdf (fun w => w &&& K.PCIE_CAP_DIS_MASK) s1
  | EXERCISER_OPS.TXN_NO_SNOOP_ENABLE =>
    let r := pal_mmio_read (Base + K.DMACTL1) s
    some (0, pal_mmio_write (Base + K.DMACTL1) (r.1 ||| K.NO_SNOOP_START_MASK) r.2)
  | EXERCISER_OPS.TXN_NO_SNOOP_DISABLE =>
    let r := pal_mmio_read (Base + K.DMACTL1) s
    some (0, pal_mmio_write (Base + K.DMACTL1) (r.1 &&& K.NO_SNOOP_STOP_MASK) r.2)
  | EXERCISER_OPS.ATS_TXN_REQ =>
    let s1 := pal_mmio_write (Base + K.DMA_BUS_ADDR) Param s
    let s2 := pal_mmio_write (Base + K.ATSCTL) K.ATS_TRIGGER s1
    let s3 := exerciser_ats_hardware K Bdf s2
    let r := pal_mmio_read (Base + K.ATSCTL) s3
    some (if r.1 &&& K.ATS_STATUS = 0 then 1 else 0, r.2)
  | EXERCISER_OPS.other _ => some (1, s)

/-! ## Data snapshot provider -/

/-- The local table `offset_table` of `pal_exerciser_get_data`. -/
def offset_table : List Nat := [0x00, 0x08, 0x00, 0x08, 0x00, 0x08, 0x00, 0x08, 0x00, 0x08]

/-- The local table `attr_table` of `pal_exerciser_get_data`. -/
def attr_table (K : Platform) : List Nat :=
  [K.ACCESS_TYPE_RD, K.ACCESS_TYPE_RD, K.ACCESS_TYPE_RD, K.ACCESS_TYPE_RD, K.ACCESS_TYPE_RD,
   K.ACCESS_TYPE_RD, K.ACCESS_TYPE_RD, K.ACCESS_TYPE_RD, K.ACCESS_TYPE_RD, K.ACCESS_TYPE_RD]

/-- The `for (Index = 0; Index < TEST_REG_COUNT; Index++)` loop of
`pal_exerciser_get_data`.  The first argument counts the iterations that remain,
`TEST_REG_COUNT - Index`; each iteration assigns the offset, the attribute and
the value read from the hardware to `Data->cfg_space.reg[Index]`.  The three
fields are 32-bit. -/
def getDataCfgLoop (K : Platform) (Bdf EcamBase : Nat) :
    Nat → Nat → exerciser_data_t → Hw → exerciser_data_t × Hw
  | 0, _, Data, s => (Data, s)
  | n + 1, Index, Data, s =>
    let offset := u32 (offset_table.getD Index 0 + pal_exerciser_get_pcie_config_offset Bdf)
    let attr := u32 ((attr_table K).getD Index 0)
    let r := pal_mmio_read (EcamBase + offset_table.getD Index 0) s
    getDataCfgLoop K Bdf EcamBase n (Index + 1)
      { Data with cfg_space_reg :=
          Function.update Data.cfg_space_reg Index ⟨offset, attr, r.1⟩ }
      r.2

/-- What `pal_exerciser_get_data` hands back: the returned status, the content
of `*Data` after the call, and the hardware. -/
structure GetDataResult where
  status : Nat
  Data : exerciser_data_t
  hw : Hw

/-- The function `pal_exerciser_get_data`.  `Data` is the content of `*Data` at
the call; `Ecam` is a `UINT64`. -/
def pal_exerciser_get_data (K : Platform) (Type_ : EXERCISER_DATA_TYPE)
    (Data : exerciser_data_t) (Bdf Ecam : Nat) (s : Hw) : GetDataResult :=
  let EcamBase := u64 (Ecam + pal_exerciser_get_pcie_config_offset Bdf)
  match Type_ with
  | EXERCISER_DATA_TYPE.EXERCISER_DATA_CFG_SPACE =>
    let r := getDataCfgLoop K Bdf EcamBase TEST_REG_COUNT 0 Data s
    ⟨0, r.1, r.2⟩
  | EXERCISER_DATA_TYPE.EXERCISER_DATA_BAR0_SPACE =>
    let EcamBAR0 := pal_exerciser_get_ecsr_base K Bdf 0
    let type :=
      if (pal_exerciser_get_ecsr_base K Bdf 0 >>> K.PREFETCHABLE_BIT_SHIFT) &&& K.MASK_BIT = 0x1
      then K.MMIO_PREFETCHABLE else K.MMIO_NON_PREFETCHABLE
    ⟨0, { Data with bar_space_base_addr := EcamBAR0, bar_space_type := type }, s⟩
  | EXERCISER_DATA_TYPE.other _ => ⟨1, Data, s⟩

/-! ## A reference platform -/

/-- The reference platform of the examples, on which the definitions can be
evaluated: a concrete choice of every constant, in the register layout of the reference exerciser
(3-bit PASID length field at bit 7, PASID enable at bit 6, PCIe capability
anchor `0x100`, ...), with the ECAM at `0x40000000` and BAR0 of every device at
`0x80000000`.  Its exerciser answers an ATS trigger by setting the status bit
`0x80` of ATSCTL when the bus address register DMA_BUS_ADDR holds a non-zero
address, and leaves ATSCTL alone otherwise.  The theorems that quantify over
`Platform` do not depend on it. -/
def refPlatform : Platform where
  pal_pcie_get_mcfg_ecam := 0x40000000
  palPcieGetBase := fun _ _ => 0x80000000
  exerciser_ats_response := fun _ mem a =>
    if a = 0x80000024 then (if mem 0x80000010 = 0 then mem a else mem a ||| 0x80) else mem a
  EXERCISER_ID := 0xED0113B5
  MASK_BIT := 1
  SHIFT_4BIT := 4
  INTXCTL := 0x004
  MSICTL := 0x000
  DMACTL1 := 0x08
  DMA_BUS_ADDR := 0x010
  DMA_LEN := 0x018
  DMASTATUS := 0x01C
  PASID_VAL := 0x020
  ATSCTL := 0x024
  ATS_ADDR := 0x028
  RID_CTL_REG := 0x3C
  DMA_TO_DEVICE_MASK := 0xFFFFFFEF
  CAP_PTR_OFFSET := 0x34
  CAP_PTR_MASK := 0x00FF
  PCIE_CAP_OFFSET := 0x100
  PCIE_CAP_ID_MASK := 0xFFFF
  PCIE_NXT_CAP_PTR_MASK := 0x0FFF
  PCIE_CAP_PTR_OFFSET := 20
  PCI_CAP_ID_MASK := 0x00FF
  PCI_NXT_CAP_PTR_MASK := 0x00FF
  PCI_CAP_PTR_OFFSET := 8
  PCIE_CAP_CTRL_OFFSET := 0x4
  PCIE_CAP_EN_MASK := 0x10000
  PCIE_CAP_DIS_MASK := 0xFFFEFFFF
  PASID := 0x1B
  PCIE := 1
  PASID_LEN_MASK := 0x7
  PASID_LEN_SHIFT := 7
  PASID_EN_SHIFT := 6
  PASID_VAL_MASK := 0xFFFFF
  PASID_TLP_STOP_MASK := 0xFFFFFFBF
  RID_VALUE_MASK := 0xFFFF
  RID_VALID_MASK := 0x80000000
  RID_VALID := 1
  RID_NOT_VALID := 0
  TXN_REQ_ID := 0
  TXN_REQ_ID_VALID := 2
  TXN_ADDR_TYPE := 1
  AT_UNTRANSLATED := 0
  AT_TRANSLATED := 2
  AT_RESERVED := 3
  EDMA_NO_SUPPORT := 0
  EDMA_COHERENT := 1
  EDMA_NOT_COHERENT := 2
  EDMA_FROM_DEVICE := 3
  EDMA_TO_DEVICE := 4
  MSI_GENERATION_MASK := 0x80000000
  CLR_INTR_MASK := 0xFFFFFFFE
  NO_SNOOP_START_MASK := 0x20
  NO_SNOOP_STOP_MASK := 0xFFFFFFDF
  ATS_TRIGGER := 1
  ATS_STATUS := 0x80
  ACCESS_TYPE_RD := 1
  PREFETCHABLE_BIT_SHIFT := 3
  MMIO_PREFETCHABLE := 0
  MMIO_NON_PREFETCHABLE := 1

/-- A hardware state in which every word is zero and nothing has been accessed. -/
def zeroHw : Hw := { mem := fun _ => 0, log := [] }

/-! ## Vocabulary of the statements -/

/-- A BDF whose bus, device and function fields are within their ranges: bus in
its 8-bit field, device below 32, function below 8. -/
def validBdf (Bdf : Nat) : Prop :=
  PCIE_EXTRACT_BDF_BUS Bdf < 2 ^ 8 ∧ PCIE_EXTRACT_BDF_DEV Bdf < PCIE_MAX_DEV ∧
    PCIE_EXTRACT_BDF_FUNC Bdf < PCIE_MAX_FUNC

/-- A 32-bit device identifier all of whose fields are within their ranges. -/
def legalBdf (Bdf : Nat) : Prop :=
  Bdf < 2 ^ 32 ∧ PCIE_EXTRACT_BDF_SEG Bdf < 2 ^ 8 ∧ validBdf Bdf

/-- Strict lexicographic order on the (bus, device, function) triples of two BDFs. -/
def bdfLexLt (Bdf1 Bdf2 : Nat) : Prop :=
  PCIE_EXTRACT_BDF_BUS Bdf1 < PCIE_EXTRACT_BDF_BUS Bdf2 ∨
  (PCIE_EXTRACT_BDF_BUS Bdf1 = PCIE_EXTRACT_BDF_BUS Bdf2 ∧
    (PCIE_EXTRACT_BDF_DEV Bdf1 < PCIE_EXTRACT_BDF_DEV Bdf2 ∨
     (PCIE_EXTRACT_BDF_DEV Bdf1 = PCIE_EXTRACT_BDF_DEV Bdf2 ∧
       PCIE_EXTRACT_BDF_FUNC Bdf1 < PCIE_EXTRACT_BDF_FUNC Bdf2)))

/-- The address of the register at offset `reg` of the exerciser control block
(BAR0) of `Bdf`, as `pal_mmio_read` and `pal_mmio_write` see it. -/
def ecsrAddr (K : Platform) (Bdf reg : Nat) : Nat :=
  u64 (pal_exerciser_get_ecsr_base K Bdf 0 + reg)

/-- The address of the configuration-space word at offset `off` of `Bdf`. -/
def cfgWordAddr (K : Platform) (Bdf off : Nat) : Nat :=
  u64 (ecamBase K + pal_exerciser_get_pcie_config_offset Bdf + off)

/-- The 32-bit word stored at an address. -/
def wordAt (mem : Nat → Nat) (addr : Nat) : Nat := u32 (mem addr)

/-- The capability ID of the node at offset `off`: its word under the ID mask. -/
def nodeId (K : Platform) (mem : Nat → Nat) (Bdf IdMask off : Nat) : Nat :=
  wordAt mem (cfgWordAddr K Bdf off) &&& IdMask

/-- The next pointer of the node at offset `off`: `(word >> PtrOffset) & PtrMask`. -/
def nodeNext (K : Platform) (mem : Nat → Nat) (Bdf PtrMask PtrOffset off : Nat) : Nat :=
  (wordAt mem (cfgWordAddr K Bdf off) >>> PtrOffset) &&& PtrMask

/-- The ID mask of the list selected by `Value`: PCIe when `Value = 1`, else PCI. -/
def capIdMask (K : Platform) (Value : Nat) : Nat :=
  if Value = 1 then u32 K.PCIE_CAP_ID_MASK else u32 K.PCI_CAP_ID_MASK

/-- The next-pointer mask of the list selected by `Value`. -/
def capPtrMask (K : Platform) (Value : Nat) : Nat :=
  if Value = 1 then u32 K.PCIE_NXT_CAP_PTR_MASK else u32 K.PCI_NXT_CAP_PTR_MASK

/-- The next-pointer shift of the list selected by `Value`. -/
def capPtrOffset (K : Platform) (Value : Nat) : Nat :=
  if Value = 1 then u32 K.PCIE_CAP_PTR_OFFSET else u32 K.PCI_CAP_PTR_OFFSET

/-- The head of the capability list selected by `Value`: the fixed anchor
`PCIE_CAP_OFFSET` for PCIe, else the capabilities-pointer register of the device
under `CAP_PTR_MASK`. -/
def capHead (K : Platform) (mem : Nat → Nat) (Bdf Value : Nat) : Nat :=
  if Value = 1 then u64 K.PCIE_CAP_OFFSET
  else wordAt mem (u64 (ecamBase K + K.CAP_PTR_OFFSET
    + pal_exerciser_get_pcie_config_offset Bdf)) &&& K.CAP_PTR_MASK

/-- The chain that starts at pointer `head` visits exactly the non-zero offsets
`nodes`, in this order, and the next pointer of the last one is zero (an empty
chain is a zero head). -/
def IsCapChain (next : Nat → Nat) : Nat → List Nat → Prop
  | head, [] => head = 0
  | head, o :: rest => head = o ∧ o ≠ 0 ∧ IsCapChain next (next o) rest

/-- The read accesses of a walk that visits the nodes at offsets `nodes` of the
configuration space of `Bdf`, one read per node. -/
def walkReads (K : Platform) (Bdf : Nat) (nodes : List Nat) : List MmioAccess :=
  nodes.map (fun o => MmioAccess.rd (cfgWordAddr K Bdf o))

/-- The read accesses of `pal_exerciser_find_pcie_capability` before its loop:
none for the PCIe list, the read of the capabilities pointer for the PCI list. -/
def headReads (K : Platform) (Bdf Value : Nat) : List MmioAccess :=
  if Value = 1 then []
  else [MmioAccess.rd (u64 (ecamBase K + K.CAP_PTR_OFFSET
    + pal_exerciser_get_pcie_config_offset Bdf))]

/-- A configuration space for device 0 of the reference platform that holds a
PCIe chain of three nodes: ID `0x10` at `0x100`, ID `0x1B` at `0x140` and ID
`0x1B` at `0x180`, the last with a zero next pointer. -/
def sampleCfgMem : Nat → Nat := fun a =>
  if a = 0x40000100 then 0x14000010
  else if a = 0x40000140 then 0x1800001B
  else if a = 0x40000180 then 0x0000001B
  else 0

/-- A memory in which the word at one address is `w` and every other word is zero. -/
def oneWordMem (addr w : Nat) : Nat → Nat := fun a => if a = addr then w else 0

/-- The parameter kinds that `pal_exerciser_set_param` has a case for. -/
def setParamKinds : List EXERCISER_PARAM_TYPE :=
  [EXERCISER_PARAM_TYPE.SNOOP_ATTRIBUTES, EXERCISER_PARAM_TYPE.LEGACY_IRQ,
   EXERCISER_PARAM_TYPE.DMA_ATTRIBUTES, EXERCISER_PARAM_TYPE.P2P_ATTRIBUTES,
   EXERCISER_PARAM_TYPE.PASID_ATTRIBUTES, EXERCISER_PARAM_TYPE.MSIX_ATTRIBUTES,
   EXERCISER_PARAM_TYPE.CFG_TXN_ATTRIBUTES]

/-- The parameter kinds that `pal_exerciser_get_param` has a case for. -/
def getParamKinds : List EXERCISER_PARAM_TYPE :=
  [EXERCISER_PARAM_TYPE.SNOOP_ATTRIBUTES, EXERCISER_PARAM_TYPE.LEGACY_IRQ,
   EXERCISER_PARAM_TYPE.DMA_ATTRIBUTES, EXERCISER_PARAM_TYPE.P2P_ATTRIBUTES,
   EXERCISER_PARAM_TYPE.PASID_ATTRIBUTES, EXERCISER_PARAM_TYPE.MSIX_ATTRIBUTES,
   EXERCISER_PARAM_TYPE.ATS_RES_ATTRIBUTES]

/-- The operations that `pal_exerciser_ops` has a case for. -/
def opsKinds : List EXERCISER_OPS :=
  [EXERCISER_OPS.START_DMA, EXERCISER_OPS.GENERATE_MSI, EXERCISER_OPS.GENERATE_L_INTR,
   EXERCISER_OPS.MEM_READ, EXERCISER_OPS.MEM_WRITE, EXERCISER_OPS.CLEAR_INTR,
   EXERCISER_OPS.PASID_TLP_START, EXERCISER_OPS.PASID_TLP_STOP,
   EXERCISER_OPS.TXN_NO_SNOOP_ENABLE, EXERCISER_OPS.TXN_NO_SNOOP_DISABLE,
   EXERCISER_OPS.ATS_TXN_REQ]

/-- The snapshot kinds that `pal_exerciser_get_data` has a case for. -/
def getDataKinds : List EXERCISER_DATA_TYPE :=
  [EXERCISER_DATA_TYPE.EXERCISER_DATA_CFG_SPACE, EXERCISER_DATA_TYPE.EXERCISER_DATA_BAR0_SPACE]

/-- The sub-tags that the `START_DMA` case of `pal_exerciser_ops` has a case for. -/
def dmaTags (K : Platform) : List Nat :=
  [K.EDMA_NO_SUPPORT, K.EDMA_COHERENT, K.EDMA_NOT_COHERENT, K.EDMA_FROM_DEVICE,
   K.EDMA_TO_DEVICE]

/-- The secondary selectors that the `CFG_TXN_ATTRIBUTES` case of
`pal_exerciser_set_param` has a case for. -/
def txnSelectors (K : Platform) : List Nat :=
  [K.TXN_REQ_ID, K.TXN_REQ_ID_VALID, K.TXN_ADDR_TYPE]

/-- A snapshot whose every field is zero. -/
def zeroData : exerciser_data_t :=
  { cfg_space_reg := fun _ => ⟨0, 0, 0⟩, bar_space_base_addr := 0, bar_space_type := 0 }

/-- Going from hardware state `s` to `s1`, the word at `addr` becomes `val`, no
other word changes, and every write access added to the log is to `addr`. -/
def OnlyRegisterBecomes (s s1 : Hw) (addr val : Nat) : Prop :=
  s1.mem addr = val ∧ (∀ a, a ≠ addr → s1.mem a = s.mem a) ∧
    (∀ w ∈ writesOf s1.log, w ∈ writesOf s.log ∨ w.1 = addr)

/-- The three address-type selectors of the `TXN_ADDR_TYPE` case. -/
def addrTypes (K : Platform) : List Nat := [K.AT_UNTRANSLATED, K.AT_TRANSLATED, K.AT_RESERVED]

/-- The address of the control word of the extended capability at offset `off`
of `Bdf`: `Ecam + configOffset(Bdf) + off + PCIE_CAP_CTRL_OFFSET`. -/
def capCtrlAddr (K : Platform) (Bdf off : Nat) : Nat :=
  u64 (ecamBase K + pal_exerciser_get_pcie_config_offset Bdf + off + K.PCIE_CAP_CTRL_OFFSET)

/-- A configuration space for device 0 of the reference platform that holds a
PCIe chain of two nodes, ID `0x10` at `0x100` and the PASID capability (ID
`0x1B`) at `0x140`, whose control word at `0x144` holds `0x3`; DMACTL1 of the
exerciser (at `0x80000008`) holds `0x11`. -/
def pasidCfgMem : Nat → Nat := fun a =>
  if a = 0x40000100 then 0x14000010
  else if a = 0x40000140 then 0x0000001B
  else if a = 0x40000144 then 0x3
  else if a = 0x80000008 then 0x11
  else 0

/-! ## Arithmetic of the BDF fields -/

theorem bdf_seg_eq (b : Nat) : PCIE_EXTRACT_BDF_SEG b = b / 2 ^ 24 % 2 ^ 8 := by
  unfold PCIE_EXTRACT_BDF_SEG
  rw [Nat.shiftRight_eq_div_pow]
  exact Nat.and_pow_two_sub_one_eq_mod _ 8

theorem bdf_bus_eq (b : Nat) : PCIE_EXTRACT_BDF_BUS b = b / 2 ^ 16 % 2 ^ 8 := by
  unfold PCIE_EXTRACT_BDF_BUS
  rw [Nat.shiftRight_eq_div_pow]
  exact Nat.and_pow_two_sub_one_eq_mod _ 8

theorem bdf_dev_eq (b : Nat) : PCIE_EXTRACT_BDF_DEV b = b / 2 ^ 8 % 2 ^ 8 := by
  unfold PCIE_EXTRACT_BDF_DEV
  rw [Nat.shiftRight_eq_div_pow]
  exact Nat.and_pow_two_sub_one_eq_mod _ 8

theorem bdf_func_eq (b : Nat) : PCIE_EXTRACT_BDF_FUNC b = b % 2 ^ 8 := by
  unfold PCIE_EXTRACT_BDF_FUNC
  exact Nat.and_pow_two_sub_one_eq_mod _ 8

theorem or_eq_add_of_lt (a b i : Nat) (h : b < 2 ^ i) : a * 2 ^ i ||| b = a * 2 ^ i + b := by
  rw [Nat.mul_comm a (2 ^ i)]
  exact (Nat.mul_add_lt_is_or h a).symm

theorem create_bdf_eq (s b d f : Nat) (hs : s < 2 ^ 8) (hb : b < 2 ^ 8) (hd : d < 2 ^ 8)
    (hf : f < 2 ^ 8) :
    PCIE_CREATE_BDF s b d f = s * 2 ^ 24 + b * 2 ^ 16 + d * 2 ^ 8 + f := by
  unfold PCIE_CREATE_BDF u32
  simp only [Nat.shiftLeft_eq]
  rw [Nat.mod_eq_of_lt (by omega : s * 2 ^ 24 < 2 ^ 32),
    Nat.mod_eq_of_lt (by omega : b * 2 ^ 16 < 2 ^ 32),
    Nat.mod_eq_of_lt (by omega : d * 2 ^ 8 < 2 ^ 32)]
  rw [Nat.or_assoc, Nat.or_assoc, or_eq_add_of_lt d f 8 hf,
    or_eq_add_of_lt b _ 16 (by omega), or_eq_add_of_lt s _ 24 (by omega)]
  omega

theorem config_offset_eq (Bdf : Nat) (h : validBdf Bdf) :
    pal_exerciser_get_pcie_config_offset Bdf =
      PCIE_EXTRACT_BDF_BUS Bdf * 32 * 8 * 4096 + PCIE_EXTRACT_BDF_DEV Bdf * 8 * 4096
        + PCIE_EXTRACT_BDF_FUNC Bdf * 4096 := by
  obtain ⟨hb, hd, hf⟩ := h
  unfold PCIE_MAX_DEV at hd
  unfold PCIE_MAX_FUNC at hf
  unfold pal_exerciser_get_pcie_config_offset u32 u64 PCIE_MAX_DEV PCIE_MAX_FUNC
  simp only []
  omega

/-! ## C7: the configuration-space offset -/

/-- C7: on valid BDFs (bus in its 8-bit field, device below 32, function below 8)
`pal_exerciser_get_pcie_config_offset` returns exactly
`bus*32*8*4096 + device*8*4096 + function*4096`, a value below `2^32` (the 32-bit
intermediate arithmetic does not wrap); the result is strictly increasing in
the lexicographic order of (bus, device, function), and so injective in that
triple. -/
theorem config_offset_exact_and_strictly_increasing (Bdf1 Bdf2 : Nat)
    (h1 : validBdf Bdf1) (h2 : validBdf Bdf2) :
    pal_exerciser_get_pcie_config_offset Bdf1 =
        PCIE_EXTRACT_BDF_BUS Bdf1 * 32 * 8 * 4096 + PCIE_EXTRACT_BDF_DEV Bdf1 * 8 * 4096
          + PCIE_EXTRACT_BDF_FUNC Bdf1 * 4096 ∧
      PCIE_EXTRACT_BDF_BUS Bdf1 * 32 * 8 * 4096 + PCIE_EXTRACT_BDF_DEV Bdf1 * 8 * 4096
          + PCIE_EXTRACT_BDF_FUNC Bdf1 * 4096 < 2 ^ 32 ∧
      (bdfLexLt Bdf1 Bdf2 →
        pal_exerciser_get_pcie_config_offset Bdf1 < pal_exerciser_get_pcie_config_offset Bdf2) ∧
      (pal_exerciser_get_pcie_config_offset Bdf1 = pal_exerciser_get_pcie_config_offset Bdf2 →
        PCIE_EXTRACT_BDF_BUS Bdf1 = PCIE_EXTRACT_BDF_BUS Bdf2 ∧
        PCIE_EXTRACT_BDF_DEV Bdf1 = PCIE_EXTRACT_BDF_DEV Bdf2 ∧
        PCIE_EXTRACT_BDF_FUNC Bdf1 = PCIE_EXTRACT_BDF_FUNC Bdf2) := by
  have e1 := config_offset_eq Bdf1 h1
  have e2 := config_offset_eq Bdf2 h2
  obtain ⟨hb1, hd1, hf1⟩ := h1
  obtain ⟨hb2, hd2, hf2⟩ := h2
  unfold PCIE_MAX_DEV at hd1 hd2
  unfold PCIE_MAX_FUNC at hf1 hf2
  refine ⟨e1, by omega, ?_, ?_⟩
  · intro hlt
    unfold bdfLexLt at hlt
    omega
  · intro heq
    omega

/-- C7 at work: device 2 function 3 of bus 1 sits at offset 0x113000, below
device 3 function 0 of the same bus. -/
theorem config_offset_exact_and_strictly_increasing_witness :
    pal_exerciser_get_pcie_config_offset 0x00010203 = 1 * 32 * 8 * 4096 + 2 * 8 * 4096 + 3 * 4096 ∧
      pal_exerciser_get_pcie_config_offset 0x00010203
        < pal_exerciser_get_pcie_config_offset 0x00010300 := by
  have h := config_offset_exact_and_strictly_increasing 0x00010203 0x00010300
    (by unfold validBdf; decide) (by unfold validBdf; decide)
  exact ⟨h.1, h.2.2.1 (by unfold bdfLexLt; decide)⟩

/-! ## C8: aliasing of device identifiers -/

/-- C8 fails as stated: the identifiers `0x00000000` and `0x01000000` (segment 0
and segment 1, same bus, device and function) are distinct and legal, and have
the same configuration-space offset. -/
theorem config_offset_aliases_across_segments :
    ¬ ∀ Bdf1 Bdf2 : Nat, legalBdf Bdf1 → legalBdf Bdf2 → Bdf1 ≠ Bdf2 →
      pal_exerciser_get_pcie_config_offset Bdf1 ≠ pal_exerciser_get_pcie_config_offset Bdf2 := by
  intro h
  exact h 0x00000000 0x01000000 (by unfold legalBdf validBdf; decide)
    (by unfold legalBdf validBdf; decide) (by decide) (by decide)

/-- C8 as amended: two distinct legal device identifiers of the same segment
have different configuration-space offsets. -/
theorem config_offset_injective_within_segment (Bdf1 Bdf2 : Nat)
    (h1 : legalBdf Bdf1) (h2 : legalBdf Bdf2)
    (hseg : PCIE_EXTRACT_BDF_SEG Bdf1 = PCIE_EXTRACT_BDF_SEG Bdf2) (hne : Bdf1 ≠ Bdf2) :
    pal_exerciser_get_pcie_config_offset Bdf1 ≠ pal_exerciser_get_pcie_config_offset Bdf2 := by
  obtain ⟨hlt1, -, hv1⟩ := h1
  obtain ⟨hlt2, -, hv2⟩ := h2
  rw [config_offset_eq Bdf1 hv1, config_offset_eq Bdf2 hv2]
  obtain ⟨hb1, hd1, hf1⟩ := hv1
  obtain ⟨hb2, hd2, hf2⟩ := hv2
  unfold PCIE_MAX_DEV at hd1 hd2
  unfold PCIE_MAX_FUNC at hf1 hf2
  rw [bdf_seg_eq, bdf_seg_eq] at hseg
  rw [bdf_bus_eq] at hb1 hb2
  rw [bdf_dev_eq] at hd1 hd2
  rw [bdf_func_eq] at hf1 hf2
  rw [bdf_bus_eq, bdf_bus_eq, bdf_dev_eq, bdf_dev_eq, bdf_func_eq, bdf_func_eq]
  omega

/-- C8 as amended, at work: functions 0 and 1 of device 0 on bus 0 of segment 1. -/
theorem config_offset_injective_within_segment_witness :
    pal_exerciser_get_pcie_config_offset 0x01000000
      ≠ pal_exerciser_get_pcie_config_offset 0x01000001 :=
  config_offset_injective_within_segment 0x01000000 0x01000001
    (by unfold legalBdf validBdf; decide) (by unfold legalBdf validBdf; decide)
    (by decide) (by decide)

/-! ## C9 and C10: stepping to the next device -/

theorem increment_fields_of_create (s b d : Nat) (hs : s < 2 ^ 8) (hb : b < 2 ^ 8)
    (hd : d < 2 ^ 8) :
    PCIE_EXTRACT_BDF_SEG (PCIE_CREATE_BDF s b d 0) = s ∧
      PCIE_EXTRACT_BDF_BUS (PCIE_CREATE_BDF s b d 0) = b ∧
      PCIE_EXTRACT_BDF_DEV (PCIE_CREATE_BDF s b d 0) = d ∧
      PCIE_EXTRACT_BDF_FUNC (PCIE_CREATE_BDF s b d 0) = 0 := by
  rw [create_bdf_eq s b d 0 hs hb hd (by omega), bdf_seg_eq, bdf_bus_eq, bdf_dev_eq,
    bdf_func_eq]
  omega

/-- C9 fails as stated: at `Bdf = 0x00FF1F00` (bus 255, device 31) the device
field is `PCI_MAX_DEVICE`, yet the bus field of the result is not 256. -/
theorem increment_bus_wraps_at_largest_bus :
    ¬ ∀ Bdf : Nat, PCIE_EXTRACT_BDF_DEV Bdf = PCI_MAX_DEVICE →
      PCIE_EXTRACT_BDF_DEV (pal_increment_bus_dev Bdf) = 0 ∧
      PCIE_EXTRACT_BDF_BUS (pal_increment_bus_dev Bdf) = PCIE_EXTRACT_BDF_BUS Bdf + 1 ∧
      PCIE_EXTRACT_BDF_SEG (pal_increment_bus_dev Bdf) = PCIE_EXTRACT_BDF_SEG Bdf := by
  intro h
  have h1 := (h 0x00FF1F00 (by decide)).2.1
  revert h1
  decide

/-- C9 as amended: when the device field equals `PCI_MAX_DEVICE` and the bus
field is below the largest value it can hold (255), the result has device field
0, bus field one more than the input, and the same segment field. -/
theorem increment_rolls_device_into_bus (Bdf : Nat)
    (hdev : PCIE_EXTRACT_BDF_DEV Bdf = PCI_MAX_DEVICE)
    (hbus : PCIE_EXTRACT_BDF_BUS Bdf < 255) :
    PCIE_EXTRACT_BDF_DEV (pal_increment_bus_dev Bdf) = 0 ∧
      PCIE_EXTRACT_BDF_BUS (pal_increment_bus_dev Bdf) = PCIE_EXTRACT_BDF_BUS Bdf + 1 ∧
      PCIE_EXTRACT_BDF_SEG (pal_increment_bus_dev Bdf) = PCIE_EXTRACT_BDF_SEG Bdf := by
  have hs : PCIE_EXTRACT_BDF_SEG Bdf < 2 ^ 8 := by rw [bdf_seg_eq]; omega
  have hu : u32 (PCIE_EXTRACT_BDF_BUS Bdf + 1) = PCIE_EXTRACT_BDF_BUS Bdf + 1 := by
    unfold u32; omega
  unfold pal_increment_bus_dev
  simp only [hdev, ne_eq, not_true_eq_false, if_false, hu]
  have h := increment_fields_of_create (PCIE_EXTRACT_BDF_SEG Bdf) (PCIE_EXTRACT_BDF_BUS Bdf + 1) 0
    hs (by omega) (by omega)
  exact ⟨h.2.2.1, h.2.1, h.1⟩

/-- C9 as amended, at work: after device 31 of bus 2 comes device 0 of bus 3. -/
theorem increment_rolls_device_into_bus_witness :
    PCIE_EXTRACT_BDF_DEV (pal_increment_bus_dev 0x05021F03) = 0 ∧
      PCIE_EXTRACT_BDF_BUS (pal_increment_bus_dev 0x05021F03) = 2 + 1 ∧
      PCIE_EXTRACT_BDF_SEG (pal_increment_bus_dev 0x05021F03) = 5 :=
  increment_rolls_device_into_bus 0x05021F03 (by decide) (by decide)

/-- C10 fails as stated: at `Bdf = 0x00000001` (device 0, function 1) the device
field is below `PCI_MAX_DEVICE`, yet the function field of the result is 0, not 1. -/
theorem increment_resets_function :
    ¬ ∀ Bdf : Nat, PCIE_EXTRACT_BDF_DEV Bdf < PCI_MAX_DEVICE →
      PCIE_EXTRACT_BDF_DEV (pal_increment_bus_dev Bdf) = PCIE_EXTRACT_BDF_DEV Bdf + 1 ∧
      PCIE_EXTRACT_BDF_SEG (pal_increment_bus_dev Bdf) = PCIE_EXTRACT_BDF_SEG Bdf ∧
      PCIE_EXTRACT_BDF_BUS (pal_increment_bus_dev Bdf) = PCIE_EXTRACT_BDF_BUS Bdf ∧
      PCIE_EXTRACT_BDF_FUNC (pal_increment_bus_dev Bdf) = PCIE_EXTRACT_BDF_FUNC Bdf := by
  intro h
  have h1 := (h 0x00000001 (by decide)).2.2.2
  revert h1
  decide

/-- C10 as amended: when the device field is below `PCI_MAX_DEVICE`, the result
has the device field one more than the input, the same segment and bus fields,
and function field 0. -/
theorem increment_advances_device (Bdf : Nat)
    (hdev : PCIE_EXTRACT_BDF_DEV Bdf < PCI_MAX_DEVICE) :
    PCIE_EXTRACT_BDF_DEV (pal_increment_bus_dev Bdf) = PCIE_EXTRACT_BDF_DEV Bdf + 1 ∧
      PCIE_EXTRACT_BDF_SEG (pal_increment_bus_dev Bdf) = PCIE_EXTRACT_BDF_SEG Bdf ∧
      PCIE_EXTRACT_BDF_BUS (pal_increment_bus_dev Bdf) = PCIE_EXTRACT_BDF_BUS Bdf ∧
      PCIE_EXTRACT_BDF_FUNC (pal_increment_bus_dev Bdf) = 0 := by
  unfold PCI_MAX_DEVICE at hdev
  have hs : PCIE_EXTRACT_BDF_SEG Bdf < 2 ^ 8 := by rw [bdf_seg_eq]; omega
  have hb : PCIE_EXTRACT_BDF_BUS Bdf < 2 ^ 8 := by rw [bdf_bus_eq]; omega
  have hu : u32 (PCIE_EXTRACT_BDF_DEV Bdf + 1) = PCIE_EXTRACT_BDF_DEV Bdf + 1 := by
    unfold u32; omega
  have hne : PCIE_EXTRACT_BDF_DEV Bdf ≠ PCI_MAX_DEVICE := by unfold PCI_MAX_DEVICE; omega
  unfold pal_increment_bus_dev
  simp only [hne, ne_eq, not_false_eq_true, if_true, hu]
  have h := increment_fields_of_create (PCIE_EXTRACT_BDF_SEG Bdf) (PCIE_EXTRACT_BDF_BUS Bdf)
    (PCIE_EXTRACT_BDF_DEV Bdf + 1) hs hb (by omega)
  exact ⟨h.2.2.1, h.1, h.2.1, h.2.2.2⟩

/-- C10 as amended, at work: after device 4 function 3 comes device 5 function 0. -/
theorem increment_advances_device_witness :
    PCIE_EXTRACT_BDF_DEV (pal_increment_bus_dev 0x05020403) = 4 + 1 ∧
      PCIE_EXTRACT_BDF_SEG (pal_increment_bus_dev 0x05020403) = 5 ∧
      PCIE_EXTRACT_BDF_BUS (pal_increment_bus_dev 0x05020403) = 2 ∧
      PCIE_EXTRACT_BDF_FUNC (pal_increment_bus_dev 0x05020403) = 0 :=
  increment_advances_device 0x05020403 (by decide)

/-! ## Accesses and their effect on the hardware -/

theorem writesOf_append (l1 l2 : List MmioAccess) :
    writesOf (l1 ++ l2) = writesOf l1 ++ writesOf l2 := by
  induction l1 with
  | nil => rfl
  | cons a l ih => cases a <;> simp [writesOf, ih]

theorem readsOf_append (l1 l2 : List MmioAccess) :
    readsOf (l1 ++ l2) = readsOf l1 ++ readsOf l2 := by
  induction l1 with
  | nil => rfl
  | cons a l ih => cases a <;> simp [readsOf, ih]

@[simp] theorem pal_mmio_read_val (addr : Nat) (s : Hw) :
    (pal_mmio_read addr s).1 = wordAt s.mem (u64 addr) := rfl

@[simp] theorem pal_mmio_read_mem (addr : Nat) (s : Hw) :
    (pal_mmio_read addr s).2.mem = s.mem := rfl

@[simp] theorem pal_mmio_read_log (addr : Nat) (s : Hw) :
    (pal_mmio_read addr s).2.log = s.log ++ [MmioAccess.rd (u64 addr)] := rfl

@[simp] theorem pal_mmio_write_mem (addr data : Nat) (s : Hw) :
    (pal_mmio_write addr data s).mem = Function.update s.mem (u64 addr) (u32 data) := rfl

@[simp] theorem pal_mmio_write_log (addr data : Nat) (s : Hw) :
    (pal_mmio_write addr data s).log = s.log ++ [MmioAccess.wr (u64 addr) (u32 data)] := rfl

theorem u32_lt (x : Nat) : u32 x < 2 ^ 32 := Nat.mod_lt _ (by decide)

theorem u32_of_lt {x : Nat} (h : x < 2 ^ 32) : u32 x = x := Nat.mod_eq_of_lt h

theorem u64_of_lt {x : Nat} (h : x < 2 ^ 64) : u64 x = x := Nat.mod_eq_of_lt h

theorem wordAt_lt (mem : Nat → Nat) (a : Nat) : wordAt mem a < 2 ^ 32 := u32_lt _

/-! ## C6: the identity check -/

/-- C6: `pal_is_bdf_exerciser` returns 1 exactly when the 32-bit word at
ECAM base + configuration offset of `bdf` equals `EXERCISER_ID`, and 0 exactly
when it differs (zero included, whenever zero is not the signature); it changes
no word and performs no write access. -/
theorem is_bdf_exerciser_iff_signature (K : Platform) (bdf : Nat) (s : Hw) :
    ((pal_is_bdf_exerciser K bdf s).1 = 1 ↔
        wordAt s.mem (cfgWordAddr K bdf 0) = K.EXERCISER_ID) ∧
      ((pal_is_bdf_exerciser K bdf s).1 = 0 ↔
        wordAt s.mem (cfgWordAddr K bdf 0) ≠ K.EXERCISER_ID) ∧
      (K.EXERCISER_ID ≠ 0 → wordAt s.mem (cfgWordAddr K bdf 0) = 0 →
        (pal_is_bdf_exerciser K bdf s).1 = 0) ∧
      (pal_is_bdf_exerciser K bdf s).2.mem = s.mem ∧
      writesOf (pal_is_bdf_exerciser K bdf s).2.log = writesOf s.log := by
  have haddr : u64 (ecamBase K + pal_exerciser_get_pcie_config_offset bdf)
      = cfgWordAddr K bdf 0 := by
    unfold cfgWordAddr; rfl
  unfold pal_is_bdf_exerciser
  simp only [pal_mmio_read_val, haddr]
  by_cases h : wordAt s.mem (cfgWordAddr K bdf 0) = K.EXERCISER_ID
  · simp [h, writesOf_append, writesOf]
  · simp only [h, if_false, pal_mmio_read_mem, pal_mmio_read_log, writesOf_append, writesOf,
      List.append_nil, and_true]
    refine ⟨by simp, ⟨fun _ => h, fun _ => trivial⟩, ?_⟩
    intro _ _
    trivial

/-- C6 at work on the reference platform: an all-zero configuration space is not
an exerciser, and one whose first word is the signature is. -/
theorem is_bdf_exerciser_iff_signature_witness :
    (pal_is_bdf_exerciser refPlatform 0x00010000 zeroHw).1 = 0 ∧
      (pal_is_bdf_exerciser refPlatform 0x00010000
        { mem := oneWordMem 0x40100000 0xED0113B5, log := [] }).1 = 1 :=
  ⟨(is_bdf_exerciser_iff_signature refPlatform 0x00010000 zeroHw).2.2.1 (by decide) (by decide),
   (is_bdf_exerciser_iff_signature refPlatform 0x00010000
      { mem := oneWordMem 0x40100000 0xED0113B5, log := [] }).1.2 (by decide)⟩

/-! ## C5: generating an MSI -/

@[simp] theorem u64_ecsr_base_add (K : Platform) (Bdf reg : Nat) :
    u64 (pal_exerciser_get_ecsr_base K Bdf 0 + reg) = ecsrAddr K Bdf reg := rfl

/-- C5 fails as stated: on the reference platform, with MSICTL holding `0x10`,
`pal_exerciser_ops(GENERATE_MSI)` with `Param = 0x100000003` returns 0 and
leaves `0x80000013` in MSICTL, not `0x10 | 0x80000000 | 0x100000003`. -/
theorem generate_msi_truncates_param :
    ¬ ∀ (K : Platform) (fuel Param Bdf : Nat) (s : Hw), Param < 2 ^ 64 →
      (pal_exerciser_ops K fuel EXERCISER_OPS.GENERATE_MSI Param Bdf s).map
          (fun r => (r.1, r.2.mem (ecsrAddr K Bdf K.MSICTL))) =
        some (0, wordAt s.mem (ecsrAddr K Bdf K.MSICTL) ||| K.MSI_GENERATION_MASK ||| Param) := by
  intro h
  have h1 := h refPlatform 0 0x100000003 0 { mem := oneWordMem 0x80000000 0x10, log := [] }
    (by decide)
  revert h1
  decide

/-- C5 as amended: for every prior content of MSICTL, every `Param` and every
`Bdf`, `pal_exerciser_ops(GENERATE_MSI)` returns 0 whatever the fuel and leaves
MSICTL equal to the low 32 bits of `oldValue | MSI_GENERATION_MASK | Param`,
which is `oldValue | MSI_GENERATION_MASK | Param` itself when the mask and
`Param` are below `2^32`; it changes no other word, and its only write access
is that one write. -/
theorem generate_msi_sets_msictl (K : Platform) (fuel Param Bdf : Nat) (s : Hw) :
    ∃ s1 : Hw,
      pal_exerciser_ops K fuel EXERCISER_OPS.GENERATE_MSI Param Bdf s = some (0, s1) ∧
      s1.mem (ecsrAddr K Bdf K.MSICTL) =
        (wordAt s.mem (ecsrAddr K Bdf K.MSICTL) ||| K.MSI_GENERATION_MASK ||| Param) % 2 ^ 32 ∧
      (K.MSI_GENERATION_MASK < 2 ^ 32 → Param < 2 ^ 32 →
        s1.mem (ecsrAddr K Bdf K.MSICTL) =
          wordAt s.mem (ecsrAddr K Bdf K.MSICTL) ||| K.MSI_GENERATION_MASK ||| Param) ∧
      (∀ a, a ≠ ecsrAddr K Bdf K.MSICTL → s1.mem a = s.mem a) ∧
      writesOf s1.log = writesOf s.log ++ [(ecsrAddr K Bdf K.MSICTL,
        (wordAt s.mem (ecsrAddr K Bdf K.MSICTL) ||| K.MSI_GENERATION_MASK ||| Param)
          % 2 ^ 32)] := by
  have hval : (pal_mmio_write (pal_exerciser_get_ecsr_base K Bdf 0 + K.MSICTL)
        ((pal_mmio_read (pal_exerciser_get_ecsr_base K Bdf 0 + K.MSICTL) s).1
          ||| K.MSI_GENERATION_MASK ||| Param)
        (pal_mmio_read (pal_exerciser_get_ecsr_base K Bdf 0 + K.MSICTL) s).2).mem
        (ecsrAddr K Bdf K.MSICTL) =
      (wordAt s.mem (ecsrAddr K Bdf K.MSICTL) ||| K.MSI_GENERATION_MASK ||| Param) % 2 ^ 32 := by
    simp only [pal_mmio_write_mem, pal_mmio_read_mem, pal_mmio_read_val, u64_ecsr_base_add,
      Function.update_same]
    rfl
  refine ⟨_, rfl, hval, ?_, ?_, ?_⟩
  · intro hmask hparam
    rw [hval]
    exact Nat.mod_eq_of_lt
      (Nat.or_lt_two_pow (Nat.or_lt_two_pow (wordAt_lt _ _) hmask) hparam)
  · intro a ha
    simp only [pal_mmio_write_mem, pal_mmio_read_mem, u64_ecsr_base_add]
    exact Function.update_noteq ha _ _
  · simp only [pal_mmio_write_log, pal_mmio_read_log, pal_mmio_read_val, writesOf_append,
      writesOf, List.append_nil, u64_ecsr_base_add]
    rfl

/-- C5 as amended, at work on the reference platform: vector 3 on a device whose
MSICTL holds `0x10` leaves `0x10 | 0x80000000 | 3` in MSICTL. -/
theorem generate_msi_sets_msictl_witness :
    ∃ s1 : Hw,
      pal_exerciser_ops refPlatform 0 EXERCISER_OPS.GENERATE_MSI 3 0
        { mem := oneWordMem 0x80000000 0x10, log := [] } = some (0, s1) ∧
      s1.mem 0x80000000 = 0x10 ||| 0x80000000 ||| 3 := by
  obtain ⟨s1, h1, -, h2, -⟩ := generate_msi_sets_msictl refPlatform 0 3 0
    { mem := oneWordMem 0x80000000 0x10, log := [] }
  exact ⟨s1, h1, h2 (by decide) (by decide)⟩

/-! ## C2: DMA attributes, set then get -/

/-- C2 fails as stated: on the reference platform, with every word zero, setting
the DMA attributes to bus address `2^32` and length 5 and getting them back
yields bus address 0; the two registers are distinct. -/
theorem dma_round_trip_loses_high_bits :
    ¬ ∀ (K : Platform) (X Y Bdf V1 V2 : Nat) (s : Hw), X < 2 ^ 64 → Y < 2 ^ 64 →
      ecsrAddr K Bdf K.DMA_BUS_ADDR ≠ ecsrAddr K Bdf K.DMA_LEN →
      (pal_exerciser_get_param K EXERCISER_PARAM_TYPE.DMA_ATTRIBUTES V1 V2 Bdf
        (pal_exerciser_set_param K EXERCISER_PARAM_TYPE.DMA_ATTRIBUTES X Y Bdf s).2).Value1 = X ∧
      (pal_exerciser_get_param K EXERCISER_PARAM_TYPE.DMA_ATTRIBUTES V1 V2 Bdf
        (pal_exerciser_set_param K EXERCISER_PARAM_TYPE.DMA_ATTRIBUTES X Y Bdf s).2).Value2 = Y := by
  intro h
  have h1 := (h refPlatform (2 ^ 32) 5 0 0 0 zeroHw (by decide) (by decide) (by decide)).1
  revert h1
  decide

/-- C2 as amended: with DMA_BUS_ADDR and DMA_LEN distinct registers, setting the
DMA attributes to `X`, `Y` and getting them back yields the low 32 bits of `X`
and of `Y`, whatever the rest of the hardware holds (DMASTATUS included); so the
round trip returns `X` and `Y` themselves when they are below `2^32`.  The set
call returns 0. -/
theorem dma_attributes_round_trip (K : Platform) (X Y Bdf V1 V2 : Nat) (s : Hw)
    (hdist : ecsrAddr K Bdf K.DMA_BUS_ADDR ≠ ecsrAddr K Bdf K.DMA_LEN) :
    (pal_exerciser_set_param K EXERCISER_PARAM_TYPE.DMA_ATTRIBUTES X Y Bdf s).1 = 0 ∧
      (pal_exerciser_get_param K EXERCISER_PARAM_TYPE.DMA_ATTRIBUTES V1 V2 Bdf
        (pal_exerciser_set_param K EXERCISER_PARAM_TYPE.DMA_ATTRIBUTES X Y Bdf s).2).Value1
          = X % 2 ^ 32 ∧
      (pal_exerciser_get_param K EXERCISER_PARAM_TYPE.DMA_ATTRIBUTES V1 V2 Bdf
        (pal_exerciser_set_param K EXERCISER_PARAM_TYPE.DMA_ATTRIBUTES X Y Bdf s).2).Value2
          = Y % 2 ^ 32 ∧
      (X < 2 ^ 32 → Y < 2 ^ 32 →
        (pal_exerciser_get_param K EXERCISER_PARAM_TYPE.DMA_ATTRIBUTES V1 V2 Bdf
          (pal_exerciser_set_param K EXERCISER_PARAM_TYPE.DMA_ATTRIBUTES X Y Bdf s).2).Value1 = X ∧
        (pal_exerciser_get_param K EXERCISER_PARAM_TYPE.DMA_ATTRIBUTES V1 V2 Bdf
          (pal_exerciser_set_param K EXERCISER_PARAM_TYPE.DMA_ATTRIBUTES X Y Bdf s).2).Value2 = Y) := by
  have hv1 : (pal_exerciser_get_param K EXERCISER_PARAM_TYPE.DMA_ATTRIBUTES V1 V2 Bdf
        (pal_exerciser_set_param K EXERCISER_PARAM_TYPE.DMA_ATTRIBUTES X Y Bdf s).2).Value1
          = X % 2 ^ 32 := by
    simp only [pal_exerciser_get_param, pal_exerciser_set_param, pal_mmio_read_val,
      pal_mmio_write_mem, u64_ecsr_base_add, wordAt]
    rw [Function.update_noteq hdist, Function.update_same]
    unfold u32
    exact Nat.mod_mod _ _
  have hv2 : (pal_exerciser_get_param K EXERCISER_PARAM_TYPE.DMA_ATTRIBUTES V1 V2 Bdf
        (pal_exerciser_set_param K EXERCISER_PARAM_TYPE.DMA_ATTRIBUTES X Y Bdf s).2).Value2
          = Y % 2 ^ 32 := by
    simp only [pal_exerciser_get_param, pal_exerciser_set_param, pal_mmio_read_val,
      pal_mmio_read_mem, pal_mmio_write_mem, u64_ecsr_base_add, wordAt]
    rw [Function.update_same]
    unfold u32
    exact Nat.mod_mod _ _
  refine ⟨rfl, hv1, hv2, ?_⟩
  intro hX hY
  rw [hv1, hv2]
  exact ⟨Nat.mod_eq_of_lt hX, Nat.mod_eq_of_lt hY⟩

/-- C2 as amended, at work on the reference platform: bus address `0x1234` and
length `0x40` come back unchanged. -/
theorem dma_attributes_round_trip_witness :
    (pal_exerciser_get_param refPlatform EXERCISER_PARAM_TYPE.DMA_ATTRIBUTES 0 0 0
        (pal_exerciser_set_param refPlatform EXERCISER_PARAM_TYPE.DMA_ATTRIBUTES 0x1234 0x40 0
          zeroHw).2).Value1 = 0x1234 ∧
      (pal_exerciser_get_param refPlatform EXERCISER_PARAM_TYPE.DMA_ATTRIBUTES 0 0 0
        (pal_exerciser_set_param refPlatform EXERCISER_PARAM_TYPE.DMA_ATTRIBUTES 0x1234 0x40 0
          zeroHw).2).Value2 = 0x40 :=
  (dma_attributes_round_trip refPlatform 0x1234 0x40 0 0 0 zeroHw (by decide)).2.2.2
    (by decide) (by decide)

/-! ## C3: PASID attributes, set then get -/

/-- Clearing a `k`-bit field at shift `S` of a 32-bit word, writing `w` into it
and reading the field back gives `w`. -/
theorem field_write_read (old w k S : Nat) (hw : w < 2 ^ k) (hfit : S + k ≤ 32) :
    (u32 (u32 (old &&& not64 ((2 ^ k - 1) <<< S)) ||| u64 (w <<< S)) >>> S)
      &&& (2 ^ k - 1) = w := by
  apply Nat.eq_of_testBit_eq
  intro i
  unfold u32 u64 not64
  simp only [Nat.testBit_and, Nat.testBit_or, Nat.testBit_xor, Nat.testBit_shiftRight,
    Nat.testBit_shiftLeft, Nat.testBit_mod_two_pow, Nat.testBit_two_pow_sub_one]
  by_cases hi : i < k
  · have h1 : S + i < 32 := by omega
    have h2 : S + i < 64 := by omega
    have h3 : S + i ≥ S := by omega
    have h4 : S + i - S = i := by omega
    simp [hi, h1, h2, h3, h4]
  · have hwi : w.testBit i = false :=
      Nat.testBit_lt_two_pow (Nat.lt_of_lt_of_le hw (Nat.pow_le_pow_right (by decide) (by omega)))
    simp [hi, hwi]

@[simp] theorem u32_u32 (x : Nat) : u32 (u32 x) = u32 x := Nat.mod_mod _ _

/-- C3: when `PASID_LEN_MASK` is a `k`-bit field mask whose field lies within the
32-bit register, for every `v` with `16 ≤ v ≤ 16 + PASID_LEN_MASK`, every `Bdf`
and every prior content of DMACTL1, setting the PASID attribute to `v` and
getting it back returns 0 from both calls and yields `v`. -/
theorem pasid_attributes_round_trip (K : Platform) (k v Value2 Bdf V1 V2 : Nat) (s : Hw)
    (hmask : K.PASID_LEN_MASK = 2 ^ k - 1) (hfit : K.PASID_LEN_SHIFT + k ≤ 32)
    (hlo : 16 ≤ v) (hhi : v ≤ 16 + K.PASID_LEN_MASK) :
    (pal_exerciser_set_param K EXERCISER_PARAM_TYPE.PASID_ATTRIBUTES v Value2 Bdf s).1 = 0 ∧
      (pal_exerciser_get_param K EXERCISER_PARAM_TYPE.PASID_ATTRIBUTES V1 V2 Bdf
        (pal_exerciser_set_param K EXERCISER_PARAM_TYPE.PASID_ATTRIBUTES v Value2 Bdf s).2).status
          = 0 ∧
      (pal_exerciser_get_param K EXERCISER_PARAM_TYPE.PASID_ATTRIBUTES V1 V2 Bdf
        (pal_exerciser_set_param K EXERCISER_PARAM_TYPE.PASID_ATTRIBUTES v Value2 Bdf s).2).Value1
          = v := by
  refine ⟨rfl, rfl, ?_⟩
  have hk : k ≤ 32 := by omega
  have hpow : (2 : Nat) ^ k ≤ 2 ^ 32 := Nat.pow_le_pow_right (by decide) hk
  have hpos : 0 < (2 : Nat) ^ k := Nat.two_pow_pos k
  have hw : v - 16 < 2 ^ k := by omega
  have hsub : u64 (u64 v + 2 ^ 64 - 16) = v - 16 := by
    unfold u64; omega
  have hand : (v - 16) &&& (2 ^ k - 1) = v - 16 := Nat.and_pow_two_sub_one_of_lt_two_pow hw
  simp only [pal_exerciser_get_param, pal_exerciser_set_param, pal_mmio_read_val,
    pal_mmio_read_mem, pal_mmio_write_mem, u64_ecsr_base_add, wordAt, Function.update_same,
    hmask, hsub, hand, u32_u32]
  rw [field_write_read _ (v - 16) k K.PASID_LEN_SHIFT hw hfit]
  unfold u64; omega

/-- C3 at work on the reference platform (3-bit field at shift 7): with DMACTL1
holding `0xFFFFFFFF`, set 20 then get returns 20. -/
theorem pasid_attributes_round_trip_witness :
    (pal_exerciser_get_param refPlatform EXERCISER_PARAM_TYPE.PASID_ATTRIBUTES 0 0 0
      (pal_exerciser_set_param refPlatform EXERCISER_PARAM_TYPE.PASID_ATTRIBUTES 20 0 0
        { mem := oneWordMem 0x80000008 0xFFFFFFFF, log := [] }).2).Value1 = 20 :=
  (pasid_attributes_round_trip refPlatform 3 20 0 0 0 0
    { mem := oneWordMem 0x80000008 0xFFFFFFFF, log := [] }
    (by decide) (by decide) (by decide) (by decide)).2.2

/-! ## C1: the capability walker -/

theorem nodeNext_lt (K : Platform) (mem : Nat → Nat) (Bdf PtrMask PtrOffset off : Nat) :
    nodeNext K mem Bdf PtrMask PtrOffset off < 2 ^ 32 := by
  unfold nodeNext
  refine Nat.lt_of_le_of_lt Nat.and_le_left ?_
  rw [Nat.shiftRight_eq_div_pow]
  exact Nat.lt_of_le_of_lt (Nat.div_le_self _ _) (wordAt_lt _ _)

theorem isCapChain_lt (next : Nat → Nat) (B : Nat) (hnext : ∀ x, next x < B) :
    ∀ (nodes : List Nat) (head : Nat), head < B → IsCapChain next head nodes →
      ∀ o ∈ nodes, o < B := by
  intro nodes
  induction nodes with
  | nil => intro head _ _ o ho; cases ho
  | cons n rest ih =>
    intro head hhead hchain o ho
    obtain ⟨h1, -, h3⟩ := hchain
    rcases List.mem_cons.1 ho with rfl | hmem
    · omega
    · exact ih (next n) (hnext n) h3 o hmem

theorem isCapChain_congr (next next1 : Nat → Nat) :
    ∀ (nodes : List Nat) (head : Nat), (∀ o ∈ nodes, next o = next1 o) →
      IsCapChain next head nodes → IsCapChain next1 head nodes := by
  intro nodes
  induction nodes with
  | nil => intro head _ h; exact h
  | cons n rest ih =>
    intro head hagree hchain
    obtain ⟨h1, h2, h3⟩ := hchain
    refine ⟨h1, h2, ?_⟩
    rw [← hagree n (List.mem_cons_self _ _)]
    exact ih (next n) (fun o ho => hagree o (List.mem_cons_of_mem _ ho)) h3

theorem capabilityLoop_step (K : Platform) (ID Bdf IdMask PtrMask PtrOffset fuel NxtPtr : Nat)
    (mem : Nat → Nat) (log : List MmioAccess) (h0 : NxtPtr ≠ 0) :
    capabilityLoop K ID Bdf IdMask PtrMask PtrOffset (fuel + 1) NxtPtr ⟨mem, log⟩ =
      if nodeId K mem Bdf IdMask NxtPtr = ID then
        some (some (u32 NxtPtr), ⟨mem, log ++ [MmioAccess.rd (cfgWordAddr K Bdf NxtPtr)]⟩)
      else capabilityLoop K ID Bdf IdMask PtrMask PtrOffset fuel
        (nodeNext K mem Bdf PtrMask PtrOffset NxtPtr)
        ⟨mem, log ++ [MmioAccess.rd (cfgWordAddr K Bdf NxtPtr)]⟩ := by
  rw [capabilityLoop]
  simp only [h0, if_false]
  rfl

/-- The loop on a chain none of whose nodes carries `ID`: it visits every node,
reads each once, and ends not-found. -/
theorem capabilityLoop_not_found (K : Platform) (ID Bdf IdMask PtrMask PtrOffset : Nat)
    (mem : Nat → Nat) :
    ∀ (nodes : List Nat) (head fuel : Nat) (log : List MmioAccess),
      IsCapChain (nodeNext K mem Bdf PtrMask PtrOffset) head nodes →
      (∀ o ∈ nodes, nodeId K mem Bdf IdMask o ≠ ID) →
      nodes.length < fuel →
      capabilityLoop K ID Bdf IdMask PtrMask PtrOffset fuel head ⟨mem, log⟩ =
        some (none, ⟨mem, log ++ walkReads K Bdf nodes⟩) := by
  intro nodes
  induction nodes with
  | nil =>
    intro head fuel log hchain _ hfuel
    obtain ⟨f, rfl⟩ : ∃ f, fuel = f + 1 := ⟨fuel - 1, by simp at hfuel; omega⟩
    have h0 : head = 0 := hchain
    subst h0
    simp [capabilityLoop, walkReads]
  | cons n rest ih =>
    intro head fuel log hchain hid hfuel
    obtain ⟨f, rfl⟩ : ∃ f, fuel = f + 1 := ⟨fuel - 1, by simp at hfuel; omega⟩
    obtain ⟨h1, h2, h3⟩ := hchain
    subst h1
    rw [capabilityLoop_step K ID Bdf IdMask PtrMask PtrOffset f head mem log h2]
    rw [if_neg (hid head (List.mem_cons_self _ _))]
    rw [ih _ f _ h3 (fun o ho => hid o (List.mem_cons_of_mem _ ho))
      (by simp at hfuel; omega)]
    simp [walkReads]

/-- The loop on a chain whose first node carrying `ID` is `o`: it reads the
nodes up to `o`, each once, and returns `o`. -/
theorem capabilityLoop_found (K : Platform) (ID Bdf IdMask PtrMask PtrOffset : Nat)
    (mem : Nat → Nat) (o : Nat) (post : List Nat) :
    ∀ (pre : List Nat) (head fuel : Nat) (log : List MmioAccess),
      IsCapChain (nodeNext K mem Bdf PtrMask PtrOffset) head (pre ++ o :: post) →
      (∀ p ∈ pre, nodeId K mem Bdf IdMask p ≠ ID) →
      nodeId K mem Bdf IdMask o = ID →
      pre.length < fuel →
      capabilityLoop K ID Bdf IdMask PtrMask PtrOffset fuel head ⟨mem, log⟩ =
        some (some (u32 o), ⟨mem, log ++ walkReads K Bdf (pre ++ [o])⟩) := by
  intro pre
  induction pre with
  | nil =>
    intro head fuel log hchain _ hido hfuel
    obtain ⟨f, rfl⟩ : ∃ f, fuel = f + 1 := ⟨fuel - 1, by simp at hfuel; omega⟩
    obtain ⟨h1, h2, -⟩ := hchain
    subst h1
    rw [capabilityLoop_step K ID Bdf IdMask PtrMask PtrOffset f head mem log h2]
    rw [if_pos hido]
    simp [walkReads]
  | cons n rest ih =>
    intro head fuel log hchain hid hido hfuel
    obtain ⟨f, rfl⟩ : ∃ f, fuel = f + 1 := ⟨fuel - 1, by simp at hfuel; omega⟩
    obtain ⟨h1, h2, h3⟩ := hchain
    subst h1
    rw [capabilityLoop_step K ID Bdf IdMask PtrMask PtrOffset f head mem log h2]
    rw [if_neg (hid head (List.mem_cons_self _ _))]
    rw [ih _ f _ h3 (fun p hp => hid p (List.mem_cons_of_mem _ hp)) hido
      (by simp at hfuel; omega)]
    simp [walkReads]

theorem capHead_lt (K : Platform) (mem : Nat → Nat) (Bdf Value : Nat)
    (hcap : K.PCIE_CAP_OFFSET < 2 ^ 32) : capHead K mem Bdf Value < 2 ^ 32 := by
  unfold capHead
  split
  · unfold u64; omega
  · exact Nat.lt_of_le_of_lt Nat.and_le_left (wordAt_lt _ _)

/-- The walker seen as one step: it runs the loop of the list selected by
`Value` from the head of that list, after the reads in `headReads`. -/
theorem find_pcie_capability_eq_loop (K : Platform) (fuel ID Bdf Value Offset : Nat) (s : Hw)
    (hcap : K.PCIE_CAP_OFFSET < 2 ^ 32) :
    pal_exerciser_find_pcie_capability K fuel ID Bdf Value Offset s =
      match capabilityLoop K ID Bdf (capIdMask K Value) (capPtrMask K Value)
          (capPtrOffset K Value) fuel (capHead K s.mem Bdf Value)
          ⟨s.mem, s.log ++ headReads K Bdf Value⟩ with
      | none => none
      | some (some off, s1) => some (0, off, s1)
      | some (none, s1) => some (1, Offset, s1) := by
  have hh := capHead_lt K s.mem Bdf Value hcap
  unfold pal_exerciser_find_pcie_capability capIdMask capPtrMask capPtrOffset headReads
  unfold capHead at hh ⊢
  by_cases hv : Value = 1
  · simp only [hv, if_true, List.append_nil]
  · simp only [hv, if_false] at hh ⊢
    simp only [pal_mmio_read_val, u64_of_lt (Nat.lt_trans hh (by decide))]
    rfl

/-- The walker on a chain none of whose nodes carries `ID`. -/
theorem find_pcie_capability_not_found (K : Platform) (fuel ID Bdf Value Offset : Nat) (s : Hw)
    (nodes : List Nat) (hcap : K.PCIE_CAP_OFFSET < 2 ^ 32)
    (hchain : IsCapChain (nodeNext K s.mem Bdf (capPtrMask K Value) (capPtrOffset K Value))
      (capHead K s.mem Bdf Value) nodes)
    (hid : ∀ o ∈ nodes, nodeId K s.mem Bdf (capIdMask K Value) o ≠ ID)
    (hfuel : nodes.length < fuel) :
    pal_exerciser_find_pcie_capability K fuel ID Bdf Value Offset s =
      some (1, Offset, ⟨s.mem, s.log ++ headReads K Bdf Value ++ walkReads K Bdf nodes⟩) := by
  rw [find_pcie_capability_eq_loop K fuel ID Bdf Value Offset s hcap,
    capabilityLoop_not_found K ID Bdf _ _ _ s.mem nodes _ fuel _ hchain hid hfuel]

/-- The walker on a chain whose first node carrying `ID` is `o`. -/
theorem find_pcie_capability_found (K : Platform) (fuel ID Bdf Value Offset : Nat) (s : Hw)
    (pre : List Nat) (o : Nat) (post : List Nat) (hcap : K.PCIE_CAP_OFFSET < 2 ^ 32)
    (hchain : IsCapChain (nodeNext K s.mem Bdf (capPtrMask K Value) (capPtrOffset K Value))
      (capHead K s.mem Bdf Value) (pre ++ o :: post))
    (hid : ∀ p ∈ pre, nodeId K s.mem Bdf (capIdMask K Value) p ≠ ID)
    (hido : nodeId K s.mem Bdf (capIdMask K Value) o = ID)
    (hfuel : pre.length < fuel) :
    pal_exerciser_find_pcie_capability K fuel ID Bdf Value Offset s =
      some (0, o, ⟨s.mem, s.log ++ headReads K Bdf Value ++ walkReads K Bdf (pre ++ [o])⟩) := by
  have ho : o < 2 ^ 32 :=
    isCapChain_lt _ (2 ^ 32) (nodeNext_lt K s.mem Bdf _ _) _ _
      (capHead_lt K s.mem Bdf Value hcap) hchain o (by simp)
  rw [find_pcie_capability_eq_loop K fuel ID Bdf Value Offset s hcap,
    capabilityLoop_found K ID Bdf _ _ _ s.mem o post pre _ fuel _ hchain hid hido hfuel,
    u32_of_lt ho]

theorem writesOf_walkReads (K : Platform) (Bdf : Nat) (nodes : List Nat) :
    writesOf (walkReads K Bdf nodes) = [] := by
  induction nodes with
  | nil => rfl
  | cons n rest ih => simpa [walkReads, writesOf] using ih

theorem writesOf_headReads (K : Platform) (Bdf Value : Nat) :
    writesOf (headReads K Bdf Value) = [] := by
  unfold headReads
  split <;> rfl

/-- C1: when the capability chain of `Bdf` selected by `Value` (head
`PCIE_CAP_OFFSET` for `Value = 1`, else the capabilities pointer under
`CAP_PTR_MASK`; successor `(word >> PtrOffset) & PtrMask`) is the finite chain
`nodes` ending in a zero next pointer, then with fuel for the chain the walker
returns 0 and stores in `Offset` the first node in chain order whose masked ID
equals `ID`, wherever it stands in the chain, and returns 1 leaving `Offset` as
it was when the chain is empty or no node carries `ID`; it writes nothing. -/
theorem find_pcie_capability_first_match (K : Platform) (fuel ID Bdf Value Offset : Nat)
    (s : Hw) (nodes : List Nat) (hcap : K.PCIE_CAP_OFFSET < 2 ^ 32)
    (hchain : IsCapChain (nodeNext K s.mem Bdf (capPtrMask K Value) (capPtrOffset K Value))
      (capHead K s.mem Bdf Value) nodes)
    (hfuel : nodes.length < fuel) :
    (∀ (pre : List Nat) (o : Nat) (post : List Nat), nodes = pre ++ o :: post →
        (∀ p ∈ pre, nodeId K s.mem Bdf (capIdMask K Value) p ≠ ID) →
        nodeId K s.mem Bdf (capIdMask K Value) o = ID →
        ∃ s1 : Hw, pal_exerciser_find_pcie_capability K fuel ID Bdf Value Offset s
            = some (0, o, s1) ∧ s1.mem = s.mem ∧ writesOf s1.log = writesOf s.log) ∧
      ((∀ o ∈ nodes, nodeId K s.mem Bdf (capIdMask K Value) o ≠ ID) →
        ∃ s1 : Hw, pal_exerciser_find_pcie_capability K fuel ID Bdf Value Offset s
            = some (1, Offset, s1) ∧ s1.mem = s.mem ∧ writesOf s1.log = writesOf s.log) := by
  constructor
  · intro pre o post hnodes hid hido
    subst hnodes
    refine ⟨_, find_pcie_capability_found K fuel ID Bdf Value Offset s pre o post hcap hchain
      hid hido (by simp at hfuel; omega), rfl, ?_⟩
    simp [writesOf_append, writesOf_walkReads, writesOf_headReads]
  · intro hid
    refine ⟨_, find_pcie_capability_not_found K fuel ID Bdf Value Offset s nodes hcap hchain
      hid hfuel, rfl, ?_⟩
    simp [writesOf_append, writesOf_walkReads, writesOf_headReads]

/-- C1 at work on the reference platform, on the chain of `sampleCfgMem`
(`0x100`, `0x140`, `0x180`): ID `0x1B` is found at `0x140`, the first of the two
nodes that carry it, and ID `0x55` is not found. -/
theorem find_pcie_capability_first_match_witness :
    (∃ s1 : Hw, pal_exerciser_find_pcie_capability refPlatform 4 0x1B 0 1 0
        { mem := sampleCfgMem, log := [] } = some (0, 0x140, s1)) ∧
      (∃ s1 : Hw, pal_exerciser_find_pcie_capability refPlatform 4 0x55 0 1 0
        { mem := sampleCfgMem, log := [] } = some (1, 0, s1)) := by
  have hchain : IsCapChain
      (nodeNext refPlatform sampleCfgMem 0 (capPtrMask refPlatform 1) (capPtrOffset refPlatform 1))
      (capHead refPlatform sampleCfgMem 0 1) [0x100, 0x140, 0x180] := by
    simp only [IsCapChain]
    decide
  constructor
  · obtain ⟨s1, h, -⟩ :=
      (find_pcie_capability_first_match refPlatform 4 0x1B 0 1 0
        { mem := sampleCfgMem, log := [] } [0x100, 0x140, 0x180] (by decide) hchain
        (by decide)).1 [0x100] 0x140 [0x180] rfl
        (by intro p hp; rw [List.mem_singleton] at hp; subst hp; decide) (by decide)
    exact ⟨s1, h⟩
  · obtain ⟨s1, h, -⟩ :=
      (find_pcie_capability_first_match refPlatform 4 0x55 0 1 0
        { mem := sampleCfgMem, log := [] } [0x100, 0x140, 0x180] (by decide) hchain
        (by decide)).2
        (by
          intro o ho
          simp only [List.mem_cons, List.mem_singleton, List.not_mem_nil, or_false] at ho
          rcases ho with rfl | rfl | rfl <;> decide)
    exact ⟨s1, h⟩

/-! ## C4: starting PASID transfers on a device without the PASID capability -/

theorem wordAt_update_of_ne (mem : Nat → Nat) (a b v : Nat) (h : a ≠ b) :
    wordAt (Function.update mem b v) a = wordAt mem a := by
  unfold wordAt
  rw [Function.update_noteq h]

/-- C11 fails as stated: on the reference platform, with DMASTATUS holding 1,
`pal_exerciser_get_param(DMA_ATTRIBUTES)` returns 1, though DMA_ATTRIBUTES is a
kind the function supports and reads. -/
theorem get_param_status_not_always_success :
    ¬ ∀ (K : Platform) (Type_ : EXERCISER_PARAM_TYPE) (V1 V2 Bdf : Nat) (s : Hw),
      Type_ ∈ getParamKinds → (pal_exerciser_get_param K Type_ V1 V2 Bdf s).status = 0 := by
  intro h
  have h1 := h refPlatform EXERCISER_PARAM_TYPE.DMA_ATTRIBUTES 0 0 0
    { mem := oneWordMem 0x8000001C 1, log := [] } (by decide)
  revert h1
  decide

/-- C11 as amended: for every register content `pal_exerciser_get_param` returns
0 for SNOOP_ATTRIBUTES, P2P_ATTRIBUTES, PASID_ATTRIBUTES and ATS_RES_ATTRIBUTES,
returns the DMA status `DMASTATUS & MASK_BIT` for DMA_ATTRIBUTES, and returns 1
for every kind it has no case for (CFG_TXN_ATTRIBUTES included). -/
theorem get_param_status (K : Platform) (V1 V2 Bdf : Nat) (s : Hw) :
    (pal_exerciser_get_param K EXERCISER_PARAM_TYPE.SNOOP_ATTRIBUTES V1 V2 Bdf s).status = 0 ∧
      (pal_exerciser_get_param K EXERCISER_PARAM_TYPE.P2P_ATTRIBUTES V1 V2 Bdf s).status = 0 ∧
      (pal_exerciser_get_param K EXERCISER_PARAM_TYPE.PASID_ATTRIBUTES V1 V2 Bdf s).status = 0 ∧
      (pal_exerciser_get_param K EXERCISER_PARAM_TYPE.ATS_RES_ATTRIBUTES V1 V2 Bdf s).status = 0 ∧
      (pal_exerciser_get_param K EXERCISER_PARAM_TYPE.DMA_ATTRIBUTES V1 V2 Bdf s).status =
        u32 (wordAt s.mem (ecsrAddr K Bdf K.DMASTATUS) &&& K.MASK_BIT) ∧
      (∀ Type_ : EXERCISER_PARAM_TYPE, Type_ ∉ getParamKinds →
        (pal_exerciser_get_param K Type_ V1 V2 Bdf s).status = 1) := by
  refine ⟨rfl, rfl, rfl, rfl, rfl, ?_⟩
  intro Type_ hT
  cases Type_ <;> first | rfl | (exfalso; revert hT; decide)

/-- C11 as amended, at work on the reference platform: CFG_TXN_ATTRIBUTES cannot
be read. -/
theorem get_param_status_witness :
    (pal_exerciser_get_param refPlatform EXERCISER_PARAM_TYPE.CFG_TXN_ATTRIBUTES 0 0 0
      zeroHw).status = 1 :=
  (get_param_status refPlatform 0 0 0 zeroHw).2.2.2.2.2
    EXERCISER_PARAM_TYPE.CFG_TXN_ATTRIBUTES (by decide)

/-! ## C12: unsupported selectors -/

/-- C12: every selector without a case fails and touches nothing.
`pal_exerciser_set_param` returns 1 for every `Type` outside its kinds
(ATS_RES_ATTRIBUTES included) and for CFG_TXN_ATTRIBUTES with a secondary
selector outside TXN_REQ_ID, TXN_REQ_ID_VALID, TXN_ADDR_TYPE;
`pal_exerciser_get_param` returns 1 for every `Type` outside its kinds
(CFG_TXN_ATTRIBUTES included) and leaves the output values as they were;
`pal_exerciser_ops` returns 1 for every unknown `Ops` and for START_DMA with an
unknown sub-tag, whatever the fuel; `pal_exerciser_get_data` returns 1 for every
unknown `Type` and leaves the snapshot as it was.  In each case the hardware
state is the one before the call: no word changes and no access is made. -/
theorem unsupported_selectors_fail (K : Platform) (fuel Value1 Value2 Param Bdf Ecam : Nat)
    (Data : exerciser_data_t) (s : Hw) :
    (∀ Type_ : EXERCISER_PARAM_TYPE, Type_ ∉ setParamKinds →
        pal_exerciser_set_param K Type_ Value1 Value2 Bdf s = (1, s)) ∧
      (Value1 ∉ txnSelectors K →
        pal_exerciser_set_param K EXERCISER_PARAM_TYPE.CFG_TXN_ATTRIBUTES Value1 Value2 Bdf s
          = (1, s)) ∧
      (∀ Type_ : EXERCISER_PARAM_TYPE, Type_ ∉ getParamKinds →
        (pal_exerciser_get_param K Type_ Value1 Value2 Bdf s).status = 1 ∧
        (pal_exerciser_get_param K Type_ Value1 Value2 Bdf s).Value1 = Value1 ∧
        (pal_exerciser_get_param K Type_ Value1 Value2 Bdf s).Value2 = Value2 ∧
        (pal_exerciser_get_param K Type_ Value1 Value2 Bdf s).hw = s) ∧
      (∀ Ops : EXERCISER_OPS, Ops ∉ opsKinds →
        pal_exerciser_ops K fuel Ops Param Bdf s = some (1, s)) ∧
      (Param ∉ dmaTags K →
        pal_exerciser_ops K fuel EXERCISER_OPS.START_DMA Param Bdf s = some (1, s)) ∧
      (∀ Type_ : EXERCISER_DATA_TYPE, Type_ ∉ getDataKinds →
        (pal_exerciser_get_data K Type_ Data Bdf Ecam s).status = 1 ∧
        (pal_exerciser_get_data K Type_ Data Bdf Ecam s).Data = Data ∧
        (pal_exerciser_get_data K Type_ Data Bdf Ecam s).hw = s) := by
  refine ⟨?_, ?_, ?_, ?_, ?_, ?_⟩
  · intro Type_ hT
    cases Type_ <;> first | rfl | (exfalso; revert hT; decide)
  · intro hV
    simp only [txnSelectors, List.mem_cons, List.mem_singleton, List.not_mem_nil, or_false,
      not_or] at hV
    obtain ⟨h1, h2, h3⟩ := hV
    simp only [pal_exerciser_set_param, h1, h2, h3, if_false]
  · intro Type_ hT
    cases Type_ <;> first | exact ⟨rfl, rfl, rfl, rfl⟩ | (exfalso; revert hT; decide)
  · intro Ops hO
    cases Ops <;> first | rfl | (exfalso; revert hO; decide)
  · intro hP
    simp only [dmaTags, List.mem_cons, List.mem_singleton, List.not_mem_nil, or_false,
      not_or] at hP
    obtain ⟨h1, h2, h3, h4, h5⟩ := hP
    simp only [pal_exerciser_ops, h1, h2, h3, h4, h5, if_false]
  · intro Type_ hT
    cases Type_ <;> first | exact ⟨rfl, rfl, rfl⟩ | (exfalso; revert hT; decide)

/-- C12 at work on the reference platform: ATS_RES_ATTRIBUTES cannot be set,
secondary selector 9 and DMA sub-tag 9 are unknown, and operation code 99 and
snapshot kind 7 have no case. -/
theorem unsupported_selectors_fail_witness :
    pal_exerciser_set_param refPlatform EXERCISER_PARAM_TYPE.ATS_RES_ATTRIBUTES 9 0 0 zeroHw
        = (1, zeroHw) ∧
      pal_exerciser_set_param refPlatform EXERCISER_PARAM_TYPE.CFG_TXN_ATTRIBUTES 9 0 0 zeroHw
        = (1, zeroHw) ∧
      pal_exerciser_ops refPlatform 0 (EXERCISER_OPS.other 99) 9 0 zeroHw = some (1, zeroHw) ∧
      pal_exerciser_ops refPlatform 0 EXERCISER_OPS.START_DMA 9 0 zeroHw = some (1, zeroHw) ∧
      (pal_exerciser_get_data refPlatform (EXERCISER_DATA_TYPE.other 7) zeroData 0 0
        zeroHw).status = 1 := by
  have h := unsupported_selectors_fail refPlatform 0 9 0 9 0 0 zeroData zeroHw
  exact ⟨h.1 _ (by decide), h.2.1 (by decide), h.2.2.2.1 _ (by decide),
    h.2.2.2.2.1 (by decide), (h.2.2.2.2.2 _ (by decide)).1⟩

/-! ## C17: kinds that do nothing -/

/-- C17: for every argument and every hardware state, `pal_exerciser_set_param`
with SNOOP_ATTRIBUTES, LEGACY_IRQ, P2P_ATTRIBUTES or MSIX_ATTRIBUTES,
`pal_exerciser_get_param` with SNOOP_ATTRIBUTES or P2P_ATTRIBUTES, and
`pal_exerciser_ops` with MEM_READ or MEM_WRITE (whatever the fuel) return 0 and
hand back the hardware state they were given: no word changes and no access is
made; `pal_exerciser_get_param` leaves the two output values as they were. -/
theorem noop_kinds_return_success (K : Platform) (fuel Value1 Value2 Param Bdf : Nat)
    (s : Hw) :
    pal_exerciser_set_param K EXERCISER_PARAM_TYPE.SNOOP_ATTRIBUTES Value1 Value2 Bdf s = (0, s) ∧
      pal_exerciser_set_param K EXERCISER_PARAM_TYPE.LEGACY_IRQ Value1 Value2 Bdf s = (0, s) ∧
      pal_exerciser_set_param K EXERCISER_PARAM_TYPE.P2P_ATTRIBUTES Value1 Value2 Bdf s = (0, s) ∧
      pal_exerciser_set_param K EXERCISER_PARAM_TYPE.MSIX_ATTRIBUTES Value1 Value2 Bdf s = (0, s) ∧
      (∀ Type_, Type_ = EXERCISER_PARAM_TYPE.SNOOP_ATTRIBUTES ∨
          Type_ = EXERCISER_PARAM_TYPE.P2P_ATTRIBUTES →
        (pal_exerciser_get_param K Type_ Value1 Value2 Bdf s).status = 0 ∧
        (pal_exerciser_get_param K Type_ Value1 Value2 Bdf s).Value1 = Value1 ∧
        (pal_exerciser_get_param K Type_ Value1 Value2 Bdf s).Value2 = Value2 ∧
        (pal_exerciser_get_param K Type_ Value1 Value2 Bdf s).hw = s) ∧
      pal_exerciser_ops K fuel EXERCISER_OPS.MEM_READ Param Bdf s = some (0, s) ∧
      pal_exerciser_ops K fuel EXERCISER_OPS.MEM_WRITE Param Bdf s = some (0, s) := by
  refine ⟨rfl, rfl, rfl, rfl, ?_, rfl, rfl⟩
  rintro Type_ (rfl | rfl) <;> exact ⟨rfl, rfl, rfl, rfl⟩

/-- C17 at work on the reference platform: getting the snoop attributes returns
0 and leaves the outputs 5 and 6 as they were. -/
theorem noop_kinds_return_success_witness :
    (pal_exerciser_get_param refPlatform EXERCISER_PARAM_TYPE.SNOOP_ATTRIBUTES 5 6 0
        zeroHw).status = 0 ∧
      (pal_exerciser_get_param refPlatform EXERCISER_PARAM_TYPE.SNOOP_ATTRIBUTES 5 6 0
        zeroHw).Value1 = 5 :=
  ⟨((noop_kinds_return_success refPlatform 0 5 6 0 0 zeroHw).2.2.2.2.1 _ (Or.inl rfl)).1,
   ((noop_kinds_return_success refPlatform 0 5 6 0 0 zeroHw).2.2.2.2.1 _ (Or.inl rfl)).2.1⟩

/-! ## C13: starting a DMA -/

theorem and_u32_of_lt (x m : Nat) (hx : x < 2 ^ 32) : x &&& u32 m = x &&& m := by
  apply Nat.eq_of_testBit_eq
  intro i
  unfold u32
  simp only [Nat.testBit_and, Nat.testBit_mod_two_pow]
  by_cases h : i < 32
  · simp [h]
  · have hx2 : x.testBit i = false :=
      Nat.testBit_lt_two_pow
        (Nat.lt_of_lt_of_le hx (Nat.pow_le_pow_right (by decide) (by omega)))
    simp [hx2]

theorem and_lt_of_lt_left (x m : Nat) (hx : x < 2 ^ 32) : x &&& m < 2 ^ 32 :=
  Nat.lt_of_le_of_lt Nat.and_le_left hx

@[simp] theorem wordAt_update_same (mem : Nat → Nat) (a v : Nat) :
    wordAt (Function.update mem a v) a = u32 v := by
  unfold wordAt
  rw [Function.update_same]

theorem hw_eq (s t : Hw) (hm : s.mem = t.mem) (hl : s.log = t.log) : s = t := by
  cases s; cases t; simp only [Hw.mk.injEq]; exact ⟨hm, hl⟩

theorem start_dma_to_device (K : Platform) (Base : Nat) (s : Hw)
    (hne : K.EDMA_TO_DEVICE ≠ K.EDMA_FROM_DEVICE) (hmb : K.MASK_BIT < 2 ^ 32) :
    pal_exerciser_start_dma_direction K Base K.EDMA_TO_DEVICE s =
      (0, ⟨Function.update s.mem (u64 (Base + K.DMACTL1))
            ((wordAt s.mem (u64 (Base + K.DMACTL1)) &&& K.DMA_TO_DEVICE_MASK) ||| K.MASK_BIT),
          s.log ++ [MmioAccess.rd (u64 (Base + K.DMACTL1)),
            MmioAccess.wr (u64 (Base + K.DMACTL1))
              (wordAt s.mem (u64 (Base + K.DMACTL1)) &&& K.DMA_TO_DEVICE_MASK),
            MmioAccess.rd (u64 (Base + K.DMACTL1)),
            MmioAccess.wr (u64 (Base + K.DMACTL1))
              ((wordAt s.mem (u64 (Base + K.DMACTL1)) &&& K.DMA_TO_DEVICE_MASK)
                ||| K.MASK_BIT)]⟩) := by
  have h1 : wordAt s.mem (u64 (Base + K.DMACTL1)) &&& K.DMA_TO_DEVICE_MASK < 2 ^ 32 :=
    and_lt_of_lt_left _ _ (wordAt_lt _ _)
  have h2 : (wordAt s.mem (u64 (Base + K.DMACTL1)) &&& K.DMA_TO_DEVICE_MASK) ||| K.MASK_BIT
      < 2 ^ 32 := Nat.or_lt_two_pow h1 hmb
  simp only [pal_exerciser_start_dma_direction, hne, if_true, if_false]
  refine Prod.ext rfl (hw_eq _ _ ?_ ?_)
  · simp only [pal_mmio_read_val, pal_mmio_read_mem, pal_mmio_write_mem, wordAt_update_same,
      and_u32_of_lt _ _ (wordAt_lt _ _), u32_of_lt h1, u32_of_lt h2, Function.update_idem]
  · simp only [pal_mmio_read_val, pal_mmio_read_mem, pal_mmio_read_log, pal_mmio_write_mem,
      pal_mmio_write_log, wordAt_update_same, and_u32_of_lt _ _ (wordAt_lt _ _), u32_of_lt h1,
      u32_of_lt h2, List.append_assoc, List.singleton_append, List.cons_append, List.nil_append]

theorem start_dma_from_device (K : Platform) (Base : Nat) (s : Hw)
    (hne : K.EDMA_TO_DEVICE ≠ K.EDMA_FROM_DEVICE) (hmb : K.MASK_BIT < 2 ^ 32)
    (hsh : K.MASK_BIT <<< K.SHIFT_4BIT < 2 ^ 32) :
    pal_exerciser_start_dma_direction K Base K.EDMA_FROM_DEVICE s =
      (0, ⟨Function.update s.mem (u64 (Base + K.DMACTL1))
            (wordAt s.mem (u64 (Base + K.DMACTL1)) ||| (K.MASK_BIT <<< K.SHIFT_4BIT)
              ||| K.MASK_BIT),
          s.log ++ [MmioAccess.rd (u64 (Base + K.DMACTL1)),
            MmioAccess.wr (u64 (Base + K.DMACTL1))
              (wordAt s.mem (u64 (Base + K.DMACTL1)) ||| (K.MASK_BIT <<< K.SHIFT_4BIT)),
            MmioAccess.rd (u64 (Base + K.DMACTL1)),
            MmioAccess.wr (u64 (Base + K.DMACTL1))
              (wordAt s.mem (u64 (Base + K.DMACTL1)) ||| (K.MASK_BIT <<< K.SHIFT_4BIT)
                ||| K.MASK_BIT)]⟩) := by
  have h1 : wordAt s.mem (u64 (Base + K.DMACTL1)) ||| (K.MASK_BIT <<< K.SHIFT_4BIT) < 2 ^ 32 :=
    Nat.or_lt_two_pow (wordAt_lt _ _) hsh
  have h2 : wordAt s.mem (u64 (Base + K.DMACTL1)) ||| (K.MASK_BIT <<< K.SHIFT_4BIT)
      ||| K.MASK_BIT < 2 ^ 32 := Nat.or_lt_two_pow h1 hmb
  simp only [pal_exerciser_start_dma_direction, hne.symm, if_true, if_false]
  refine Prod.ext rfl (hw_eq _ _ ?_ ?_)
  · simp only [pal_mmio_read_val, pal_mmio_read_mem, pal_mmio_write_mem, wordAt_update_same,
      u32_of_lt hsh, u32_of_lt h1, u32_of_lt h2, Function.update_idem]
  · simp only [pal_mmio_read_val, pal_mmio_read_mem, pal_mmio_read_log, pal_mmio_write_mem,
      pal_mmio_write_log, wordAt_update_same, u32_of_lt hsh, u32_of_lt h1,
      u32_of_lt h2, List.append_assoc, List.singleton_append, List.cons_append,
      List.nil_append]

/-- C13: let the five DMA sub-tags be distinct values and let `MASK_BIT` and
`MASK_BIT << SHIFT_4BIT` fit the 32-bit register.  `pal_exerciser_ops(START_DMA)`
with tag EDMA_TO_DEVICE returns 0 and leaves
DMACTL1 = `(old & DMA_TO_DEVICE_MASK) | MASK_BIT`; with tag EDMA_FROM_DEVICE it
returns 0 and leaves DMACTL1 = `old | (MASK_BIT << SHIFT_4BIT) | MASK_BIT`; with
tags EDMA_NO_SUPPORT, EDMA_COHERENT, EDMA_NOT_COHERENT it returns 0 and makes no
access; with every other tag it returns 1 and makes no access.  In all cases no
word other than DMACTL1 changes, and every write access is to DMACTL1. -/
theorem start_dma_programs_dmactl1 (K : Platform) (fuel Bdf : Nat) (s : Hw)
    (hdist : (dmaTags K).Nodup) (hmb : K.MASK_BIT < 2 ^ 32)
    (hsh : K.MASK_BIT <<< K.SHIFT_4BIT < 2 ^ 32) :
    (∃ s1 : Hw,
        pal_exerciser_ops K fuel EXERCISER_OPS.START_DMA K.EDMA_TO_DEVICE Bdf s = some (0, s1) ∧
        s1.mem (ecsrAddr K Bdf K.DMACTL1) =
          (wordAt s.mem (ecsrAddr K Bdf K.DMACTL1) &&& K.DMA_TO_DEVICE_MASK) ||| K.MASK_BIT ∧
        (∀ a, a ≠ ecsrAddr K Bdf K.DMACTL1 → s1.mem a = s.mem a) ∧
        (∀ w ∈ writesOf s1.log, w ∈ writesOf s.log ∨ w.1 = ecsrAddr K Bdf K.DMACTL1)) ∧
      (∃ s1 : Hw,
        pal_exerciser_ops K fuel EXERCISER_OPS.START_DMA K.EDMA_FROM_DEVICE Bdf s
          = some (0, s1) ∧
        s1.mem (ecsrAddr K Bdf K.DMACTL1) =
          wordAt s.mem (ecsrAddr K Bdf K.DMACTL1) ||| (K.MASK_BIT <<< K.SHIFT_4BIT)
            ||| K.MASK_BIT ∧
        (∀ a, a ≠ ecsrAddr K Bdf K.DMACTL1 → s1.mem a = s.mem a) ∧
        (∀ w ∈ writesOf s1.log, w ∈ writesOf s.log ∨ w.1 = ecsrAddr K Bdf K.DMACTL1)) ∧
      (∀ Param, Param = K.EDMA_NO_SUPPORT ∨ Param = K.EDMA_COHERENT ∨
          Param = K.EDMA_NOT_COHERENT →
        pal_exerciser_ops K fuel EXERCISER_OPS.START_DMA Param Bdf s = some (0, s)) ∧
      (∀ Param, Param ∉ dmaTags K →
        pal_exerciser_ops K fuel EXERCISER_OPS.START_DMA Param Bdf s = some (1, s)) := by
  have hd := hdist
  simp only [dmaTags, List.nodup_cons, List.mem_cons, List.mem_singleton, List.not_mem_nil,
    or_false, not_or, List.nodup_nil, and_true, not_false_eq_true] at hd
  obtain ⟨⟨h12, h13, h14, h15⟩, ⟨h23, h24, h25⟩, ⟨h34, h35⟩, h45⟩ := hd
  refine ⟨?_, ?_, ?_, ?_⟩
  · have hops : pal_exerciser_ops K fuel EXERCISER_OPS.START_DMA K.EDMA_TO_DEVICE Bdf s =
        some (pal_exerciser_start_dma_direction K (pal_exerciser_get_ecsr_base K Bdf 0)
          K.EDMA_TO_DEVICE s) := by
      simp only [pal_exerciser_ops, Ne.symm h15, Ne.symm h25, Ne.symm h35, Ne.symm h45,
        if_false, if_true]
    rw [start_dma_to_device K _ s (Ne.symm h45) hmb] at hops
    refine ⟨_, hops, ?_, ?_, ?_⟩
    · simp only [u64_ecsr_base_add, Function.update_same]
    · intro a ha
      simp only [u64_ecsr_base_add]
      exact Function.update_noteq ha _ _
    · intro w hw
      simp only [u64_ecsr_base_add, writesOf_append, writesOf, List.mem_append, List.mem_cons,
        List.not_mem_nil, or_false] at hw
      rcases hw with h | rfl | rfl
      · exact Or.inl h
      · exact Or.inr rfl
      · exact Or.inr rfl
  · have hops : pal_exerciser_ops K fuel EXERCISER_OPS.START_DMA K.EDMA_FROM_DEVICE Bdf s =
        some (pal_exerciser_start_dma_direction K (pal_exerciser_get_ecsr_base K Bdf 0)
          K.EDMA_FROM_DEVICE s) := by
      simp only [pal_exerciser_ops, Ne.symm h14, Ne.symm h24, Ne.symm h34, if_false, if_true]
    rw [start_dma_from_device K _ s (Ne.symm h45) hmb hsh] at hops
    refine ⟨_, hops, ?_, ?_, ?_⟩
    · simp only [u64_ecsr_base_add, Function.update_same]
    · intro a ha
      simp only [u64_ecsr_base_add]
      exact Function.update_noteq ha _ _
    · intro w hw
      simp only [u64_ecsr_base_add, writesOf_append, writesOf, List.mem_append, List.mem_cons,
        List.not_mem_nil, or_false] at hw
      rcases hw with h | rfl | rfl
      · exact Or.inl h
      · exact Or.inr rfl
      · exact Or.inr rfl
  · rintro Param (rfl | rfl | rfl)
    · simp only [pal_exerciser_ops, if_true]
    · simp only [pal_exerciser_ops, Ne.symm h12, if_false, if_true]
    · simp only [pal_exerciser_ops, Ne.symm h13, Ne.symm h23, if_false, if_true]
  · intro Param hP
    simp only [dmaTags, List.mem_cons, List.mem_singleton, List.not_mem_nil, or_false,
      not_or] at hP
    obtain ⟨p1, p2, p3, p4, p5⟩ := hP
    simp only [pal_exerciser_ops, p1, p2, p3, p4, p5, if_false]

/-- C13 at work on the reference platform: with DMACTL1 holding `0x30`, a DMA to
the device leaves `(0x30 & 0xFFFFFFEF) | 1`, and one from the device leaves
`0x30 | 0x10 | 1`. -/
theorem start_dma_programs_dmactl1_witness :
    (∃ s1 : Hw, pal_exerciser_ops refPlatform 0 EXERCISER_OPS.START_DMA 4 0
        { mem := oneWordMem 0x80000008 0x30, log := [] } = some (0, s1) ∧
      s1.mem 0x80000008 = 0x21) ∧
    (∃ s1 : Hw, pal_exerciser_ops refPlatform 0 EXERCISER_OPS.START_DMA 3 0
        { mem := oneWordMem 0x80000008 0x30, log := [] } = some (0, s1) ∧
      s1.mem 0x80000008 = 0x31) := by
  have h := start_dma_programs_dmactl1 refPlatform 0 0
    { mem := oneWordMem 0x80000008 0x30, log := [] } (by decide) (by decide) (by decide)
  obtain ⟨⟨s1, h1, h2, -⟩, ⟨s2, h3, h4, -⟩, -⟩ := h
  exact ⟨⟨s1, h1, h2⟩, ⟨s2, h3, h4⟩⟩

/-! ## C16 and C19: configuration-transaction attributes -/

theorem setTxnAddrType_code (K : Platform) (Base Value2 code : Nat) (s : Hw)
    (hcode : code = 1 ∨ code = 2 ∨ code = 3)
    (hsel : (code = 1 ∧ Value2 = K.AT_UNTRANSLATED) ∨
      (code = 2 ∧ Value2 ≠ K.AT_UNTRANSLATED ∧ Value2 = K.AT_TRANSLATED) ∨
      (code = 3 ∧ Value2 ≠ K.AT_UNTRANSLATED ∧ Value2 ≠ K.AT_TRANSLATED ∧
        Value2 = K.AT_RESERVED)) :
    setTxnAddrType K Base Value2 s =
      (0, ⟨Function.update s.mem (u64 (Base + K.DMACTL1))
            (wordAt s.mem (u64 (Base + K.DMACTL1)) ||| (code <<< 10)),
          s.log ++ [MmioAccess.rd (u64 (Base + K.DMACTL1)),
            MmioAccess.wr (u64 (Base + K.DMACTL1))
              (wordAt s.mem (u64 (Base + K.DMACTL1)) ||| (code <<< 10))]⟩) := by
  have hlt : ∀ c, c = 1 ∨ c = 2 ∨ c = 3 →
      wordAt s.mem (u64 (Base + K.DMACTL1)) ||| (c <<< 10) < 2 ^ 32 := by
    intro c hc
    refine Nat.or_lt_two_pow (wordAt_lt _ _) ?_
    rcases hc with rfl | rfl | rfl <;> decide
  have hu : ∀ c, c = 1 ∨ c = 2 ∨ c = 3 → u32 (c <<< 10) = c <<< 10 := by
    intro c hc
    rcases hc with rfl | rfl | rfl <;> decide
  rcases hsel with ⟨rfl, h1⟩ | ⟨rfl, h1, h2⟩ | ⟨rfl, h1, h2, h3⟩
  · subst h1
    simp only [setTxnAddrType, if_true]
    refine Prod.ext rfl (hw_eq _ _ ?_ ?_)
    · simp only [pal_mmio_read_val, pal_mmio_read_mem, pal_mmio_write_mem, hu 1 hcode,
        u32_of_lt (hlt 1 hcode)]
    · simp only [pal_mmio_read_val, pal_mmio_read_log, pal_mmio_write_log, hu 1 hcode,
        u32_of_lt (hlt 1 hcode), List.append_assoc, List.singleton_append]
  · subst h2
    simp only [setTxnAddrType, h1, if_true, if_false]
    refine Prod.ext rfl (hw_eq _ _ ?_ ?_)
    · simp only [pal_mmio_read_val, pal_mmio_read_mem, pal_mmio_write_mem, hu 2 hcode,
        u32_of_lt (hlt 2 hcode)]
    · simp only [pal_mmio_read_val, pal_mmio_read_log, pal_mmio_write_log, hu 2 hcode,
        u32_of_lt (hlt 2 hcode), List.append_assoc, List.singleton_append]
  · subst h3
    simp only [setTxnAddrType, h1, h2, if_true, if_false]
    refine Prod.ext rfl (hw_eq _ _ ?_ ?_)
    · simp only [pal_mmio_read_val, pal_mmio_read_mem, pal_mmio_write_mem, hu 3 hcode,
        u32_of_lt (hlt 3 hcode)]
    · simp only [pal_mmio_read_val, pal_mmio_read_log, pal_mmio_write_log, hu 3 hcode,
        u32_of_lt (hlt 3 hcode), List.append_assoc, List.singleton_append]

theorem onlyRegisterBecomes_update (s : Hw) (a v : Nat) (l : List MmioAccess)
    (hl : ∀ w ∈ writesOf l, w.1 = a) :
    OnlyRegisterBecomes s ⟨Function.update s.mem a v, s.log ++ l⟩ a v := by
  refine ⟨Function.update_same _ _ _, fun b hb => Function.update_noteq hb _ _, ?_⟩
  intro w hw
  simp only [writesOf_append, List.mem_append] at hw
  rcases hw with h | h
  · exact Or.inl h
  · exact Or.inr (hl w h)

theorem set_txn_req_id (K : Platform) (Value2 Bdf : Nat) (s : Hw)
    (hvm : K.RID_VALUE_MASK < 2 ^ 32) (hvalid : K.RID_VALID_MASK < 2 ^ 32) :
    pal_exerciser_set_param K EXERCISER_PARAM_TYPE.CFG_TXN_ATTRIBUTES K.TXN_REQ_ID Value2 Bdf s =
      (0, ⟨Function.update s.mem (ecsrAddr K Bdf K.RID_CTL_REG)
            ((Value2 &&& K.RID_VALUE_MASK) ||| K.RID_VALID_MASK),
          s.log ++ [MmioAccess.wr (ecsrAddr K Bdf K.RID_CTL_REG)
            ((Value2 &&& K.RID_VALUE_MASK) ||| K.RID_VALID_MASK)]⟩) := by
  have hlt : (Value2 &&& K.RID_VALUE_MASK) ||| K.RID_VALID_MASK < 2 ^ 32 :=
    Nat.or_lt_two_pow (Nat.lt_of_le_of_lt Nat.and_le_right hvm) hvalid
  simp only [pal_exerciser_set_param, if_true]
  refine Prod.ext rfl (hw_eq _ _ ?_ ?_)
  · simp only [pal_mmio_write_mem, u32_u32, u32_of_lt hlt, u64_ecsr_base_add]
  · simp only [pal_mmio_write_log, u32_u32, u32_of_lt hlt, u64_ecsr_base_add]

theorem set_txn_req_id_valid (K : Platform) (Bdf : Nat) (s : Hw)
    (hsel : K.TXN_REQ_ID_VALID ≠ K.TXN_REQ_ID) (hvalid : K.RID_VALID_MASK < 2 ^ 32) :
    pal_exerciser_set_param K EXERCISER_PARAM_TYPE.CFG_TXN_ATTRIBUTES K.TXN_REQ_ID_VALID
        K.RID_VALID Bdf s =
      (0, ⟨Function.update s.mem (ecsrAddr K Bdf K.RID_CTL_REG)
            (wordAt s.mem (ecsrAddr K Bdf K.RID_CTL_REG) ||| K.RID_VALID_MASK),
          s.log ++ [MmioAccess.rd (ecsrAddr K Bdf K.RID_CTL_REG),
            MmioAccess.wr (ecsrAddr K Bdf K.RID_CTL_REG)
              (wordAt s.mem (ecsrAddr K Bdf K.RID_CTL_REG) ||| K.RID_VALID_MASK)]⟩) := by
  have hlt : wordAt s.mem (ecsrAddr K Bdf K.RID_CTL_REG) ||| K.RID_VALID_MASK < 2 ^ 32 :=
    Nat.or_lt_two_pow (wordAt_lt _ _) hvalid
  simp only [pal_exerciser_set_param, hsel, if_true, if_false]
  refine Prod.ext rfl (hw_eq _ _ ?_ ?_)
  · simp only [pal_mmio_write_mem, pal_mmio_read_mem, pal_mmio_read_val, u32_u32,
      u64_ecsr_base_add, u32_of_lt hlt]
  · simp only [pal_mmio_write_log, pal_mmio_read_log, pal_mmio_read_val, u32_u32,
      u64_ecsr_base_add, u32_of_lt hlt, List.append_assoc, List.singleton_append]

theorem set_txn_req_id_not_valid (K : Platform) (Bdf : Nat) (s : Hw)
    (hsel : K.TXN_REQ_ID_VALID ≠ K.TXN_REQ_ID) (hrid : K.RID_NOT_VALID ≠ K.RID_VALID) :
    pal_exerciser_set_param K EXERCISER_PARAM_TYPE.CFG_TXN_ATTRIBUTES K.TXN_REQ_ID_VALID
        K.RID_NOT_VALID Bdf s =
      (0, ⟨Function.update s.mem (ecsrAddr K Bdf K.RID_CTL_REG) 0,
          s.log ++ [MmioAccess.wr (ecsrAddr K Bdf K.RID_CTL_REG) 0]⟩) := by
  simp only [pal_exerciser_set_param, hsel, hrid, if_true, if_false]
  refine Prod.ext rfl (hw_eq _ _ ?_ ?_)
  · simp only [pal_mmio_write_mem, u64_ecsr_base_add]
    rfl
  · simp only [pal_mmio_write_log, u64_ecsr_base_add]
    rfl

theorem set_txn_addr_type (K : Platform) (Value2 Bdf : Nat) (s : Hw)
    (h1 : K.TXN_ADDR_TYPE ≠ K.TXN_REQ_ID) (h2 : K.TXN_ADDR_TYPE ≠ K.TXN_REQ_ID_VALID) :
    pal_exerciser_set_param K EXERCISER_PARAM_TYPE.CFG_TXN_ATTRIBUTES K.TXN_ADDR_TYPE
        Value2 Bdf s = setTxnAddrType K (pal_exerciser_get_ecsr_base K Bdf 0) Value2 s := by
  simp only [pal_exerciser_set_param, h1, h2, if_true, if_false]

theorem set_txn_req_id_valid_falls_through (K : Platform) (Value2 Bdf : Nat) (s : Hw)
    (hsel : K.TXN_REQ_ID_VALID ≠ K.TXN_REQ_ID) (hv1 : Value2 ≠ K.RID_VALID)
    (hv2 : Value2 ≠ K.RID_NOT_VALID) :
    pal_exerciser_set_param K EXERCISER_PARAM_TYPE.CFG_TXN_ATTRIBUTES K.TXN_REQ_ID_VALID
        Value2 Bdf s = setTxnAddrType K (pal_exerciser_get_ecsr_base K Bdf 0) Value2 s := by
  simp only [pal_exerciser_set_param, hsel, hv1, hv2, if_true, if_false]

theorem testBit_or_of_left (x y i : Nat) (h : x.testBit i = true) :
    (x ||| y).testBit i = true := by
  rw [Nat.testBit_or, h, Bool.true_or]

/-- C16: let the three secondary selectors be distinct, RID_VALID differ from
RID_NOT_VALID, the three address-type selectors be distinct, and the two RID
masks fit the 32-bit register.  Then
`pal_exerciser_set_param(CFG_TXN_ATTRIBUTES, sel, v, Bdf)` returns 0 and: for
`sel = TXN_REQ_ID` leaves RID_CTL_REG = `(v & RID_VALUE_MASK) | RID_VALID_MASK`;
for `sel = TXN_REQ_ID_VALID` with `v = RID_VALID` leaves
RID_CTL_REG = `old | RID_VALID_MASK` and with `v = RID_NOT_VALID` leaves
RID_CTL_REG = 0; for `sel = TXN_ADDR_TYPE` with `v` = AT_UNTRANSLATED,
AT_TRANSLATED, AT_RESERVED leaves DMACTL1 = `old | (code << 10)` with code 1, 2,
3, so every bit set before stays set.  In each case no other word changes and
every write access is to that register. -/
theorem cfg_txn_attributes_set (K : Platform) (v Bdf : Nat) (s : Hw)
    (hsel : (txnSelectors K).Nodup) (hrid : K.RID_VALID ≠ K.RID_NOT_VALID)
    (hat : (addrTypes K).Nodup) (hvm : K.RID_VALUE_MASK < 2 ^ 32)
    (hvalid : K.RID_VALID_MASK < 2 ^ 32) :
    (∃ s1 : Hw,
        pal_exerciser_set_param K EXERCISER_PARAM_TYPE.CFG_TXN_ATTRIBUTES K.TXN_REQ_ID v Bdf s
          = (0, s1) ∧
        OnlyRegisterBecomes s s1 (ecsrAddr K Bdf K.RID_CTL_REG)
          ((v &&& K.RID_VALUE_MASK) ||| K.RID_VALID_MASK)) ∧
      (∃ s1 : Hw,
        pal_exerciser_set_param K EXERCISER_PARAM_TYPE.CFG_TXN_ATTRIBUTES K.TXN_REQ_ID_VALID
          K.RID_VALID Bdf s = (0, s1) ∧
        OnlyRegisterBecomes s s1 (ecsrAddr K Bdf K.RID_CTL_REG)
          (wordAt s.mem (ecsrAddr K Bdf K.RID_CTL_REG) ||| K.RID_VALID_MASK)) ∧
      (∃ s1 : Hw,
        pal_exerciser_set_param K EXERCISER_PARAM_TYPE.CFG_TXN_ATTRIBUTES K.TXN_REQ_ID_VALID
          K.RID_NOT_VALID Bdf s = (0, s1) ∧
        OnlyRegisterBecomes s s1 (ecsrAddr K Bdf K.RID_CTL_REG) 0) ∧
      (∀ code sel : Nat,
        (code = 1 ∧ sel = K.AT_UNTRANSLATED) ∨ (code = 2 ∧ sel = K.AT_TRANSLATED) ∨
          (code = 3 ∧ sel = K.AT_RESERVED) →
        ∃ s1 : Hw,
          pal_exerciser_set_param K EXERCISER_PARAM_TYPE.CFG_TXN_ATTRIBUTES K.TXN_ADDR_TYPE
            sel Bdf s = (0, s1) ∧
          OnlyRegisterBecomes s s1 (ecsrAddr K Bdf K.DMACTL1)
            (wordAt s.mem (ecsrAddr K Bdf K.DMACTL1) ||| (code <<< 10)) ∧
          (∀ i, (wordAt s.mem (ecsrAddr K Bdf K.DMACTL1)).testBit i = true →
            (s1.mem (ecsrAddr K Bdf K.DMACTL1)).testBit i = true)) := by
  have hs := hsel
  simp only [txnSelectors, List.nodup_cons, List.mem_cons, List.mem_singleton,
    List.not_mem_nil, or_false, not_or, List.nodup_nil, and_true, not_false_eq_true] at hs
  obtain ⟨⟨s12, s13⟩, s23⟩ := hs
  have ha := hat
  simp only [addrTypes, List.nodup_cons, List.mem_cons, List.mem_singleton,
    List.not_mem_nil, or_false, not_or, List.nodup_nil, and_true, not_false_eq_true] at ha
  obtain ⟨⟨a12, a13⟩, a23⟩ := ha
  refine ⟨?_, ?_, ?_, ?_⟩
  · refine ⟨_, set_txn_req_id K v Bdf s hvm hvalid, onlyRegisterBecomes_update s _ _ _ ?_⟩
    intro w hw
    simp only [writesOf, List.mem_singleton] at hw
    rw [hw]
  · refine ⟨_, set_txn_req_id_valid K Bdf s (Ne.symm s12) hvalid,
      onlyRegisterBecomes_update s _ _ _ ?_⟩
    intro w hw
    simp only [writesOf, List.mem_singleton] at hw
    rw [hw]
  · refine ⟨_, set_txn_req_id_not_valid K Bdf s (Ne.symm s12) (Ne.symm hrid),
      onlyRegisterBecomes_update s _ _ _ ?_⟩
    intro w hw
    simp only [writesOf, List.mem_singleton] at hw
    rw [hw]
  · intro code sel hcs
    have hcode : code = 1 ∨ code = 2 ∨ code = 3 := by
      rcases hcs with ⟨h, -⟩ | ⟨h, -⟩ | ⟨h, -⟩
      · exact Or.inl h
      · exact Or.inr (Or.inl h)
      · exact Or.inr (Or.inr h)
    have hcase : (code = 1 ∧ sel = K.AT_UNTRANSLATED) ∨
        (code = 2 ∧ sel ≠ K.AT_UNTRANSLATED ∧ sel = K.AT_TRANSLATED) ∨
        (code = 3 ∧ sel ≠ K.AT_UNTRANSLATED ∧ sel ≠ K.AT_TRANSLATED ∧ sel = K.AT_RESERVED) := by
      rcases hcs with ⟨h, h1⟩ | ⟨h, h1⟩ | ⟨h, h1⟩
      · exact Or.inl ⟨h, h1⟩
      · exact Or.inr (Or.inl ⟨h, by rw [h1]; exact Ne.symm a12, h1⟩)
      · exact Or.inr (Or.inr ⟨h, by rw [h1]; exact Ne.symm a13, by rw [h1]; exact Ne.symm a23,
          h1⟩)
    have hcall := set_txn_addr_type K sel Bdf s (Ne.symm s13) (Ne.symm s23)
    rw [setTxnAddrType_code K _ sel code s hcode hcase, u64_ecsr_base_add] at hcall
    refine ⟨_, hcall, onlyRegisterBecomes_update s _ _ _ ?_, ?_⟩
    · intro w hw
      simp only [writesOf, List.mem_singleton] at hw
      rw [hw]
    · intro i hi
      show (Function.update s.mem _ _ _).testBit i = true
      rw [Function.update_same]
      exact testBit_or_of_left _ _ i hi

/-- C16 at work on the reference platform: with DMACTL1 holding `0x800`,
address type AT_UNTRANSLATED (selector 0, code 1) leaves `0x800 | 0x400`. -/
theorem cfg_txn_attributes_set_witness :
    ∃ s1 : Hw,
      pal_exerciser_set_param refPlatform EXERCISER_PARAM_TYPE.CFG_TXN_ATTRIBUTES 1 0 0
        { mem := oneWordMem 0x80000008 0x800, log := [] } = (0, s1) ∧
      s1.mem 0x80000008 = 0xC00 := by
  obtain ⟨s1, h1, h2, -⟩ := (cfg_txn_attributes_set refPlatform 0 0
    { mem := oneWordMem 0x80000008 0x800, log := [] } (by decide) (by decide) (by decide)
    (by decide) (by decide)).2.2.2 1 0 (Or.inl ⟨rfl, rfl⟩)
  exact ⟨s1, h1, h2.1⟩

theorem setTxnAddrType_effect (K : Platform) (Base Value2 : Nat) (s : Hw) :
    (setTxnAddrType K Base Value2 s).1 = 0 ∧
      (∀ a, a ≠ u64 (Base + K.DMACTL1) → (setTxnAddrType K Base Value2 s).2.mem a = s.mem a) ∧
      (∀ w ∈ writesOf (setTxnAddrType K Base Value2 s).2.log,
        w ∈ writesOf s.log ∨ w.1 = u64 (Base + K.DMACTL1)) ∧
      (Value2 ∉ addrTypes K → setTxnAddrType K Base Value2 s = (0, s)) := by
  unfold setTxnAddrType
  refine ⟨?_, ?_, ?_, ?_⟩
  · split_ifs <;> rfl
  · intro a ha
    split_ifs
    all_goals first
      | rfl
      | (simp only [pal_mmio_write_mem, pal_mmio_read_mem]; exact Function.update_noteq ha _ _)
  · intro w hw
    split_ifs at hw
    all_goals first
      | exact Or.inl hw
      | (simp only [pal_mmio_write_log, pal_mmio_read_log, writesOf_append, writesOf,
           List.append_nil, List.mem_append, List.mem_singleton] at hw
         rcases hw with h | h
         · exact Or.inl h
         · exact Or.inr (by rw [h]))
  · intro hV
    simp only [addrTypes, List.mem_cons, List.mem_singleton, List.not_mem_nil, or_false,
      not_or] at hV
    obtain ⟨h1, h2, h3⟩ := hV
    simp only [h1, h2, h3, if_false]

/-- C19: let the three secondary selectors be distinct values and RID_CTL_REG and
DMACTL1 be distinct registers.  For `v` neither RID_VALID nor RID_NOT_VALID,
`pal_exerciser_set_param(CFG_TXN_ATTRIBUTES, TXN_REQ_ID_VALID, v, Bdf)` is not
rejected: it yields exactly the return value and final hardware state of
`pal_exerciser_set_param(CFG_TXN_ATTRIBUTES, TXN_ADDR_TYPE, v, Bdf)` from the
same initial state; it returns 0, leaves RID_CTL_REG unchanged and writes only
to DMACTL1.  When `v` is one of the (distinct) address-type selectors
AT_UNTRANSLATED, AT_TRANSLATED, AT_RESERVED, DMACTL1 is read and then written
with `old | (code << 10)`, code 1, 2, 3, and nothing else is accessed; when `v`
is no address-type selector no access is made at all. -/
theorem req_id_valid_falls_through_to_addr_type (K : Platform) (v Bdf : Nat) (s : Hw)
    (hsel : (txnSelectors K).Nodup) (hv1 : v ≠ K.RID_VALID) (hv2 : v ≠ K.RID_NOT_VALID)
    (hreg : ecsrAddr K Bdf K.RID_CTL_REG ≠ ecsrAddr K Bdf K.DMACTL1) :
    pal_exerciser_set_param K EXERCISER_PARAM_TYPE.CFG_TXN_ATTRIBUTES K.TXN_REQ_ID_VALID v Bdf s
        = pal_exerciser_set_param K EXERCISER_PARAM_TYPE.CFG_TXN_ATTRIBUTES K.TXN_ADDR_TYPE
            v Bdf s ∧
      (pal_exerciser_set_param K EXERCISER_PARAM_TYPE.CFG_TXN_ATTRIBUTES K.TXN_REQ_ID_VALID
        v Bdf s).1 = 0 ∧
      (pal_exerciser_set_param K EXERCISER_PARAM_TYPE.CFG_TXN_ATTRIBUTES K.TXN_REQ_ID_VALID
        v Bdf s).2.mem (ecsrAddr K Bdf K.RID_CTL_REG) = s.mem (ecsrAddr K Bdf K.RID_CTL_REG) ∧
      (∀ w ∈ writesOf (pal_exerciser_set_param K EXERCISER_PARAM_TYPE.CFG_TXN_ATTRIBUTES
          K.TXN_REQ_ID_VALID v Bdf s).2.log,
        w ∈ writesOf s.log ∨ w.1 = ecsrAddr K Bdf K.DMACTL1) ∧
      (v ∉ addrTypes K →
        pal_exerciser_set_param K EXERCISER_PARAM_TYPE.CFG_TXN_ATTRIBUTES K.TXN_REQ_ID_VALID
          v Bdf s = (0, s)) ∧
      ((addrTypes K).Nodup → ∀ code : Nat,
        (code = 1 ∧ v = K.AT_UNTRANSLATED) ∨ (code = 2 ∧ v = K.AT_TRANSLATED) ∨
          (code = 3 ∧ v = K.AT_RESERVED) →
        pal_exerciser_set_param K EXERCISER_PARAM_TYPE.CFG_TXN_ATTRIBUTES K.TXN_REQ_ID_VALID
            v Bdf s =
          (0, ⟨Function.update s.mem (ecsrAddr K Bdf K.DMACTL1)
                (wordAt s.mem (ecsrAddr K Bdf K.DMACTL1) ||| (code <<< 10)),
              s.log ++ [MmioAccess.rd (ecsrAddr K Bdf K.DMACTL1),
                MmioAccess.wr (ecsrAddr K Bdf K.DMACTL1)
                  (wordAt s.mem (ecsrAddr K Bdf K.DMACTL1) ||| (code <<< 10))]⟩) ∧
        (pal_exerciser_set_param K EXERCISER_PARAM_TYPE.CFG_TXN_ATTRIBUTES K.TXN_REQ_ID_VALID
            v Bdf s).2.mem (ecsrAddr K Bdf K.DMACTL1) =
          wordAt s.mem (ecsrAddr K Bdf K.DMACTL1) ||| (code <<< 10)) := by
  have hs := hsel
  simp only [txnSelectors, List.nodup_cons, List.mem_cons, List.mem_singleton,
    List.not_mem_nil, or_false, not_or, List.nodup_nil, and_true, not_false_eq_true] at hs
  obtain ⟨⟨s12, s13⟩, s23⟩ := hs
  have h1 := set_txn_req_id_valid_falls_through K v Bdf s (Ne.symm s12) hv1 hv2
  have h2 := set_txn_addr_type K v Bdf s (Ne.symm s13) (Ne.symm s23)
  obtain ⟨e1, e2, e3, e4⟩ := setTxnAddrType_effect K (pal_exerciser_get_ecsr_base K Bdf 0) v s
  rw [u64_ecsr_base_add] at e2 e3
  rw [h1]
  refine ⟨h2.symm, e1, e2 _ hreg, e3, e4, ?_⟩
  intro hat code hcs
  have ha := hat
  simp only [addrTypes, List.nodup_cons, List.mem_cons, List.mem_singleton,
    List.not_mem_nil, or_false, not_or, List.nodup_nil, and_true, not_false_eq_true] at ha
  obtain ⟨⟨a12, a13⟩, a23⟩ := ha
  have hcode : code = 1 ∨ code = 2 ∨ code = 3 := by
    rcases hcs with ⟨h, -⟩ | ⟨h, -⟩ | ⟨h, -⟩
    · exact Or.inl h
    · exact Or.inr (Or.inl h)
    · exact Or.inr (Or.inr h)
  have hcase : (code = 1 ∧ v = K.AT_UNTRANSLATED) ∨
      (code = 2 ∧ v ≠ K.AT_UNTRANSLATED ∧ v = K.AT_TRANSLATED) ∨
      (code = 3 ∧ v ≠ K.AT_UNTRANSLATED ∧ v ≠ K.AT_TRANSLATED ∧ v = K.AT_RESERVED) := by
    rcases hcs with ⟨h, h3⟩ | ⟨h, h3⟩ | ⟨h, h3⟩
    · exact Or.inl ⟨h, h3⟩
    · exact Or.inr (Or.inl ⟨h, by rw [h3]; exact Ne.symm a12, h3⟩)
    · exact Or.inr (Or.inr ⟨h, by rw [h3]; exact Ne.symm a13, by rw [h3]; exact Ne.symm a23,
        h3⟩)
  rw [setTxnAddrType_code K _ v code s hcode hcase, u64_ecsr_base_add]
  exact ⟨rfl, Function.update_same _ _ _⟩

/-- C19 at work on the reference platform, with DMACTL1 holding `0x1`:
request-ID validity with value 2 (neither RID_VALID = 1 nor RID_NOT_VALID = 0)
acts as address type 2 (AT_TRANSLATED, code 2): it returns 0 and leaves
DMACTL1 = `0x1 | (2 << 10)`, as the address-type call does. -/
theorem req_id_valid_falls_through_to_addr_type_witness :
    pal_exerciser_set_param refPlatform EXERCISER_PARAM_TYPE.CFG_TXN_ATTRIBUTES 2 2 0
          { mem := oneWordMem 0x80000008 0x1, log := [] }
        = pal_exerciser_set_param refPlatform EXERCISER_PARAM_TYPE.CFG_TXN_ATTRIBUTES 1 2 0
            { mem := oneWordMem 0x80000008 0x1, log := [] } ∧
      (pal_exerciser_set_param refPlatform EXERCISER_PARAM_TYPE.CFG_TXN_ATTRIBUTES 2 2 0
        { mem := oneWordMem 0x80000008 0x1, log := [] }).1 = 0 ∧
      (pal_exerciser_set_param refPlatform EXERCISER_PARAM_TYPE.CFG_TXN_ATTRIBUTES 2 2 0
        { mem := oneWordMem 0x80000008 0x1, log := [] }).2.mem 0x80000008 = 0x801 := by
  have h := req_id_valid_falls_through_to_addr_type refPlatform 2 0
    { mem := oneWordMem 0x80000008 0x1, log := [] } (by decide) (by decide) (by decide)
    (by decide)
  exact ⟨h.1, h.2.1, (h.2.2.2.2.2 (by decide) 2 (Or.inr (Or.inl ⟨rfl, rfl⟩))).2⟩

/-! ## C15: the ATS translation request -/

/-- C15 fails as stated: on the reference platform, with `Param = 2^32`, the
write to DMA_BUS_ADDR made by `pal_exerciser_ops(ATS_TXN_REQ)` carries 0, not
`Param`. -/
theorem ats_txn_req_truncates_param :
    ¬ ∀ (K : Platform) (fuel Param Bdf : Nat) (s : Hw), Param < 2 ^ 64 →
      (pal_exerciser_ops K fuel EXERCISER_OPS.ATS_TXN_REQ Param Bdf s).map
          (fun r => writesOf r.2.log) =
        some (writesOf s.log ++ [(ecsrAddr K Bdf K.DMA_BUS_ADDR, Param),
          (ecsrAddr K Bdf K.ATSCTL, K.ATS_TRIGGER)]) := by
  intro h
  have h1 := h refPlatform 0 (2 ^ 32) 0 zeroHw (by decide)
  revert h1
  decide

@[simp] theorem exerciser_ats_hardware_mem (K : Platform) (Bdf : Nat) (s : Hw) :
    (exerciser_ats_hardware K Bdf s).mem = K.exerciser_ats_response Bdf s.mem := rfl

@[simp] theorem exerciser_ats_hardware_log (K : Platform) (Bdf : Nat) (s : Hw) :
    (exerciser_ats_hardware K Bdf s).log = s.log := rfl

/-- C15 as amended: `pal_exerciser_ops(ATS_TXN_REQ, Param, Bdf)` makes exactly
three accesses, in this order: a write of the low 32 bits of `Param` to
DMA_BUS_ADDR, a write of ATS_TRIGGER to ATSCTL, and one read of ATSCTL.  The
read sees the registers as the exerciser hardware has left them after the
trigger (`exerciser_ats_response`, whatever it is); the call returns 0 exactly
when the word that read finds in ATSCTL has a bit of ATS_STATUS set, and 1
otherwise; there is no second read.  The fuel plays no part. -/
theorem ats_txn_req_single_poll (K : Platform) (fuel Param Bdf : Nat) (s : Hw)
    (htrig : K.ATS_TRIGGER < 2 ^ 32) :
    ∃ (st : Nat) (s1 : Hw),
      pal_exerciser_ops K fuel EXERCISER_OPS.ATS_TXN_REQ Param Bdf s = some (st, s1) ∧
      s1.log = s.log ++ [MmioAccess.wr (ecsrAddr K Bdf K.DMA_BUS_ADDR) (Param % 2 ^ 32),
        MmioAccess.wr (ecsrAddr K Bdf K.ATSCTL) K.ATS_TRIGGER,
        MmioAccess.rd (ecsrAddr K Bdf K.ATSCTL)] ∧
      s1.mem = K.exerciser_ats_response Bdf (Function.update
        (Function.update s.mem (ecsrAddr K Bdf K.DMA_BUS_ADDR) (Param % 2 ^ 32))
        (ecsrAddr K Bdf K.ATSCTL) K.ATS_TRIGGER) ∧
      (st = 0 ↔ wordAt s1.mem (ecsrAddr K Bdf K.ATSCTL) &&& K.ATS_STATUS ≠ 0) ∧
      (st = 1 ↔ wordAt s1.mem (ecsrAddr K Bdf K.ATSCTL) &&& K.ATS_STATUS = 0) := by
  refine ⟨_, _, rfl, ?_, ?_, ?_, ?_⟩
  · simp only [pal_mmio_read_log, exerciser_ats_hardware_log, pal_mmio_write_log,
      u64_ecsr_base_add, u32_of_lt htrig, List.append_assoc, List.singleton_append]
    rfl
  · simp only [pal_mmio_read_mem, exerciser_ats_hardware_mem, pal_mmio_write_mem,
      u64_ecsr_base_add, u32_of_lt htrig]
    rfl
  · simp only [pal_mmio_read_val, pal_mmio_read_mem, u64_ecsr_base_add]
    split_ifs with h
    · exact ⟨fun h1 => absurd h1 (by decide), fun h1 => absurd h h1⟩
    · exact ⟨fun _ => h, fun _ => rfl⟩
  · simp only [pal_mmio_read_val, pal_mmio_read_mem, u64_ecsr_base_add]
    split_ifs with h
    · exact ⟨fun _ => h, fun _ => rfl⟩
    · exact ⟨fun h1 => absurd h1 (by decide), fun h1 => absurd h1 h⟩

/-- C15 as amended, at work on the reference platform, whose exerciser sets the
status bit `0x80` when DMA_BUS_ADDR holds a non-zero address.  With
`Param = 0x100001000` the register holds `0x1000`, the read finds the status
bit set and the call returns 0; with `Param = 2^32` the register holds 0, the
read finds the trigger value alone and the call returns 1.  Both calls make
the two writes and the single read. -/
theorem ats_txn_req_single_poll_witness :
    (∃ s1 : Hw,
      pal_exerciser_ops refPlatform 0 EXERCISER_OPS.ATS_TXN_REQ 0x100001000 0 zeroHw
        = some (0, s1) ∧
      s1.log = [MmioAccess.wr 0x80000010 0x1000, MmioAccess.wr 0x80000024 1,
        MmioAccess.rd 0x80000024]) ∧
    (∃ s1 : Hw,
      pal_exerciser_ops refPlatform 0 EXERCISER_OPS.ATS_TXN_REQ 0x100000000 0 zeroHw
        = some (1, s1) ∧
      s1.log = [MmioAccess.wr 0x80000010 0, MmioAccess.wr 0x80000024 1,
        MmioAccess.rd 0x80000024]) := by
  constructor
  · obtain ⟨st, s1, h1, h2, h3, h4, -⟩ :=
      ats_txn_req_single_poll refPlatform 0 0x100001000 0 zeroHw (by decide)
    have hst : st = 0 := by
      rw [h4, h3]
      decide
    subst hst
    exact ⟨s1, h1, h2⟩
  · obtain ⟨st, s1, h1, h2, h3, -, h5⟩ :=
      ats_txn_req_single_poll refPlatform 0 0x100000000 0 zeroHw (by decide)
    have hst : st = 1 := by
      rw [h5, h3]
      decide
    subst hst
    exact ⟨s1, h1, h2⟩

/-! ## C18: the configuration-space snapshot -/

theorem config_offset_le (Bdf : Nat) : pal_exerciser_get_pcie_config_offset Bdf ≤ 276787200 := by
  have hb : PCIE_EXTRACT_BDF_BUS Bdf < 256 := by rw [bdf_bus_eq]; omega
  have hd : PCIE_EXTRACT_BDF_DEV Bdf < 256 := by rw [bdf_dev_eq]; omega
  have hf : PCIE_EXTRACT_BDF_FUNC Bdf < 256 := by rw [bdf_func_eq]; omega
  unfold pal_exerciser_get_pcie_config_offset u32 u64 PCIE_MAX_DEV PCIE_MAX_FUNC
  simp only []
  generalize PCIE_EXTRACT_BDF_BUS Bdf = b at hb ⊢
  generalize PCIE_EXTRACT_BDF_DEV Bdf = d at hd ⊢
  generalize PCIE_EXTRACT_BDF_FUNC Bdf = f at hf ⊢
  omega

theorem offset_table_le (i : Nat) : offset_table.getD i 0 ≤ 8 := by
  by_cases h : i < 10
  · interval_cases i <;> decide
  · rw [List.getD_eq_default]
    · omega
    · simp only [offset_table, List.length_cons, List.length_nil]
      omega

theorem attr_table_getD (K : Platform) (i : Nat) (h : i < 10) :
    (attr_table K).getD i 0 = K.ACCESS_TYPE_RD := by
  interval_cases i <;> rfl

theorem u64_u64_add (x y : Nat) : u64 (u64 x + y) = u64 (x + y) := by
  unfold u64
  exact Nat.mod_add_mod x (2 ^ 64) y

theorem getDataCfgLoop_spec (K : Platform) (Bdf EcamBase : Nat) (mem : Nat → Nat) :
    ∀ (n Index : Nat) (Data : exerciser_data_t) (log : List MmioAccess),
      (getDataCfgLoop K Bdf EcamBase n Index Data ⟨mem, log⟩).2 =
          ⟨mem, log ++ (List.range' Index n).map
            (fun i => MmioAccess.rd (u64 (EcamBase + offset_table.getD i 0)))⟩ ∧
        (∀ j, (getDataCfgLoop K Bdf EcamBase n Index Data ⟨mem, log⟩).1.cfg_space_reg j =
          if Index ≤ j ∧ j < Index + n then
            ⟨u32 (offset_table.getD j 0 + pal_exerciser_get_pcie_config_offset Bdf),
              u32 ((attr_table K).getD j 0),
              wordAt mem (u64 (EcamBase + offset_table.getD j 0))⟩
          else Data.cfg_space_reg j) ∧
        (getDataCfgLoop K Bdf EcamBase n Index Data ⟨mem, log⟩).1.bar_space_base_addr
          = Data.bar_space_base_addr ∧
        (getDataCfgLoop K Bdf EcamBase n Index Data ⟨mem, log⟩).1.bar_space_type
          = Data.bar_space_type := by
  intro n
  induction n with
  | zero =>
    intro Index Data log
    refine ⟨by simp [getDataCfgLoop], ?_, rfl, rfl⟩
    intro j
    have : ¬ (Index ≤ j ∧ j < Index + 0) := by omega
    simp only [getDataCfgLoop, this, if_false]
  | succ n ih =>
    intro Index Data log
    rw [getDataCfgLoop]
    simp only [pal_mmio_read_val]
    have h := fun D l => ih (Index + 1) D l
    refine ⟨?_, ?_, (h _ _).2.2.1, (h _ _).2.2.2⟩
    · show (getDataCfgLoop K Bdf EcamBase n (Index + 1) _ ⟨mem, _⟩).2 = _
      rw [(h _ _).1]
      simp [List.range'_succ]
    · intro j
      show (getDataCfgLoop K Bdf EcamBase n (Index + 1) _ ⟨mem, _⟩).1.cfg_space_reg j = _
      rw [(h _ _).2.1 j]
      by_cases hj : j = Index
      · subst hj
        have c1 : ¬ (j + 1 ≤ j ∧ j < j + 1 + n) := by omega
        have c2 : j ≤ j ∧ j < j + (n + 1) := by omega
        rw [if_neg c1, if_pos c2]
        exact Function.update_same _ _ _
      · by_cases hr : Index + 1 ≤ j ∧ j < Index + 1 + n
        · have c2 : Index ≤ j ∧ j < Index + (n + 1) := by omega
          rw [if_pos hr, if_pos c2]
        · have c2 : ¬ (Index ≤ j ∧ j < Index + (n + 1)) := by omega
          rw [if_neg hr, if_neg c2]
          exact Function.update_noteq hj _ _

theorem readsOf_map_rd (f : Nat → Nat) (l : List Nat) :
    readsOf (l.map (fun i => MmioAccess.rd (f i))) = l.map f := by
  induction l with
  | nil => rfl
  | cons a l ih => simp [readsOf, ih]

theorem writesOf_map_rd (f : Nat → Nat) (l : List Nat) :
    writesOf (l.map (fun i => MmioAccess.rd (f i))) = [] := by
  induction l with
  | nil => rfl
  | cons a l ih => simpa [writesOf] using ih

/-- C18 fails as stated: on the reference platform, for the device
`0x00010000` (bus 1), descriptor 0 of the snapshot carries the offset
`0x100000`, not the table offset 0. -/
theorem get_data_offset_includes_device_offset :
    ¬ ∀ (K : Platform) (Data : exerciser_data_t) (Bdf Ecam : Nat) (s : Hw) (i : Nat),
      i < TEST_REG_COUNT →
      ((pal_exerciser_get_data K EXERCISER_DATA_TYPE.EXERCISER_DATA_CFG_SPACE Data Bdf Ecam
        s).Data.cfg_space_reg i).offset = offset_table.getD i 0 := by
  intro h
  have h1 := h refPlatform zeroData 0x00010000 0x40000000 zeroHw 0 (by decide)
  revert h1
  decide

/-- C18 as amended: `pal_exerciser_get_data(EXERCISER_DATA_CFG_SPACE)` returns 0
and fills exactly `TEST_REG_COUNT` = 10 descriptors in table order: descriptor
`i` carries the offset `offset_table[i] + configOffset(Bdf)` (the table offset
moved by the offset of the device from the ECAM base), the attribute
ACCESS_TYPE_RD and the 32-bit word stored at
`Ecam + configOffset(Bdf) + offset_table[i]`; the descriptors from index 10 on and
the BAR fields are left as they were.  No word changes, no write access is
made, and the ten words are read once each, in table order. -/
theorem get_data_cfg_space_snapshot (K : Platform) (Data : exerciser_data_t)
    (Bdf Ecam : Nat) (s : Hw) (hattr : K.ACCESS_TYPE_RD < 2 ^ 32) :
    ∃ r : GetDataResult,
      pal_exerciser_get_data K EXERCISER_DATA_TYPE.EXERCISER_DATA_CFG_SPACE Data Bdf Ecam s = r ∧
      r.status = 0 ∧
      (∀ i, i < TEST_REG_COUNT → r.Data.cfg_space_reg i =
        ⟨offset_table.getD i 0 + pal_exerciser_get_pcie_config_offset Bdf, K.ACCESS_TYPE_RD,
          wordAt s.mem (u64 (Ecam + pal_exerciser_get_pcie_config_offset Bdf
            + offset_table.getD i 0))⟩) ∧
      (∀ i, TEST_REG_COUNT ≤ i → r.Data.cfg_space_reg i = Data.cfg_space_reg i) ∧
      r.Data.bar_space_base_addr = Data.bar_space_base_addr ∧
      r.Data.bar_space_type = Data.bar_space_type ∧
      r.hw.mem = s.mem ∧
      writesOf r.hw.log = writesOf s.log ∧
      readsOf r.hw.log = readsOf s.log ++ (List.range TEST_REG_COUNT).map
        (fun i => u64 (Ecam + pal_exerciser_get_pcie_config_offset Bdf
          + offset_table.getD i 0)) := by
  obtain ⟨h1, h2, h3, h4⟩ := getDataCfgLoop_spec K Bdf
    (u64 (Ecam + pal_exerciser_get_pcie_config_offset Bdf)) s.mem TEST_REG_COUNT 0 Data s.log
  refine ⟨_, rfl, rfl, ?_, ?_, h3, h4, ?_, ?_, ?_⟩
  · intro i hi
    show (getDataCfgLoop K Bdf _ TEST_REG_COUNT 0 Data ⟨s.mem, s.log⟩).1.cfg_space_reg i = _
    rw [h2 i, if_pos ⟨Nat.zero_le _, by omega⟩, u64_u64_add,
      attr_table_getD K i hi, u32_of_lt hattr]
    have hle := offset_table_le i
    have hc := config_offset_le Bdf
    rw [u32_of_lt (by omega)]
  · intro i hi
    show (getDataCfgLoop K Bdf _ TEST_REG_COUNT 0 Data ⟨s.mem, s.log⟩).1.cfg_space_reg i = _
    rw [h2 i, if_neg (by omega)]
  · show (getDataCfgLoop K Bdf _ TEST_REG_COUNT 0 Data ⟨s.mem, s.log⟩).2.mem = _
    rw [h1]
  · show writesOf (getDataCfgLoop K Bdf _ TEST_REG_COUNT 0 Data ⟨s.mem, s.log⟩).2.log = _
    rw [h1]
    simp only [writesOf_append, writesOf_map_rd, List.append_nil]
  · show readsOf (getDataCfgLoop K Bdf _ TEST_REG_COUNT 0 Data ⟨s.mem, s.log⟩).2.log = _
    rw [h1]
    simp only [readsOf_append, readsOf_map_rd, u64_u64_add, List.range_eq_range']

/-- C18 as amended, at work on the reference platform: for the device
`0x00010000`, descriptor 1 carries offset `0x08 + 0x100000`, the read attribute
and the word stored at `0x40100008`. -/
theorem get_data_cfg_space_snapshot_witness :
    (pal_exerciser_get_data refPlatform EXERCISER_DATA_TYPE.EXERCISER_DATA_CFG_SPACE zeroData
        0x00010000 0x40000000 { mem := oneWordMem 0x40100008 0xABCD, log := [] }).Data.cfg_space_reg 1
      = ⟨0x100008, 1, 0xABCD⟩ := by
  obtain ⟨r, h1, -, h3, -⟩ := get_data_cfg_space_snapshot refPlatform zeroData 0x00010000
    0x40000000 { mem := oneWordMem 0x40100008 0xABCD, log := [] } (by decide)
  rw [h1]
  exact h3 1 (by decide)

/-! ## C20: termination of the capability walk -/

theorem first_match_or_none (p : Nat → Prop) (l : List Nat) :
    (∀ o ∈ l, ¬ p o) ∨
      ∃ (pre : List Nat) (o : Nat) (post : List Nat),
        l = pre ++ o :: post ∧ (∀ q ∈ pre, ¬ p q) ∧ p o := by
  induction l with
  | nil => exact Or.inl (fun o ho => absurd ho (List.not_mem_nil o))
  | cons a rest ih =>
    by_cases ha : p a
    · exact Or.inr ⟨[], a, rest, rfl, ⟨fun q hq => absurd hq (List.not_mem_nil q), ha⟩⟩
    · rcases ih with hnone | ⟨pre, o, post, hl, hpre, ho⟩
      · left
        intro o ho
        rcases List.mem_cons.1 ho with rfl | h
        · exact ha
        · exact hnone o h
      · right
        refine ⟨a :: pre, o, post, by rw [hl]; rfl, ?_, ho⟩
        intro q hq
        rcases List.mem_cons.1 hq with rfl | h
        · exact ha
        · exact hpre q h

/-- C20: when following next pointers from the head of the list selected by
`Value` reaches a zero pointer after the `n` nodes `nodes`, then for every fuel
above `n` the walker returns: its status is 0 or 1, it reads the head pointer
(PCI list only) and then the nodes of a prefix `visited` of the chain, once
each, so at most `n` node reads; the result does not depend on the fuel; no word
changes and no write access is made; and when it returns 1 it has visited the
whole chain and `Offset` is as it was. -/
theorem capability_walk_terminates (K : Platform) (fuel ID Bdf Value Offset : Nat) (s : Hw)
    (nodes : List Nat) (hcap : K.PCIE_CAP_OFFSET < 2 ^ 32)
    (hchain : IsCapChain (nodeNext K s.mem Bdf (capPtrMask K Value) (capPtrOffset K Value))
      (capHead K s.mem Bdf Value) nodes)
    (hfuel : nodes.length < fuel) :
    ∃ (st off : Nat) (visited : List Nat),
      pal_exerciser_find_pcie_capability K fuel ID Bdf Value Offset s =
        some (st, off, ⟨s.mem, s.log ++ headReads K Bdf Value ++ walkReads K Bdf visited⟩) ∧
      visited <+: nodes ∧
      (walkReads K Bdf visited).length ≤ nodes.length ∧
      writesOf (s.log ++ headReads K Bdf Value ++ walkReads K Bdf visited) = writesOf s.log ∧
      (st = 0 ∨ st = 1) ∧
      (st = 1 → off = Offset ∧ visited = nodes) ∧
      (∀ fuel2, nodes.length < fuel2 →
        pal_exerciser_find_pcie_capability K fuel2 ID Bdf Value Offset s =
          pal_exerciser_find_pcie_capability K fuel ID Bdf Value Offset s) := by
  have hw : ∀ v, writesOf (s.log ++ headReads K Bdf Value ++ walkReads K Bdf v)
      = writesOf s.log := by
    intro v
    simp [writesOf_append, writesOf_walkReads, writesOf_headReads]
  rcases first_match_or_none (fun o => nodeId K s.mem Bdf (capIdMask K Value) o = ID) nodes
    with hnone | ⟨pre, o, post, hl, hpre, ho⟩
  · refine ⟨1, Offset, nodes,
      find_pcie_capability_not_found K fuel ID Bdf Value Offset s nodes hcap hchain hnone hfuel,
      List.prefix_refl _, ?_, hw _, Or.inr rfl, fun _ => ⟨rfl, rfl⟩, ?_⟩
    · simp [walkReads]
    · intro fuel2 hf2
      rw [find_pcie_capability_not_found K fuel ID Bdf Value Offset s nodes hcap hchain hnone
          hfuel,
        find_pcie_capability_not_found K fuel2 ID Bdf Value Offset s nodes hcap hchain hnone
          hf2]
  · subst hl
    have hlen : pre.length < fuel := by
      simp only [List.length_append, List.length_cons] at hfuel
      omega
    refine ⟨0, o, pre ++ [o],
      find_pcie_capability_found K fuel ID Bdf Value Offset s pre o post hcap hchain hpre ho
        hlen,
      ?_, ?_, hw _, Or.inl rfl, fun h => absurd h (by decide), ?_⟩
    · exact ⟨post, by simp⟩
    · simp [walkReads]
    · intro fuel2 hf2
      have hlen2 : pre.length < fuel2 := by
        simp only [List.length_append, List.length_cons] at hf2
        omega
      rw [find_pcie_capability_found K fuel ID Bdf Value Offset s pre o post hcap hchain hpre
          ho hlen,
        find_pcie_capability_found K fuel2 ID Bdf Value Offset s pre o post hcap hchain hpre
          ho hlen2]

/-- C20 at work on the reference platform, on the three-node chain of
`sampleCfgMem`: looking for ID `0x55` ends after three node reads with status 1
and `Offset` still 7. -/
theorem capability_walk_terminates_witness :
    ∃ (st off : Nat) (visited : List Nat),
      pal_exerciser_find_pcie_capability refPlatform 4 0x55 0 1 7
          { mem := sampleCfgMem, log := [] } =
        some (st, off, ⟨sampleCfgMem, [] ++ headReads refPlatform 0 1
          ++ walkReads refPlatform 0 visited⟩) ∧
      (walkReads refPlatform 0 visited).length ≤ 3 := by
  obtain ⟨st, off, visited, h1, -, h3, -⟩ :=
    capability_walk_terminates refPlatform 4 0x55 0 1 7 { mem := sampleCfgMem, log := [] }
      [0x100, 0x140, 0x180] (by decide) (by simp only [IsCapChain]; decide) (by decide)
  exact ⟨st, off, visited, h1, h3⟩

/-! ## C14: starting and stopping PASID transfers -/

theorem pasidCapabilityCtrl_not_found (K : Platform) (fuel Bdf : Nat) (f : Nat → Nat) (s : Hw)
    (nodes : List Nat) (hcap : K.PCIE_CAP_OFFSET < 2 ^ 32) (hpcie : K.PCIE = 1)
    (hchain : IsCapChain (nodeNext K s.mem Bdf (capPtrMask K 1) (capPtrOffset K 1))
      (capHead K s.mem Bdf 1) nodes)
    (hnone : ∀ o ∈ nodes, nodeId K s.mem Bdf (capIdMask K 1) o ≠ K.PASID)
    (hfuel : nodes.length < fuel) :
    pasidCapabilityCtrl K fuel Bdf f s =
      some (1, ⟨s.mem, s.log ++ headReads K Bdf 1 ++ walkReads K Bdf nodes⟩) := by
  simp only [pasidCapabilityCtrl, hpcie]
  rw [find_pcie_capability_not_found K fuel K.PASID Bdf 1 0 s nodes hcap hchain hnone hfuel]
  rfl

theorem pasidCapabilityCtrl_found (K : Platform) (fuel Bdf : Nat) (f : Nat → Nat) (s : Hw)
    (pre : List Nat) (o : Nat) (post : List Nat) (hcap : K.PCIE_CAP_OFFSET < 2 ^ 32)
    (hpcie : K.PCIE = 1)
    (hchain : IsCapChain (nodeNext K s.mem Bdf (capPtrMask K 1) (capPtrOffset K 1))
      (capHead K s.mem Bdf 1) (pre ++ o :: post))
    (hpre : ∀ p ∈ pre, nodeId K s.mem Bdf (capIdMask K 1) p ≠ K.PASID)
    (ho : nodeId K s.mem Bdf (capIdMask K 1) o = K.PASID)
    (hfuel : pre.length < fuel) :
    pasidCapabilityCtrl K fuel Bdf f s =
      some (0, ⟨Function.update s.mem (capCtrlAddr K Bdf o)
            (u32 (f (wordAt s.mem (capCtrlAddr K Bdf o)))),
          s.log ++ headReads K Bdf 1 ++ walkReads K Bdf (pre ++ [o])
            ++ [MmioAccess.rd (capCtrlAddr K Bdf o),
              MmioAccess.wr (capCtrlAddr K Bdf o)
                (u32 (f (wordAt s.mem (capCtrlAddr K Bdf o))))]⟩) := by
  simp only [pasidCapabilityCtrl, hpcie]
  rw [find_pcie_capability_found K fuel K.PASID Bdf 1 0 s pre o post hcap hchain hpre ho hfuel]
  simp only [if_true]
  refine congrArg some (Prod.ext rfl (hw_eq _ _ ?_ ?_))
  · simp only [pal_mmio_write_mem, pal_mmio_read_mem, pal_mmio_read_val]
    rfl
  · simp only [pal_mmio_write_log, pal_mmio_read_log, pal_mmio_read_val, List.append_assoc,
      List.singleton_append]
    rfl

theorem chain_of_agree (K : Platform) (Bdf : Nat) (mem mem2 : Nat → Nat) (nodes : List Nat)
    (hagree : ∀ o ∈ nodes,
      wordAt mem2 (cfgWordAddr K Bdf o) = wordAt mem (cfgWordAddr K Bdf o))
    (hchain : IsCapChain (nodeNext K mem Bdf (capPtrMask K 1) (capPtrOffset K 1))
      (capHead K mem Bdf 1) nodes) :
    IsCapChain (nodeNext K mem2 Bdf (capPtrMask K 1) (capPtrOffset K 1))
        (capHead K mem2 Bdf 1) nodes ∧
      ∀ o ∈ nodes, nodeId K mem2 Bdf (capIdMask K 1) o = nodeId K mem Bdf (capIdMask K 1) o := by
  constructor
  · have hhead : capHead K mem2 Bdf 1 = capHead K mem Bdf 1 := by simp [capHead]
    rw [hhead]
    refine isCapChain_congr _ _ nodes _ ?_ hchain
    intro o ho
    unfold nodeNext
    rw [hagree o ho]
  · intro o ho
    unfold nodeId
    rw [hagree o ho]

theorem pasid_ctrl_after_writes (K : Platform) (fuel Bdf : Nat) (f : Nat → Nat) (s s2 : Hw)
    (nodes : List Nat) (hcap : K.PCIE_CAP_OFFSET < 2 ^ 32) (hpcie : K.PCIE = 1)
    (hchain : IsCapChain (nodeNext K s.mem Bdf (capPtrMask K 1) (capPtrOffset K 1))
      (capHead K s.mem Bdf 1) nodes)
    (hagree : ∀ o ∈ nodes,
      wordAt s2.mem (cfgWordAddr K Bdf o) = wordAt s.mem (cfgWordAddr K Bdf o))
    (hfuel : nodes.length < fuel) :
    ((∀ o ∈ nodes, nodeId K s.mem Bdf (capIdMask K 1) o ≠ K.PASID) →
        pasidCapabilityCtrl K fuel Bdf f s2 =
          some (1, ⟨s2.mem, s2.log ++ headReads K Bdf 1 ++ walkReads K Bdf nodes⟩)) ∧
      (∀ (pre : List Nat) (o : Nat) (post : List Nat), nodes = pre ++ o :: post →
        (∀ p ∈ pre, nodeId K s.mem Bdf (capIdMask K 1) p ≠ K.PASID) →
        nodeId K s.mem Bdf (capIdMask K 1) o = K.PASID →
        pasidCapabilityCtrl K fuel Bdf f s2 =
          some (0, ⟨Function.update s2.mem (capCtrlAddr K Bdf o)
                (u32 (f (wordAt s2.mem (capCtrlAddr K Bdf o)))),
              s2.log ++ headReads K Bdf 1 ++ walkReads K Bdf (pre ++ [o])
                ++ [MmioAccess.rd (capCtrlAddr K Bdf o),
                  MmioAccess.wr (capCtrlAddr K Bdf o)
                    (u32 (f (wordAt s2.mem (capCtrlAddr K Bdf o))))]⟩)) := by
  obtain ⟨hchain2, hid2⟩ := chain_of_agree K Bdf s.mem s2.mem nodes hagree hchain
  constructor
  · intro hnone
    exact pasidCapabilityCtrl_not_found K fuel Bdf f s2 nodes hcap hpcie hchain2
      (fun o ho => by rw [hid2 o ho]; exact hnone o ho) hfuel
  · intro pre o post hl hpre ho
    subst hl
    refine pasidCapabilityCtrl_found K fuel Bdf f s2 pre o post hcap hpcie hchain2 ?_ ?_ ?_
    · intro p hp
      rw [hid2 p (List.mem_append_left _ hp)]
      exact hpre p hp
    · rw [hid2 o (by simp)]
      exact ho
    · simp only [List.length_append, List.length_cons] at hfuel
      omega

theorem ops_pasid_start_eq (K : Platform) (fuel Param Bdf : Nat) (s : Hw)
    (hen : K.MASK_BIT <<< K.PASID_EN_SHIFT < 2 ^ 32) (hval : K.PASID_VAL_MASK < 2 ^ 32) :
    pal_exerciser_ops K fuel EXERCISER_OPS.PASID_TLP_START Param Bdf s =
      pasidCapabilityCtrl K fuel Bdf (fun w => w ||| K.PCIE_CAP_EN_MASK)
        ⟨Function.update
            (Function.update s.mem (ecsrAddr K Bdf K.DMACTL1)
              (wordAt s.mem (ecsrAddr K Bdf K.DMACTL1) ||| (K.MASK_BIT <<< K.PASID_EN_SHIFT)))
            (ecsrAddr K Bdf K.PASID_VAL) (Param &&& K.PASID_VAL_MASK),
          s.log ++ [MmioAccess.rd (ecsrAddr K Bdf K.DMACTL1),
            MmioAccess.wr (ecsrAddr K Bdf K.DMACTL1)
              (wordAt s.mem (ecsrAddr K Bdf K.DMACTL1) ||| (K.MASK_BIT <<< K.PASID_EN_SHIFT)),
            MmioAccess.wr (ecsrAddr K Bdf K.PASID_VAL) (Param &&& K.PASID_VAL_MASK)]⟩ := by
  have h1 : wordAt s.mem (ecsrAddr K Bdf K.DMACTL1) ||| (K.MASK_BIT <<< K.PASID_EN_SHIFT)
      < 2 ^ 32 := Nat.or_lt_two_pow (wordAt_lt _ _) hen
  have h2 : Param &&& K.PASID_VAL_MASK < 2 ^ 32 := Nat.lt_of_le_of_lt Nat.and_le_right hval
  simp only [pal_exerciser_ops]
  refine congrArg _ (hw_eq _ _ ?_ ?_)
  · simp only [pal_mmio_write_mem, pal_mmio_read_mem, pal_mmio_read_val, u64_ecsr_base_add,
      u32_u32, u32_of_lt h1, u32_of_lt h2]
  · simp only [pal_mmio_write_log, pal_mmio_read_log, pal_mmio_read_val, u64_ecsr_base_add,
      u32_u32, u32_of_lt h1, u32_of_lt h2, List.append_assoc, List.singleton_append,
      List.cons_append, List.nil_append]

theorem ops_pasid_stop_eq (K : Platform) (fuel Param Bdf : Nat) (s : Hw) :
    pal_exerciser_ops K fuel EXERCISER_OPS.PASID_TLP_STOP Param Bdf s =
      pasidCapabilityCtrl K fuel Bdf (fun w => w &&& K.PCIE_CAP_DIS_MASK)
        ⟨Function.update s.mem (ecsrAddr K Bdf K.DMACTL1)
            (wordAt s.mem (ecsrAddr K Bdf K.DMACTL1) &&& K.PASID_TLP_STOP_MASK),
          s.log ++ [MmioAccess.rd (ecsrAddr K Bdf K.DMACTL1),
            MmioAccess.wr (ecsrAddr K Bdf K.DMACTL1)
              (wordAt s.mem (ecsrAddr K Bdf K.DMACTL1) &&& K.PASID_TLP_STOP_MASK)]⟩ := by
  have h1 : wordAt s.mem (ecsrAddr K Bdf K.DMACTL1) &&& K.PASID_TLP_STOP_MASK < 2 ^ 32 :=
    and_lt_of_lt_left _ _ (wordAt_lt _ _)
  simp only [pal_exerciser_ops]
  refine congrArg _ (hw_eq _ _ ?_ ?_)
  · simp only [pal_mmio_write_mem, pal_mmio_read_mem, pal_mmio_read_val, u64_ecsr_base_add,
      u32_of_lt h1]
  · simp only [pal_mmio_write_log, pal_mmio_read_log, pal_mmio_read_val, u64_ecsr_base_add,
      u32_of_lt h1, List.append_assoc, List.singleton_append]

/-- C14: let the PCIe extended-capability chain of `Bdf` be the finite chain
`nodes`, let DMACTL1 and PASID_VAL be two distinct registers that are not words
of that chain, and let the masks `MASK_BIT << PASID_EN_SHIFT`, `PASID_VAL_MASK`
and `PCIE_CAP_EN_MASK` fit 32 bits.  With fuel for the chain,
`pal_exerciser_ops(PASID_TLP_START)` and `pal_exerciser_ops(PASID_TLP_STOP)`
return 0 exactly when some node of the chain carries the ID PASID, and 1
otherwise.  When no node carries it, START writes only DMACTL1 and PASID_VAL and
STOP writes only DMACTL1.  When the first node that carries it is `o`, and its
control word at `Ecam + configOffset(Bdf) + o + PCIE_CAP_CTRL_OFFSET` is not
one of the two registers, that word becomes `old | PCIE_CAP_EN_MASK` for START
and `old & PCIE_CAP_DIS_MASK` for STOP, and it is the only configuration-space
word written.  In both outcomes START leaves
DMACTL1 = `old | (MASK_BIT << PASID_EN_SHIFT)` and
PASID_VAL = `Param & PASID_VAL_MASK`, and STOP leaves
DMACTL1 = `old & PASID_TLP_STOP_MASK`; no other word changes. -/
theorem pasid_tlp_start_stop (K : Platform) (fuel Param Bdf : Nat) (s : Hw)
    (nodes : List Nat) (hcap : K.PCIE_CAP_OFFSET < 2 ^ 32) (hpcie : K.PCIE = 1)
    (hen : K.MASK_BIT <<< K.PASID_EN_SHIFT < 2 ^ 32) (hval : K.PASID_VAL_MASK < 2 ^ 32)
    (hcapen : K.PCIE_CAP_EN_MASK < 2 ^ 32)
    (hchain : IsCapChain (nodeNext K s.mem Bdf (capPtrMask K 1) (capPtrOffset K 1))
      (capHead K s.mem Bdf 1) nodes)
    (hsep : ∀ o ∈ nodes, cfgWordAddr K Bdf o ≠ ecsrAddr K Bdf K.DMACTL1 ∧
      cfgWordAddr K Bdf o ≠ ecsrAddr K Bdf K.PASID_VAL)
    (hreg : ecsrAddr K Bdf K.DMACTL1 ≠ ecsrAddr K Bdf K.PASID_VAL)
    (hfuel : nodes.length < fuel) :
    -- the status of both operations
    (∀ Ops, Ops = EXERCISER_OPS.PASID_TLP_START ∨ Ops = EXERCISER_OPS.PASID_TLP_STOP →
        ∃ (st : Nat) (s1 : Hw), pal_exerciser_ops K fuel Ops Param Bdf s = some (st, s1) ∧
          (st = 0 ∨ st = 1) ∧
          (st = 0 ↔ ∃ o ∈ nodes, nodeId K s.mem Bdf (capIdMask K 1) o = K.PASID)) ∧
      -- START, capability not found
      ((∀ o ∈ nodes, nodeId K s.mem Bdf (capIdMask K 1) o ≠ K.PASID) →
        ∃ s1 : Hw,
          pal_exerciser_ops K fuel EXERCISER_OPS.PASID_TLP_START Param Bdf s = some (1, s1) ∧
          s1.mem (ecsrAddr K Bdf K.DMACTL1) =
            wordAt s.mem (ecsrAddr K Bdf K.DMACTL1) ||| (K.MASK_BIT <<< K.PASID_EN_SHIFT) ∧
          s1.mem (ecsrAddr K Bdf K.PASID_VAL) = Param &&& K.PASID_VAL_MASK ∧
          writesOf s1.log = writesOf s.log ++
            [(ecsrAddr K Bdf K.DMACTL1,
                wordAt s.mem (ecsrAddr K Bdf K.DMACTL1) ||| (K.MASK_BIT <<< K.PASID_EN_SHIFT)),
              (ecsrAddr K Bdf K.PASID_VAL, Param &&& K.PASID_VAL_MASK)] ∧
          (∀ a, a ≠ ecsrAddr K Bdf K.DMACTL1 → a ≠ ecsrAddr K Bdf K.PASID_VAL →
            s1.mem a = s.mem a)) ∧
      -- START, capability found at `o`
      (∀ (pre : List Nat) (o : Nat) (post : List Nat), nodes = pre ++ o :: post →
        (∀ p ∈ pre, nodeId K s.mem Bdf (capIdMask K 1) p ≠ K.PASID) →
        nodeId K s.mem Bdf (capIdMask K 1) o = K.PASID →
        capCtrlAddr K Bdf o ≠ ecsrAddr K Bdf K.DMACTL1 →
        capCtrlAddr K Bdf o ≠ ecsrAddr K Bdf K.PASID_VAL →
        ∃ s1 : Hw,
          pal_exerciser_ops K fuel EXERCISER_OPS.PASID_TLP_START Param Bdf s = some (0, s1) ∧
          s1.mem (capCtrlAddr K Bdf o) =
            wordAt s.mem (capCtrlAddr K Bdf o) ||| K.PCIE_CAP_EN_MASK ∧
          s1.mem (ecsrAddr K Bdf K.DMACTL1) =
            wordAt s.mem (ecsrAddr K Bdf K.DMACTL1) ||| (K.MASK_BIT <<< K.PASID_EN_SHIFT) ∧
          s1.mem (ecsrAddr K Bdf K.PASID_VAL) = Param &&& K.PASID_VAL_MASK ∧
          writesOf s1.log = writesOf s.log ++
            [(ecsrAddr K Bdf K.DMACTL1,
                wordAt s.mem (ecsrAddr K Bdf K.DMACTL1) ||| (K.MASK_BIT <<< K.PASID_EN_SHIFT)),
              (ecsrAddr K Bdf K.PASID_VAL, Param &&& K.PASID_VAL_MASK),
              (capCtrlAddr K Bdf o,
                wordAt s.mem (capCtrlAddr K Bdf o) ||| K.PCIE_CAP_EN_MASK)] ∧
          (∀ a, a ≠ ecsrAddr K Bdf K.DMACTL1 → a ≠ ecsrAddr K Bdf K.PASID_VAL →
            a ≠ capCtrlAddr K Bdf o → s1.mem a = s.mem a)) ∧
      -- STOP, capability not found
      ((∀ o ∈ nodes, nodeId K s.mem Bdf (capIdMask K 1) o ≠ K.PASID) →
        ∃ s1 : Hw,
          pal_exerciser_ops K fuel EXERCISER_OPS.PASID_TLP_STOP Param Bdf s = some (1, s1) ∧
          s1.mem (ecsrAddr K Bdf K.DMACTL1) =
            wordAt s.mem (ecsrAddr K Bdf K.DMACTL1) &&& K.PASID_TLP_STOP_MASK ∧
          writesOf s1.log = writesOf s.log ++
            [(ecsrAddr K Bdf K.DMACTL1,
                wordAt s.mem (ecsrAddr K Bdf K.DMACTL1) &&& K.PASID_TLP_STOP_MASK)] ∧
          (∀ a, a ≠ ecsrAddr K Bdf K.DMACTL1 → s1.mem a = s.mem a)) ∧
      -- STOP, capability found at `o`
      (∀ (pre : List Nat) (o : Nat) (post : List Nat), nodes = pre ++ o :: post →
        (∀ p ∈ pre, nodeId K s.mem Bdf (capIdMask K 1) p ≠ K.PASID) →
        nodeId K s.mem Bdf (capIdMask K 1) o = K.PASID →
        capCtrlAddr K Bdf o ≠ ecsrAddr K Bdf K.DMACTL1 →
        ∃ s1 : Hw,
          pal_exerciser_ops K fuel EXERCISER_OPS.PASID_TLP_STOP Param Bdf s = some (0, s1) ∧
          s1.mem (capCtrlAddr K Bdf o) =
            wordAt s.mem (capCtrlAddr K Bdf o) &&& K.PCIE_CAP_DIS_MASK ∧
          s1.mem (ecsrAddr K Bdf K.DMACTL1) =
            wordAt s.mem (ecsrAddr K Bdf K.DMACTL1) &&& K.PASID_TLP_STOP_MASK ∧
          writesOf s1.log = writesOf s.log ++
            [(ecsrAddr K Bdf K.DMACTL1,
                wordAt s.mem (ecsrAddr K Bdf K.DMACTL1) &&& K.PASID_TLP_STOP_MASK),
              (capCtrlAddr K Bdf o,
                wordAt s.mem (capCtrlAddr K Bdf o) &&& K.PCIE_CAP_DIS_MASK)] ∧
          (∀ a, a ≠ ecsrAddr K Bdf K.DMACTL1 → a ≠ capCtrlAddr K Bdf o →
            s1.mem a = s.mem a)) := by
  -- START: the state handed to the capability lookup
  have hstart := ops_pasid_start_eq K fuel Param Bdf s hen hval
  have hstop := ops_pasid_stop_eq K fuel Param Bdf s
  have hagreeS : ∀ o ∈ nodes,
      wordAt (Function.update
          (Function.update s.mem (ecsrAddr K Bdf K.DMACTL1)
            (wordAt s.mem (ecsrAddr K Bdf K.DMACTL1) ||| (K.MASK_BIT <<< K.PASID_EN_SHIFT)))
          (ecsrAddr K Bdf K.PASID_VAL) (Param &&& K.PASID_VAL_MASK)) (cfgWordAddr K Bdf o)
        = wordAt s.mem (cfgWordAddr K Bdf o) := by
    intro o ho
    obtain ⟨h1, h2⟩ := hsep o ho
    rw [wordAt_update_of_ne _ _ _ _ h2, wordAt_update_of_ne _ _ _ _ h1]
  have hagreeT : ∀ o ∈ nodes,
      wordAt (Function.update s.mem (ecsrAddr K Bdf K.DMACTL1)
          (wordAt s.mem (ecsrAddr K Bdf K.DMACTL1) &&& K.PASID_TLP_STOP_MASK))
          (cfgWordAddr K Bdf o)
        = wordAt s.mem (cfgWordAddr K Bdf o) := by
    intro o ho
    rw [wordAt_update_of_ne _ _ _ _ (hsep o ho).1]
  obtain ⟨hSnf, hSf⟩ := pasid_ctrl_after_writes K fuel Bdf (fun w => w ||| K.PCIE_CAP_EN_MASK) s
    ⟨Function.update
        (Function.update s.mem (ecsrAddr K Bdf K.DMACTL1)
          (wordAt s.mem (ecsrAddr K Bdf K.DMACTL1) ||| (K.MASK_BIT <<< K.PASID_EN_SHIFT)))
        (ecsrAddr K Bdf K.PASID_VAL) (Param &&& K.PASID_VAL_MASK),
      s.log ++ [MmioAccess.rd (ecsrAddr K Bdf K.DMACTL1),
        MmioAccess.wr (ecsrAddr K Bdf K.DMACTL1)
          (wordAt s.mem (ecsrAddr K Bdf K.DMACTL1) ||| (K.MASK_BIT <<< K.PASID_EN_SHIFT)),
        MmioAccess.wr (ecsrAddr K Bdf K.PASID_VAL) (Param &&& K.PASID_VAL_MASK)]⟩
    nodes hcap hpcie hchain hagreeS hfuel
  obtain ⟨hTnf, hTf⟩ := pasid_ctrl_after_writes K fuel Bdf (fun w => w &&& K.PCIE_CAP_DIS_MASK) s
    ⟨Function.update s.mem (ecsrAddr K Bdf K.DMACTL1)
        (wordAt s.mem (ecsrAddr K Bdf K.DMACTL1) &&& K.PASID_TLP_STOP_MASK),
      s.log ++ [MmioAccess.rd (ecsrAddr K Bdf K.DMACTL1),
        MmioAccess.wr (ecsrAddr K Bdf K.DMACTL1)
          (wordAt s.mem (ecsrAddr K Bdf K.DMACTL1) &&& K.PASID_TLP_STOP_MASK)]⟩
    nodes hcap hpcie hchain hagreeT hfuel
  rw [← hstart] at hSnf hSf
  rw [← hstop] at hTnf hTf
  refine ⟨?_, ?_, ?_, ?_, ?_⟩
  · -- status
    intro Ops hOps
    rcases first_match_or_none (fun o => nodeId K s.mem Bdf (capIdMask K 1) o = K.PASID) nodes
      with hnone | ⟨pre, o, post, hl, hpre, ho⟩
    · have hno : ¬ ∃ o ∈ nodes, nodeId K s.mem Bdf (capIdMask K 1) o = K.PASID := by
        rintro ⟨o, ho, hid⟩
        exact hnone o ho hid
      rcases hOps with rfl | rfl
      · exact ⟨1, _, hSnf hnone, Or.inr rfl,
          ⟨fun h => absurd h (by decide), fun h => absurd h hno⟩⟩
      · exact ⟨1, _, hTnf hnone, Or.inr rfl,
          ⟨fun h => absurd h (by decide), fun h => absurd h hno⟩⟩
    · have hyes : ∃ o ∈ nodes, nodeId K s.mem Bdf (capIdMask K 1) o = K.PASID :=
        ⟨o, by rw [hl]; simp, ho⟩
      rcases hOps with rfl | rfl
      · exact ⟨0, _, hSf pre o post hl hpre ho, Or.inl rfl, ⟨fun _ => hyes, fun _ => rfl⟩⟩
      · exact ⟨0, _, hTf pre o post hl hpre ho, Or.inl rfl, ⟨fun _ => hyes, fun _ => rfl⟩⟩
  · -- START, not found
    intro hnone
    refine ⟨_, hSnf hnone, ?_, ?_, ?_, ?_⟩
    · show Function.update _ _ _ _ = _
      rw [Function.update_noteq hreg, Function.update_same]
    · show Function.update _ _ _ _ = _
      rw [Function.update_same]
    · simp [writesOf_append, writesOf, writesOf_walkReads, writesOf_headReads]
    · intro a ha1 ha2
      show Function.update _ _ _ _ = _
      rw [Function.update_noteq ha2, Function.update_noteq ha1]
  · -- START, found
    intro pre o post hl hpre ho hc1 hc2
    have hw : wordAt (Function.update
          (Function.update s.mem (ecsrAddr K Bdf K.DMACTL1)
            (wordAt s.mem (ecsrAddr K Bdf K.DMACTL1) ||| (K.MASK_BIT <<< K.PASID_EN_SHIFT)))
          (ecsrAddr K Bdf K.PASID_VAL) (Param &&& K.PASID_VAL_MASK)) (capCtrlAddr K Bdf o)
        = wordAt s.mem (capCtrlAddr K Bdf o) := by
      rw [wordAt_update_of_ne _ _ _ _ hc2, wordAt_update_of_ne _ _ _ _ hc1]
    have hlt : wordAt s.mem (capCtrlAddr K Bdf o) ||| K.PCIE_CAP_EN_MASK < 2 ^ 32 :=
      Nat.or_lt_two_pow (wordAt_lt _ _) hcapen
    have hcall := hSf pre o post hl hpre ho
    simp only [hw, u32_of_lt hlt] at hcall
    refine ⟨_, hcall, ?_, ?_, ?_, ?_, ?_⟩
    · show Function.update _ _ _ _ = _
      rw [Function.update_same]
    · show Function.update _ _ _ _ = _
      rw [Function.update_noteq (Ne.symm hc1), Function.update_noteq hreg,
        Function.update_same]
    · show Function.update _ _ _ _ = _
      rw [Function.update_noteq (Ne.symm hc2), Function.update_same]
    · simp [writesOf_append, writesOf, writesOf_walkReads, writesOf_headReads]
    · intro a ha1 ha2 ha3
      show Function.update _ _ _ _ = _
      rw [Function.update_noteq ha3, Function.update_noteq ha2, Function.update_noteq ha1]
  · -- STOP, not found
    intro hnone
    refine ⟨_, hTnf hnone, ?_, ?_, ?_⟩
    · show Function.update _ _ _ _ = _
      rw [Function.update_same]
    · simp [writesOf_append, writesOf, writesOf_walkReads, writesOf_headReads]
    · intro a ha1
      show Function.update _ _ _ _ = _
      rw [Function.update_noteq ha1]
  · -- STOP, found
    intro pre o post hl hpre ho hc1
    have hw : wordAt (Function.update s.mem (ecsrAddr K Bdf K.DMACTL1)
          (wordAt s.mem (ecsrAddr K Bdf K.DMACTL1) &&& K.PASID_TLP_STOP_MASK))
          (capCtrlAddr K Bdf o)
        = wordAt s.mem (capCtrlAddr K Bdf o) := by
      rw [wordAt_update_of_ne _ _ _ _ hc1]
    have hlt : wordAt s.mem (capCtrlAddr K Bdf o) &&& K.PCIE_CAP_DIS_MASK < 2 ^ 32 :=
      and_lt_of_lt_left _ _ (wordAt_lt _ _)
    have hcall := hTf pre o post hl hpre ho
    simp only [hw, u32_of_lt hlt] at hcall
    refine ⟨_, hcall, ?_, ?_, ?_, ?_⟩
    · show Function.update _ _ _ _ = _
      rw [Function.update_same]
    · show Function.update _ _ _ _ = _
      rw [Function.update_noteq (Ne.symm hc1), Function.update_same]
    · simp [writesOf_append, writesOf, writesOf_walkReads, writesOf_headReads]
    · intro a ha1 ha2
      show Function.update _ _ _ _ = _
      rw [Function.update_noteq ha2, Function.update_noteq ha1]

/-- C14 at work on the reference platform, on the chain of `pasidCfgMem`
(`0x100`, then the PASID capability at `0x140`): PASID_TLP_START with value 7
returns 0, sets bit 16 of the control word at `0x144` (`0x3` becomes `0x10003`),
and leaves DMACTL1 = `0x11 | 0x40` and PASID_VAL = 7. -/
theorem pasid_tlp_start_stop_witness :
    ∃ s1 : Hw,
      pal_exerciser_ops refPlatform 3 EXERCISER_OPS.PASID_TLP_START 7 0
        { mem := pasidCfgMem, log := [] } = some (0, s1) ∧
      s1.mem 0x40000144 = 0x10003 ∧ s1.mem 0x80000008 = 0x51 ∧ s1.mem 0x80000020 = 7 := by
  have h := (pasid_tlp_start_stop refPlatform 3 7 0 { mem := pasidCfgMem, log := [] }
    [0x100, 0x140] (by decide) (by decide) (by decide) (by decide) (by decide)
    (by simp only [IsCapChain]; decide)
    (by
      intro o ho
      simp only [List.mem_cons, List.mem_singleton, List.not_mem_nil, or_false] at ho
      rcases ho with rfl | rfl <;> decide)
    (by decide) (by decide)).2.2.1 [0x100] 0x140 [] rfl
    (by intro p hp; rw [List.mem_singleton] at hp; subst hp; decide)
    (by decide) (by decide) (by decide)
  obtain ⟨s1, h1, h2, h3, h4, -⟩ := h
  exact ⟨s1, h1, h2, h3, h4⟩

end PalExerciser
